import Mathlib

/-!
# Notification service: fan-out, scheduling and channel handlers

Shallow embedding of
* `notification-service/src/workers/notificationWorkers.js`
  (`getUserPreferences`, `logNotification`, the `send-notification`,
  `send-sms` and `scheduled-notification` processors), and
* `notification-service/src/app.js` (`POST /api/notifications/send`).

Bull queues are modelled as explicit state: a queue holds its jobs in insertion
order, the next job id, and a script of outcomes for the coming `add` calls, so
that an `add` which rejects (the `await` throws) is part of the model.
Clock reads (`new Date()`) are passed in as arguments. Console output is not
modelled, except the in-process websocket delivery, which is recorded.
-/

namespace NotificationService

/-! ## JavaScript values and objects -/

/-- The JavaScript values a stored preference field can hold. -/
inductive JsVal where
  | undefined
  | null
  | bool (b : Bool)
  | num (n : Int)
  | str (s : String)
  | arr (items : List String)
deriving DecidableEq, Repr

/-- JavaScript truthiness (`!!v`). -/
def JsVal.truthy : JsVal → Bool
  | .undefined => false
  | .null => false
  | .bool b => b
  | .num n => n != 0
  | .str s => s != ""
  | .arr _ => true

/-- Truthiness of an optional string (`undefined` and `''` are falsy). -/
def strTruthy : Option String → Bool
  | none => false
  | some s => s != ""

/-- A plain object with string values, keys in insertion order. -/
abbrev JsObj := List (String × String)

/-- The assignment `o[k] = v` on an object: overwrite in place, else append. -/
def setKey (o : JsObj) (k v : String) : JsObj :=
  if o.any (fun p => p.1 == k) then
    o.map (fun p => if p.1 = k then (k, v) else p)
  else
    o ++ [(k, v)]

/-! ## Data model -/

/-- One entry of `preferences`, e.g. `budgetAlerts: { push, email, sms, warningThreshold, ... }`. -/
abbrev PrefEntry := List (String × JsVal)

/-- The `preferences` object of a NotificationPreference document: key ↦ entry. -/
abbrev Preferences := List (String × PrefEntry)

/-- A stored NotificationPreference document (models/NotificationPreference.js). -/
structure NotificationPreference where
  userId : String
  preferences : Preferences
deriving Repr

/-- A value that a property read reaches through the prototype chain of an object and not
through one of its own keys (a method such as `constructor` or `toString`, the prototype for
`__proto__`): whether the value is truthy, and the names of the properties of that value that
read as something truthy. -/
structure InheritedMember where
  truthy : Bool
  truthyProps : List String
deriving DecidableEq, Repr

/-- The object `preferences.preferences` of a document as a query returns it: the stored
entries are its own keys; `inherited` is what a read of any other name on it reaches through its
prototype chain; `entryInherited` lists the names, other than its own keys, that read as
something truthy on an entry of it (through the prototype chain of the entry). -/
structure PreferencesObject where
  own : Preferences
  inherited : List (String × InheritedMember)
  entryInherited : List String
deriving DecidableEq, Repr

/-- The payload `notificationData` carried by notification jobs. The fields `userId` and `channel`
are the ones the fan-out adds to sub-jobs; `phone` and `email` are read by the channel handlers and
are present only when the caller put them in the payload. `recipients` and `channels` are arrays of
strings, as the send endpoint builds them. -/
structure NotificationData where
  type : String
  title : String
  message : String
  channels : List String
  recipients : List String
  data : JsObj
  priority : String
  senderId : String
  createdAt : Int
  userId : Option String
  channel : Option String
  phone : Option String
  email : Option String
deriving DecidableEq, Repr

/-- Bull job options as this service passes them. -/
structure JobOpts where
  delay : Option Int
  attempts : Option Int
  backoffType : Option String
  backoffDelay : Option Int
deriving DecidableEq, Repr

/-- A job stored in a Bull queue. -/
structure Job where
  id : Nat
  name : String
  data : NotificationData
  opts : JobOpts
deriving DecidableEq, Repr

/-- A Bull queue: stored jobs in insertion order, the id the next job gets, and the outcomes of
the coming `add` calls (`some msg`: that call rejects with an error of message `msg`;
`none`, or an exhausted script: it succeeds). -/
structure Queue where
  nextId : Nat
  jobs : List Job
  faults : List (Option String)
deriving Repr

/-- The call `queue.add(name, data, opts)`: either rejects, leaving the stored jobs alone, or
stores a new job with a fresh id and returns it. -/
def Queue.add (q : Queue) (name : String) (data : NotificationData) (opts : JobOpts) :
    Except String Job × Queue :=
  match q.faults with
  | some msg :: rest => (.error msg, { q with faults := rest })
  | none :: rest =>
    let job : Job := { id := q.nextId, name := name, data := data, opts := opts }
    (.ok job, { nextId := q.nextId + 1, jobs := q.jobs ++ [job], faults := rest })
  | [] =>
    let job : Job := { id := q.nextId, name := name, data := data, opts := opts }
    (.ok job, { nextId := q.nextId + 1, jobs := q.jobs ++ [job], faults := [] })

/-- Options of an `add` call without a third argument. -/
def noOpts : JobOpts := { delay := none, attempts := none, backoffType := none, backoffDelay := none }

/-- The five queues of the notification service (`new Bull(...)`, lines 20-24). -/
inductive QueueName where
  | notification
  | email
  | sms
  | push
  | scheduled
deriving DecidableEq, Repr

/-- The NotificationPreference collection: stored documents, the user ids for which `findOne`
currently rejects, and the prototype chains of the objects that a query hands out (see
`PreferencesObject`); these belong to the JavaScript runtime and the mongoose library, not to
this repository. -/
structure PreferenceStore where
  docs : List NotificationPreference
  failing : List String
  inherited : List (String × InheritedMember)
  entryInherited : List String
deriving Repr

/-- The query `NotificationPreference.findOne({ userId })`. -/
def PreferenceStore.findOne (s : PreferenceStore) (userId : String) :
    Except String (Option NotificationPreference) :=
  if userId ∈ s.failing then .error "findOne failed"
  else .ok (s.docs.find? (fun d => d.userId == userId))

/-- A NotificationLog document, restricted to the schema paths that `logNotification` sets or
that have defaults (models/NotificationLog.js; mongoose drops the non-schema keys). -/
structure NotificationLogDoc where
  jobId : Option String
  type : String
  title : String
  message : String
  channels : List String
  recipients : List String
  senderId : String
  status : String
  priority : String
  data : JsObj
  error : Option String
deriving DecidableEq, Repr

/-- The state the service acts on. -/
structure World where
  notificationQueue : Queue
  emailQueue : Queue
  smsQueue : Queue
  pushQueue : Queue
  scheduledQueue : Queue
  preferenceStore : PreferenceStore
  logs : List NotificationLogDoc
  websocketSent : List NotificationData
deriving Repr

/-- Read a queue by name. -/
def World.queue (w : World) : QueueName → Queue
  | .notification => w.notificationQueue
  | .email => w.emailQueue
  | .sms => w.smsQueue
  | .push => w.pushQueue
  | .scheduled => w.scheduledQueue

/-- Replace a queue by name. -/
def World.setQueue (w : World) (n : QueueName) (q : Queue) : World :=
  match n with
  | .notification => { w with notificationQueue := q }
  | .email => { w with emailQueue := q }
  | .sms => { w with smsQueue := q }
  | .push => { w with pushQueue := q }
  | .scheduled => { w with scheduledQueue := q }

/-! ## notificationWorkers.js -/

/-- Schema validation run by `log.save()` (required paths and enums of notificationLogSchema). -/
def NotificationLogDoc.valid (d : NotificationLogDoc) : Bool :=
  strTruthy d.jobId
  && d.type ∈ ["transaction_alert", "budget_alert", "investment_update", "security_alert",
        "market_news", "payment_reminder", "goal_milestone", "system_notification"]
  && d.title != "" && d.message != ""
  && d.channels.all (fun c => c ∈ ["push", "email", "sms", "websocket"])
  && d.recipients.all (fun r => r != "")
  && d.senderId != ""
  && d.status ∈ ["pending", "processing", "sent", "failed", "cancelled"]
  && d.priority ∈ ["low", "normal", "high", "urgent"]

/-- The function `logNotification` (lines 63-85): build the log document and save it; a failing
save is caught and only printed. Its fourth argument `result` is not a schema path, so mongoose
drops it from the document; it is left out here. -/
def logNotification (w : World) (notificationData : NotificationData) (status : String)
    (error : Option String) : World :=
  let log : NotificationLogDoc :=
    { jobId := none
      type := notificationData.type
      title := notificationData.title
      message := notificationData.message
      channels := notificationData.channels
      recipients := notificationData.recipients
      senderId := notificationData.senderId
      status := status
      priority := "normal"
      data := notificationData.data
      error := error }
  if log.valid then { w with logs := w.logs ++ [log] } else w

/-- The function `getUserPreferences` (lines 87-95). -/
def getUserPreferences (s : PreferenceStore) (userId : String) : Option PreferencesObject :=
  match s.findOne userId with
  | .ok (some preferences) =>
    some { own := preferences.preferences, inherited := s.inherited,
           entryInherited := s.entryInherited }
  | .ok none => none
  | .error _ => none

/-- The guard of line 183:
`preferences && preferences[type] && !preferences[type][channel]`. Both property reads are
plain JavaScript reads: an own key first, then the prototype chain. A stored entry is an object,
hence truthy. -/
def channelDisabled (preferences : Option PreferencesObject) (type channel : String) : Bool :=
  match preferences with
  | none => false
  | some prefs =>
    match prefs.own.lookup type with
    | some entry =>
      match entry.lookup channel with
      | some value => !value.truthy
      | none => !(prefs.entryInherited.contains channel)
    | none =>
      match prefs.inherited.lookup type with
      | some member => member.truthy && !(member.truthyProps.contains channel)
      | none => false

/-- Loop state of the send-notification processor: the world, `results` and `errors`. -/
structure FanOutState where
  world : World
  results : JsObj
  errors : List String
deriving Repr

/-- One queued arm of the channel switch (lines 189-214): add the sub-job
`{...notificationData, userId, channel}` to the channel queue and record `queued`; when the add
throws, the inner catch (lines 225-228) records the error instead. -/
def enqueueSubJob (st : FanOutState) (qn : QueueName) (jobName channel : String)
    (notificationData : NotificationData) (userId : String) : FanOutState :=
  match (st.world.queue qn).add jobName
      { notificationData with userId := some userId, channel := some channel } noOpts with
  | (.ok _, q) =>
    { world := st.world.setQueue qn q
      results := setKey st.results (userId ++ "_" ++ channel) "queued"
      errors := st.errors }
  | (.error msg, q) =>
    { world := st.world.setQueue qn q
      results := st.results
      errors := st.errors ++ [channel ++ ":" ++ userId ++ " - " ++ msg] }

/-- Body of the channel loop (lines 180-229). -/
def processChannel (notificationData : NotificationData) (userId : String)
    (preferences : Option PreferencesObject) (st : FanOutState) (channel : String) : FanOutState :=
  if channelDisabled preferences notificationData.type channel then st
  else if channel = "push" then
    enqueueSubJob st .push "send-push" "push" notificationData userId
  else if channel = "email" then
    enqueueSubJob st .email "send-email" "email" notificationData userId
  else if channel = "sms" then
    enqueueSubJob st .sms "send-sms" "sms" notificationData userId
  else if channel = "websocket" then
    { world := { st.world with
        websocketSent := st.world.websocketSent ++ [{ notificationData with userId := some userId }] }
      results := setKey st.results (userId ++ "_" ++ "websocket") "sent"
      errors := st.errors }
  else st

/-- Body of the recipient loop (lines 173-230). -/
def processRecipient (notificationData : NotificationData) (st : FanOutState) (userId : String) :
    FanOutState :=
  let preferences := getUserPreferences st.world.preferenceStore userId
  notificationData.channels.foldl (processChannel notificationData userId preferences) st

/-- The two nested loops of the send-notification processor (lines 169-230). -/
def fanOut (w : World) (notificationData : NotificationData) : FanOutState :=
  notificationData.recipients.foldl (processRecipient notificationData)
    { world := w, results := [], errors := [] }

/-- Return value of the send-notification processor. -/
structure SendNotificationResult where
  success : Bool
  results : JsObj
  errors : Option (List String)
  processedAt : Int
deriving DecidableEq, Repr

/-- The processor `notificationQueue.process('send-notification', ...)` (lines 164-248). With
`recipients` and `channels` arrays nothing in the outer `try` throws, so the processor returns. -/
def sendNotificationHandler (w : World) (job : Job) (now : Int) :
    World × SendNotificationResult :=
  let notificationData := job.data
  let st := fanOut w notificationData
  let w1 := logNotification st.world notificationData "processed" none
  (w1, { success := true
         results := st.results
         errors := if st.errors.length > 0 then some st.errors else none
         processedAt := now })

/-- Return value of the scheduled-notification processor. -/
structure ScheduledResult where
  success : Bool
  newJobId : Nat
  originalScheduledJob : Nat
  processedAt : Int
deriving DecidableEq, Repr

/-- The processor `scheduledQueue.process('scheduled-notification', ...)` (lines 497-523): add
the payload of the scheduled job to the main queue; an add that throws is rethrown. -/
def scheduledNotificationHandler (w : World) (job : Job) (now : Int) :
    World × Except String ScheduledResult :=
  let notificationData := job.data
  match w.notificationQueue.add "send-notification" notificationData
      { delay := none, attempts := some 3, backoffType := some "exponential",
        backoffDelay := some 5000 } with
  | (.ok newJob, q) =>
    ({ w with notificationQueue := q },
      .ok { success := true, newJobId := newJob.id, originalScheduledJob := job.id,
            processedAt := now })
  | (.error msg, q) => ({ w with notificationQueue := q }, .error msg)

/-- An error object thrown by a provider SDK. -/
structure JsError where
  message : String
  code : Option String
deriving DecidableEq, Repr

/-- Argument of `smsClient.messages.create` (`fromNumber` and `toNumber` are its keys `from`
and `to`). -/
structure SmsMessage where
  body : String
  fromNumber : String
  toNumber : String
deriving DecidableEq, Repr

/-- SMS configuration of the worker module: `smsClient` (lines 48-60; `none` when Twilio is not
configured or its set-up threw), with `messages.create` returning the message sid or throwing,
and the environment variable `TWILIO_PHONE_NUMBER`. -/
structure SmsConfig where
  smsClient : Option (SmsMessage → Except JsError String)
  TWILIO_PHONE_NUMBER : Option String

/-- Return value of the send-sms processor; absent keys are `none`. -/
structure SmsResult where
  success : Bool
  simulation : Option Bool
  messageSid : Option String
  error : Option String
  recipient : String
  processedAt : Option Int
deriving DecidableEq, Repr

/-- The processor `smsQueue.process('send-sms', ...)` (lines 431-494). Its only effects besides
the provider call are console prints; `.error` would be a rethrown exception. -/
def sendSmsHandler (cfg : SmsConfig) (job : Job) (now : Int) : Except String SmsResult :=
  let notificationData := job.data
  let phoneNumber :=
    if strTruthy notificationData.phone then notificationData.phone.getD "" else "+1234567890"
  let message := notificationData.title ++ "\n\n" ++ notificationData.message ++
    "\n\nType: " ++ notificationData.type
  match cfg.smsClient, strTruthy cfg.TWILIO_PHONE_NUMBER with
  | some create, true =>
    match create { body := message, fromNumber := cfg.TWILIO_PHONE_NUMBER.getD "",
                   toNumber := phoneNumber } with
    | .ok sid =>
      .ok { success := true, simulation := none, messageSid := some sid, error := none,
            recipient := phoneNumber, processedAt := some now }
    | .error twilioError =>
      .ok { success := true, simulation := some true, messageSid := none,
            error := some twilioError.message, recipient := phoneNumber, processedAt := none }
  | _, _ =>
    .ok { success := true, simulation := some true, messageSid := none, error := none,
          recipient := phoneNumber, processedAt := some now }

/-! ## app.js: `POST /api/notifications/send` -/

/-- The environment variables read by the send endpoint, after `parseInt` (`none` is `NaN`,
which is also what an unset variable gives). -/
structure RetryEnv where
  RETRY_ATTEMPTS : Option Int
  RETRY_DELAY : Option Int
deriving DecidableEq, Repr

/-- The expression `parseInt(x) || d`. -/
def orDefault (x : Option Int) (d : Int) : Int :=
  match x with
  | some n => if n = 0 then d else n
  | none => d

/-- Body of a send request; an absent key is `none`. `scheduled` is an ISO date string, as in
`schemas.notification`, given by the instant it denotes (epoch milliseconds). -/
structure SendBody where
  type : Option String
  title : Option String
  message : Option String
  channels : Option (List String)
  recipients : Option (List String)
  data : Option JsObj
  priority : Option String
  scheduled : Option Int
deriving DecidableEq, Repr

/-- An HTTP response of the send endpoint: status code and the keys of the JSON body. -/
structure Response where
  status : Nat
  error : Option String
  success : Option Bool
  jobId : Option Nat
  jobStatus : Option String
  scheduledFor : Option Int
  message : Option String
deriving DecidableEq, Repr

/-- The response `res.status(code).json({ error })`. -/
def errorResponse (code : Nat) (error : String) : Response :=
  { status := code, error := some error, success := none, jobId := none, jobStatus := none,
    scheduledFor := none, message := none }

/-- The route handler of `POST /api/notifications/send` (lines 275-335), run for an authenticated
request: `userId` is `req.user.id`, `createdAt` and `now` are the clock reads of lines 301
and 307. -/
def postNotificationsSend (env : RetryEnv) (userId : String) (createdAt now : Int)
    (body : SendBody) (w : World) : World × Response :=
  if !strTruthy body.type || !strTruthy body.title || !strTruthy body.message then
    (w, errorResponse 400 "Type, title, and message are required")
  else
    let notificationData : NotificationData :=
      { type := body.type.getD ""
        title := body.title.getD ""
        message := body.message.getD ""
        channels := body.channels.getD ["push"]
        recipients := match body.recipients with
          | some recipients => recipients
          | none => [userId]
        data := body.data.getD []
        priority := body.priority.getD "normal"
        senderId := userId
        createdAt := createdAt
        userId := none
        channel := none
        phone := none
        email := none }
    match body.scheduled with
    | some scheduled =>
      match w.scheduledQueue.add "scheduled-notification" notificationData
          { delay := some (scheduled - now)
            attempts := some (orDefault env.RETRY_ATTEMPTS 3)
            backoffType := some "exponential"
            backoffDelay := some (orDefault env.RETRY_DELAY 5000) } with
      | (.ok job, q) =>
        ({ w with scheduledQueue := q },
          { status := 200, error := none, success := some true, jobId := some job.id,
            jobStatus := some "scheduled", scheduledFor := some scheduled,
            message := some "Notification scheduled successfully" })
      | (.error _, q) =>
        ({ w with scheduledQueue := q }, errorResponse 500 "Failed to send notification")
    | none =>
      match w.notificationQueue.add "send-notification" notificationData
          { delay := none
            attempts := some (orDefault env.RETRY_ATTEMPTS 3)
            backoffType := some "exponential"
            backoffDelay := some (orDefault env.RETRY_DELAY 5000) } with
      | (.ok job, q) =>
        ({ w with notificationQueue := q },
          { status := 200, error := none, success := some true, jobId := some job.id,
            jobStatus := some "queued", scheduledFor := none,
            message := some "Notification queued successfully" })
      | (.error _, q) =>
        ({ w with notificationQueue := q }, errorResponse 500 "Failed to send notification")

/-! ## Specification vocabulary and sample inputs -/

/-- Jobs that are in queue `n` of `w1` beyond those already in `w0`. -/
def addedJobs (w0 w1 : World) (n : QueueName) : List Job :=
  (w1.queue n).jobs.drop (w0.queue n).jobs.length

/-- The channel whose sub-jobs a queue receives (the three queued arms of the switch). -/
def queueChannel : QueueName → Option String
  | .push => some "push"
  | .email => some "email"
  | .sms => some "sms"
  | .notification => none
  | .scheduled => none

/-- The payload of the sub-job for recipient `userId` on `channel`
(`{...notificationData, userId, channel}`). -/
def subJobData (notificationData : NotificationData) (userId channel : String) :
    NotificationData :=
  { notificationData with userId := some userId, channel := some channel }

/-- Every `add` on every queue of the world succeeds. -/
def NoFaults (w : World) : Prop :=
  ∀ qn : QueueName, ∀ f ∈ (w.queue qn).faults, f = none

/-- The world `w1` has the same preference store as `w0` and, queue by queue, the jobs of `w0`
followed by further jobs that all satisfy `P`. -/
def Grows (P : QueueName → Job → Prop) (w0 w1 : World) : Prop :=
  w1.preferenceStore = w0.preferenceStore ∧
  ∀ qn : QueueName, ∃ added : List Job,
    (w1.queue qn).jobs = (w0.queue qn).jobs ++ added ∧ ∀ j ∈ added, P qn j

/-- Provenance of a sub-job of the fan-out of `notificationData` started in world `w`: it was
built for a recipient and a requested channel that the preference check lets through, and sits
in the queue of that channel. -/
def FromEnabledPair (w : World) (notificationData : NotificationData) (qn : QueueName)
    (j : Job) : Prop :=
  ∃ u ∈ notificationData.recipients, ∃ c ∈ notificationData.channels,
    channelDisabled (getUserPreferences w.preferenceStore u) notificationData.type c = false ∧
    queueChannel qn = some c ∧ j.data = subJobData notificationData u c ∧ j.opts = noOpts

/-- Provenance of a key of `results`: it was written for a recipient and a requested channel
that the preference check lets through. -/
def KeyFromEnabledPair (w : World) (notificationData : NotificationData) (k v : String) : Prop :=
  ∃ u ∈ notificationData.recipients, ∃ c ∈ notificationData.channels,
    channelDisabled (getUserPreferences w.preferenceStore u) notificationData.type c = false ∧
    c ∈ ["push", "email", "sms", "websocket"] ∧ k = u ++ "_" ++ c ∧
    v = (if c = "websocket" then "sent" else "queued")

/-- Invariant of both loops of the fan-out started in world `w`. -/
def FanOutSound (w : World) (nd : NotificationData) (st : FanOutState) : Prop :=
  Grows (FromEnabledPair w nd) w st.world ∧
  ∀ p ∈ st.results, KeyFromEnabledPair w nd p.1 p.2

/-- An empty queue whose `add` calls succeed; Bull numbers jobs from 1. -/
def emptyQueue : Queue := { nextId := 1, jobs := [], faults := [] }

/-- Names that read as something truthy on every function: the members that a function
inherits from `Function.prototype` and `Object.prototype`, and its `name`. -/
def functionProps : List String :=
  ["constructor", "toString", "toLocaleString", "valueOf", "hasOwnProperty", "isPrototypeOf",
   "propertyIsEnumerable", "__proto__", "apply", "bind", "call", "name"]

/-- What a plain object inherits from `Object.prototype`: the standard methods, each a function,
and `__proto__`, the prototype itself. None of them has a property named after a channel. -/
def objectPrototype : List (String × InheritedMember) :=
  [("constructor", { truthy := true, truthyProps := functionProps }),
   ("toString", { truthy := true, truthyProps := functionProps }),
   ("toLocaleString", { truthy := true, truthyProps := functionProps }),
   ("valueOf", { truthy := true, truthyProps := functionProps }),
   ("hasOwnProperty", { truthy := true, truthyProps := functionProps }),
   ("isPrototypeOf", { truthy := true, truthyProps := functionProps }),
   ("propertyIsEnumerable", { truthy := true, truthyProps := functionProps }),
   ("__proto__", { truthy := true,
                   truthyProps := ["constructor", "toString", "toLocaleString", "valueOf",
                     "hasOwnProperty", "isPrototypeOf", "propertyIsEnumerable"] })]

/-- The object that a query returns for the stored entries `own`, in a runtime whose objects
inherit `objectPrototype`. -/
def plainObject (own : Preferences) : PreferencesObject :=
  { own := own, inherited := objectPrototype, entryInherited := objectPrototype.map Prod.fst }

/-- Stored preferences of user `u1`: the defaults of the NotificationPreference schema, with
`budgetAlerts.email` switched off (and `budgetAlerts.push` on). -/
def u1Preferences : Preferences :=
  [("transactionAlerts", [("push", .bool true), ("email", .bool true), ("sms", .bool false),
      ("threshold", .num 0)]),
   ("budgetAlerts", [("push", .bool true), ("email", .bool false), ("sms", .bool false),
      ("warningThreshold", .num 80), ("criticalThreshold", .num 95)]),
   ("investmentUpdates", [("push", .bool true), ("email", .bool true), ("sms", .bool false),
      ("frequency", .str "daily"), ("priceChangeThreshold", .num 5)]),
   ("securityAlerts", [("push", .bool true), ("email", .bool true), ("sms", .bool true)]),
   ("marketNews", [("push", .bool false), ("email", .bool true), ("sms", .bool false),
      ("categories", .arr [])]),
   ("paymentReminders", [("push", .bool true), ("email", .bool true), ("sms", .bool false),
      ("daysBefore", .num 3)]),
   ("goalMilestones", [("push", .bool true), ("email", .bool true), ("sms", .bool false)]),
   ("systemNotifications", [("push", .bool true), ("email", .bool true), ("sms", .bool false)])]

/-- A world with empty queues in which only `u1` has a stored preference document; the objects
read from the store inherit `objectPrototype`. -/
def u1World : World :=
  { notificationQueue := emptyQueue
    emailQueue := emptyQueue
    smsQueue := emptyQueue
    pushQueue := emptyQueue
    scheduledQueue := emptyQueue
    preferenceStore :=
      { docs := [{ userId := "u1", preferences := u1Preferences }], failing := [],
        inherited := objectPrototype, entryInherited := objectPrototype.map Prod.fst }
    logs := []
    websocketSent := [] }

/-- A request of the given type to `u1` on push and email, as the send endpoint builds it. -/
def u1Request (type : String) : NotificationData :=
  { type := type
    title := "Budget"
    message := "90% used"
    channels := ["push", "email"]
    recipients := ["u1"]
    data := []
    priority := "normal"
    senderId := "admin"
    createdAt := 0
    userId := none
    channel := none
    phone := none
    email := none }

/-- The send-notification job carrying `u1Request type`. -/
def u1Job (type : String) : Job :=
  { id := 1, name := "send-notification", data := u1Request type,
    opts := { delay := none, attempts := some 3, backoffType := some "exponential",
              backoffDelay := some 5000 } }

/-- Payloads that processing channel `c` for recipient `u` puts in queue `qn` when the add
succeeds: the sub-job payload when the check lets `c` through and `qn` is the queue of `c`. -/
def channelSubJobs (nd : NotificationData) (u : String) (prefs : Option PreferencesObject)
    (qn : QueueName) (c : String) : List NotificationData :=
  if channelDisabled prefs nd.type c = false ∧ queueChannel qn = some c then
    [subJobData nd u c]
  else []

/-- Payloads that a whole fan-out puts in queue `qn` when every add succeeds. -/
def expectedSubJobs (w : World) (nd : NotificationData) (qn : QueueName) :
    List NotificationData :=
  nd.recipients.flatMap fun u =>
    nd.channels.flatMap (channelSubJobs nd u (getUserPreferences w.preferenceStore u) qn)

/-- Payloads of the jobs stored in queue `qn`. -/
def queueData (qn : QueueName) (st : FanOutState) : List NotificationData :=
  (st.world.queue qn).jobs.map Job.data

/-- Number of jobs that are in the five queues of `w1` beyond those of `w0`. -/
def enqueuedCount (w0 w1 : World) : Nat :=
  (addedJobs w0 w1 .push).length + (addedJobs w0 w1 .email).length +
  (addedJobs w0 w1 .sms).length + (addedJobs w0 w1 .notification).length +
  (addedJobs w0 w1 .scheduled).length

/-- A send body with only `type` given (the body of the test `should handle missing required
fields`). -/
def incompleteBody : SendBody :=
  { type := some "push", title := none, message := none, channels := none, recipients := none,
    data := none, priority := none, scheduled := none }

/-- The environment without retry settings. -/
def defaultEnv : RetryEnv := { RETRY_ATTEMPTS := none, RETRY_DELAY := none }

/-- The notification data that the send endpoint builds from a body (lines 292-302). -/
def requestData (userId : String) (createdAt : Int) (body : SendBody) : NotificationData :=
  { type := body.type.getD ""
    title := body.title.getD ""
    message := body.message.getD ""
    channels := body.channels.getD ["push"]
    recipients := body.recipients.getD [userId]
    data := body.data.getD []
    priority := body.priority.getD "normal"
    senderId := userId
    createdAt := createdAt
    userId := none
    channel := none
    phone := none
    email := none }

/-- The retry options that the send endpoint attaches (lines 307-312 and 316-320). -/
def sendOpts (env : RetryEnv) (delay : Option Int) : JobOpts :=
  { delay := delay
    attempts := some (orDefault env.RETRY_ATTEMPTS 3)
    backoffType := some "exponential"
    backoffDelay := some (orDefault env.RETRY_DELAY 5000) }

/-- A complete send body for `u1`; `scheduled` is left to the caller. -/
def completeBody (scheduled : Option Int) : SendBody :=
  { type := some "budget_alert", title := some "Budget", message := some "90% used",
    channels := some ["push", "email"], recipients := some ["u1"], data := none,
    priority := none, scheduled := scheduled }

/-- A send body with all three texts, an empty `channels` list and one recipient. -/
def emptyChannelsBody : SendBody :=
  { type := some "budget_alert", title := some "Budget", message := some "90% used",
    channels := some [], recipients := some ["u1"], data := none, priority := none,
    scheduled := none }

/-- A send body with all three texts, one channel and an empty `recipients` list. -/
def emptyRecipientsBody : SendBody :=
  { type := some "budget_alert", title := some "Budget", message := some "90% used",
    channels := some ["push"], recipients := some [], data := none, priority := none,
    scheduled := none }

/-- A job of the scheduled queue carrying `u1Request "budget_alert"`. -/
def scheduledJob : Job :=
  { id := 7, name := "scheduled-notification", data := u1Request "budget_alert",
    opts := { delay := some 4000, attempts := some 3, backoffType := some "exponential",
              backoffDelay := some 5000 } }

/-- The configuration without Twilio credentials. -/
def unconfiguredSms : SmsConfig := { smsClient := none, TWILIO_PHONE_NUMBER := none }

/-- A send-sms job as the fan-out enqueues it for `u1`. -/
def smsJob : Job :=
  { id := 1, name := "send-sms", data := subJobData (u1Request "security_alert") "u1" "sms",
    opts := noOpts }

/-! ## notificationWorkers.js: the email processor -/

/-- Library functions used by the email processor that are not code of this repository:
`Date.prototype.toISOString` on a clock reading and `JSON.stringify(value, null, 2)`. -/
structure JsLib where
  toISOString : Int → String
  stringify : JsObj → String

/-- Argument of `emailTransporter.sendMail` (`toAddress` is its key `to`). -/
structure EmailData where
  toAddress : String
  subject : String
  html : String
  text : String
deriving DecidableEq, Repr

/-- Email configuration of the worker module: `emailTransporter` (lines 26-46; `none` when SMTP
is not configured or its set-up threw), with `sendMail` returning the message id or throwing. -/
structure EmailConfig where
  emailTransporter : Option (EmailData → Except JsError String)

/-- Return value of the send-email processor; absent keys are `none`. -/
structure EmailResult where
  success : Bool
  simulation : Option Bool
  messageId : Option String
  error : Option String
  recipient : String
  processedAt : Option Int
deriving DecidableEq, Repr

/-- The object `emailData` built by the send-email processor (lines 355-376). -/
def emailData (lib : JsLib) (notificationData : NotificationData) (now : Int) : EmailData :=
  { toAddress :=
      if strTruthy notificationData.email then notificationData.email.getD ""
      else notificationData.userId.getD "undefined" ++ "@finance-app.com"
    subject := notificationData.title
    html :=
      "\n        <div style=\"font-family: Arial, sans-serif; max-width: 600px; margin: 0 auto;\">" ++
      "\n          <h2 style=\"color: #333;\">" ++ notificationData.title ++ "</h2>" ++
      "\n          <p style=\"color: #666; font-size: 16px;\">" ++ notificationData.message ++ "</p>" ++
      "\n          " ++
      (if notificationData.data.length > 0 then
        "\n            <div style=\"background-color: #f5f5f5; padding: 15px; border-radius: 5px; margin: 20px 0;\">" ++
        "\n              <h3 style=\"color: #333; margin-top: 0;\">Additional Information:</h3>" ++
        "\n              <pre style=\"color: #666;\">" ++ lib.stringify notificationData.data ++ "</pre>" ++
        "\n            </div>\n          "
       else "") ++
      "\n          <hr style=\"border: none; border-top: 1px solid #eee; margin: 30px 0;\">" ++
      "\n          <p style=\"color: #999; font-size: 12px;\">" ++
      "\n            This notification was sent from your Finance App.<br>" ++
      "\n            Type: " ++ notificationData.type ++ " | Time: " ++ lib.toISOString now ++
      "\n          </p>\n        </div>\n      "
    text := notificationData.title ++ "\n\n" ++ notificationData.message ++ "\n\nType: " ++
      notificationData.type ++ "\nTime: " ++ lib.toISOString now }

/-- The processor `emailQueue.process('send-email', ...)` (lines 350-428). Its only effects
besides the provider call are console prints; `.error` would be a rethrown exception. -/
def sendEmailHandler (cfg : EmailConfig) (lib : JsLib) (job : Job) (now : Int) :
    Except String EmailResult :=
  let notificationData := job.data
  let emailData := emailData lib notificationData now
  match cfg.emailTransporter with
  | some sendMail =>
    match sendMail emailData with
    | .ok messageId =>
      .ok { success := true, simulation := none, messageId := some messageId, error := none,
            recipient := emailData.toAddress, processedAt := some now }
    | .error smtpError =>
      .ok { success := true, simulation := some true, messageId := none,
            error := some smtpError.message, recipient := emailData.toAddress,
            processedAt := none }
  | none =>
    .ok { success := true, simulation := some true, messageId := none, error := none,
          recipient := emailData.toAddress, processedAt := some now }

/-- A library stand-in for concrete runs. -/
def sampleLib : JsLib :=
  { toISOString := fun _ => "1970-01-01T00:00:00.000Z", stringify := fun _ => "" }

/-- A Twilio error for an invalid destination number (a permanent provider error). -/
def invalidNumberError : JsError :=
  { message := "The 'To' number +1234567890 is not a valid phone number.", code := some "21211" }

/-- An SMTP error for a rejected recipient address (a permanent provider error). -/
def rejectedRecipientError : JsError :=
  { message := "550 5.1.1 Recipient address rejected", code := some "EENVELOPE" }

/-- A configured SMS provider that reports the destination invalid on every call. -/
def rejectingSms : SmsConfig :=
  { smsClient := some (fun _ => .error invalidNumberError), TWILIO_PHONE_NUMBER := some "+15550000" }

/-- A configured email provider that rejects the recipient on every call. -/
def rejectingEmail : EmailConfig :=
  { emailTransporter := some (fun _ => .error rejectedRecipientError) }

/-- A send-email job as the fan-out enqueues it for `u1`. -/
def emailJob : Job :=
  { id := 1, name := "send-email", data := subJobData (u1Request "security_alert") "u1" "email",
    opts := noOpts }

/-! ## Device tokens: the push processor and the device routes -/

/-- A stored DeviceToken document (models/DeviceToken.js); `id` is its `_id`. -/
structure DeviceToken where
  id : Nat
  userId : String
  token : String
  platform : String
  deviceId : String
  appVersion : Option String
  isActive : Bool
  lastUsed : Int
deriving DecidableEq, Repr

/-- The DeviceToken collection: stored documents, whether `find` currently rejects, and the
outcomes of the coming `save` calls (`some e`: that call rejects with `e`; `none`, or an
exhausted script: it succeeds). -/
structure DeviceStore where
  docs : List DeviceToken
  findFailing : Bool
  saveFaults : List (Option JsError)
deriving Repr

/-- The call `device.save()`: write the document back under its `_id`, or reject. -/
def DeviceStore.save (s : DeviceStore) (device : DeviceToken) : Except JsError Unit × DeviceStore :=
  match s.saveFaults with
  | some e :: rest => (.error e, { s with saveFaults := rest })
  | none :: rest =>
    (.ok (), { s with docs := s.docs.map (fun d => if d.id = device.id then device else d),
                      saveFaults := rest })
  | [] =>
    (.ok (), { s with docs := s.docs.map (fun d => if d.id = device.id then device else d) })

/-- The function `getUserDevices` (lines 97-105). -/
def getUserDevices (s : DeviceStore) (userId : Option String) : List DeviceToken :=
  if s.findFailing then []
  else s.docs.filter (fun d => some d.userId = userId && d.isActive)

/-- The FCM message built for a device (lines 274-284). -/
structure PushMessage where
  title : String
  body : String
  data : JsObj
  token : String
deriving DecidableEq, Repr

/-- Push configuration: `some send` when `admin.apps.length > 0`, with `send` the call
`admin.messaging().send`, returning the message id or throwing. -/
structure PushConfig where
  fcm : Option (PushMessage → Except JsError String)

/-- One entry of the `results` array of the send-push processor. -/
structure DeviceResult where
  deviceId : String
  status : String
  messageId : Option String
  error : Option String
  simulation : Option Bool
deriving DecidableEq, Repr

/-- Return value of the send-push processor; absent keys are `none`. -/
structure PushResult where
  success : Bool
  message : Option String
  simulation : Option Bool
  results : List DeviceResult
  deviceCount : Option Nat
  processedAt : Option Int
deriving DecidableEq, Repr

/-- The message of lines 274-284: `data` is `{ type, ...notificationData.data }`. -/
def pushMessage (notificationData : NotificationData) (device : DeviceToken) : PushMessage :=
  { title := notificationData.title
    body := notificationData.message
    data := notificationData.data.foldl (fun o p => setKey o p.1 p.2)
      [("type", notificationData.type)]
    token := device.token }

/-- The code that deactivation looks for (line 307). -/
def tokenNotRegistered : String := "messaging/registration-token-not-registered"

/-- The `catch (deviceError)` block of the device loop (lines 303-326). A `save` that throws
here leaves the loop and the processor. -/
def onDeviceError (s : DeviceStore) (device : DeviceToken) (results : List DeviceResult)
    (deviceError : JsError) : Except String (DeviceStore × List DeviceResult) :=
  let failed : DeviceResult :=
    { deviceId := device.deviceId, status := "failed", messageId := none,
      error := some deviceError.message, simulation := some true }
  if deviceError.code = some tokenNotRegistered then
    match s.save { device with isActive := false } with
    | (.ok _, s1) => .ok (s1, results ++ [failed])
    | (.error e, _) => .error e.message
  else .ok (s, results ++ [failed])

/-- Body of the device loop (lines 270-327). -/
def processDevice (cfg : PushConfig) (notificationData : NotificationData) (now : Int)
    (s : DeviceStore) (results : List DeviceResult) (device : DeviceToken) :
    Except String (DeviceStore × List DeviceResult) :=
  match cfg.fcm with
  | some send =>
    match send (pushMessage notificationData device) with
    | .ok response =>
      let sent : DeviceResult :=
        { deviceId := device.deviceId, status := "sent", messageId := some response,
          error := none, simulation := none }
      let results1 := results ++ [sent]
      match s.save { device with lastUsed := now } with
      | (.ok _, s1) => .ok (s1, results1)
      | (.error e, s1) => onDeviceError s1 { device with lastUsed := now } results1 e
    | .error deviceError => onDeviceError s device results deviceError
  | none =>
    let simulated : DeviceResult :=
      { deviceId := device.deviceId, status := "simulated", messageId := none,
        error := none, simulation := none }
    let results1 := results ++ [simulated]
    match s.save { device with lastUsed := now } with
    | (.ok _, s1) => .ok (s1, results1)
    | (.error e, s1) => onDeviceError s1 { device with lastUsed := now } results1 e

/-- The device loop (lines 268-327). -/
def processDevices (cfg : PushConfig) (notificationData : NotificationData) (now : Int) :
    DeviceStore → List DeviceResult → List DeviceToken →
    Except String (DeviceStore × List DeviceResult)
  | s, results, [] => .ok (s, results)
  | s, results, device :: rest =>
    match processDevice cfg notificationData now s results device with
    | .ok (s1, results1) => processDevices cfg notificationData now s1 results1 rest
    | .error e => .error e

/-- The processor `pushQueue.process('send-push', ...)` (lines 251-347). The store it returns is
only meaningful with `.ok`. -/
def sendPushHandler (cfg : PushConfig) (s : DeviceStore) (job : Job) (now : Int) :
    DeviceStore × Except String PushResult :=
  let notificationData := job.data
  let devices := getUserDevices s notificationData.userId
  if devices.length = 0 then
    (s, .ok { success := true, message := some "No devices to send to", simulation := some true,
              results := [], deviceCount := none, processedAt := none })
  else
    match processDevices cfg notificationData now s [] devices with
    | .ok (s1, results) =>
      (s1, .ok { success := true, message := none, simulation := none, results := results,
                 deviceCount := some devices.length, processedAt := some now })
    | .error e => (s, .error e)

/-- What the device loop does for one device when its saves succeed: the document it writes
back, if any, and the entry it appends to `results`. -/
def deviceOutcome (cfg : PushConfig) (notificationData : NotificationData) (now : Int)
    (d : DeviceToken) : Option DeviceToken × DeviceResult :=
  match cfg.fcm with
  | some send =>
    match send (pushMessage notificationData d) with
    | .ok response =>
      (some { d with lastUsed := now },
        { deviceId := d.deviceId, status := "sent", messageId := some response, error := none,
          simulation := none })
    | .error e =>
      (if e.code = some tokenNotRegistered then some { d with isActive := false } else none,
        { deviceId := d.deviceId, status := "failed", messageId := none,
          error := some e.message, simulation := some true })
  | none =>
    (some { d with lastUsed := now },
      { deviceId := d.deviceId, status := "simulated", messageId := none, error := none,
        simulation := none })

/-- The provider send for device `d` fails with the code
`messaging/registration-token-not-registered`. -/
def failsNotRegistered (cfg : PushConfig) (notificationData : NotificationData)
    (d : DeviceToken) : Prop :=
  ∃ send e, cfg.fcm = some send ∧ send (pushMessage notificationData d) = .error e ∧
    e.code = some tokenNotRegistered

/-- Write a document back under its `_id`, when there is one to write. -/
def applyUpdate (docs : List DeviceToken) : Option DeviceToken → List DeviceToken
  | some device => docs.map (fun d => if d.id = device.id then device else d)
  | none => docs

/-! ## app.js: device routes -/

/-- Body of `POST /api/devices/register`; an absent key is `none`. The key `deviceId` is taken
as given. -/
structure RegisterBody where
  token : Option String
  platform : Option String
  deviceId : String
  appVersion : Option String
deriving DecidableEq, Repr

/-- An HTTP response of a device route: status code and the keys of the JSON body. -/
structure DeviceResponse where
  status : Nat
  error : Option String
  success : Option Bool
  deviceToken : Option DeviceToken
  message : Option String
deriving DecidableEq, Repr

/-- The filter `{ userId, deviceId }` of both device routes. -/
def hasKey (userId deviceId : String) (d : DeviceToken) : Bool :=
  d.userId = userId && d.deviceId = deviceId

/-- The route handler of `POST /api/devices/register` (lines 176-211), run for an authenticated
request (`userId` is `req.user.id`): `findOneAndUpdate` with `upsert` updates the first document
matching the filter, or inserts one with a fresh `_id`; a write that would give two documents the
same `token` breaks the unique index on `token` (DeviceToken.js line 12) and throws. -/
def postDevicesRegister (userId : String) (body : RegisterBody) (now : Int)
    (docs : List DeviceToken) : List DeviceToken × DeviceResponse :=
  if !strTruthy body.token || !strTruthy body.platform then
    (docs, { status := 400, error := some "Token and platform are required", success := none,
             deviceToken := none, message := none })
  else
    let token := body.token.getD ""
    let platform := body.platform.getD ""
    match docs.find? (hasKey userId body.deviceId) with
    | some found =>
      if docs.any (fun d => d.id != found.id && d.token = token) then
        (docs, { status := 500, error := some "Failed to register device", success := none,
                 deviceToken := none, message := none })
      else
        let updated : DeviceToken :=
          { found with userId := userId, token := token, platform := platform,
                       deviceId := body.deviceId, appVersion := body.appVersion,
                       isActive := true, lastUsed := now }
        (docs.map (fun d => if d.id = found.id then updated else d),
          { status := 200, error := none, success := some true, deviceToken := some updated,
            message := none })
    | none =>
      if docs.any (fun d => d.token = token) then
        (docs, { status := 500, error := some "Failed to register device", success := none,
                 deviceToken := none, message := none })
      else
        let inserted : DeviceToken :=
          { id := (docs.map (fun d => d.id)).foldl max 0 + 1, userId := userId, token := token,
            platform := platform, deviceId := body.deviceId, appVersion := body.appVersion,
            isActive := true, lastUsed := now }
        (docs ++ [inserted],
          { status := 200, error := none, success := some true, deviceToken := some inserted,
            message := none })

/-- The route handler of `DELETE /api/devices/:deviceId` (lines 213-225): `findOneAndUpdate`
without `upsert` sets `isActive` to false on the first matching document, if there is one. -/
def deleteDevice (userId deviceId : String) (docs : List DeviceToken) :
    List DeviceToken × DeviceResponse :=
  let docs1 :=
    match docs.find? (hasKey userId deviceId) with
    | some found => docs.map (fun d => if d.id = found.id then { found with isActive := false } else d)
    | none => docs
  (docs1, { status := 200, error := none, success := some true, deviceToken := none,
            message := some "Device unregistered successfully" })

/-- The defaults that the NotificationPreference schema documents for the `preferences` object
(models/NotificationPreference.js lines 10-65). -/
def defaultPreferences : Preferences :=
  [("transactionAlerts", [("push", .bool true), ("email", .bool true), ("sms", .bool false),
      ("threshold", .num 0)]),
   ("budgetAlerts", [("push", .bool true), ("email", .bool true), ("sms", .bool false),
      ("warningThreshold", .num 80), ("criticalThreshold", .num 95)]),
   ("investmentUpdates", [("push", .bool true), ("email", .bool true), ("sms", .bool false),
      ("frequency", .str "daily"), ("priceChangeThreshold", .num 5)]),
   ("securityAlerts", [("push", .bool true), ("email", .bool true), ("sms", .bool true)]),
   ("marketNews", [("push", .bool false), ("email", .bool true), ("sms", .bool false),
      ("categories", .arr [])]),
   ("paymentReminders", [("push", .bool true), ("email", .bool true), ("sms", .bool false),
      ("daysBefore", .num 3)]),
   ("goalMilestones", [("push", .bool true), ("email", .bool true), ("sms", .bool false)]),
   ("systemNotifications", [("push", .bool true), ("email", .bool true), ("sms", .bool false)])]

/-- A request of type `transactionAlerts` on the sms channel to `u2`, who has no stored
preference document in `u1World`. -/
def u2SmsJob : Job :=
  { id := 2, name := "send-notification",
    data := { u1Request "transactionAlerts" with channels := ["sms"], recipients := ["u2"] },
    opts := noOpts }

/-! ## Job-status routes (processing-service/src/app.js and notification-service/src/app.js) -/

/-- What the status routes read from a Bull job. -/
structure StatusJob where
  id : String
  state : String
  progress : Nat
  returnvalue : Option String
  failedReason : Option String
  timestamp : Int
  processedOn : Option Int
  finishedOn : Option Int
deriving DecidableEq, Repr

/-- A queue as the status routes see it: its jobs, and whether `getJob` currently rejects. -/
structure StatusQueue where
  jobs : List StatusJob
  failing : Bool
deriving Repr

/-- The call `queue.getJob(jobId)`. -/
def StatusQueue.getJob (q : StatusQueue) (jobId : String) : Except String (Option StatusJob) :=
  if q.failing then .error "getJob failed" else .ok (q.jobs.find? (fun j => j.id = jobId))

/-- The chain `await q1.getJob(jobId) || await q2.getJob(jobId) || ...`: the queues are asked
in order until one yields a job. -/
def firstJob : List StatusQueue → String → Except String (Option StatusJob)
  | [], _ => .ok none
  | q :: rest, jobId =>
    match q.getJob jobId with
    | .error e => .error e
    | .ok (some job) => .ok (some job)
    | .ok none => firstJob rest jobId

/-- An HTTP response of a status route: status code, the `error` text of a 404 or 500 body, and
the keys of the 200 body (`result` and `error` are `null` when `none`). -/
structure StatusResponse where
  code : Nat
  failure : Option String
  jobId : Option String
  status : Option String
  progress : Option Nat
  result : Option String
  error : Option String
  createdAt : Option Int
  processedAt : Option Int
  finishedAt : Option Int
deriving DecidableEq, Repr

/-- A 404 or 500 answer of a status route. -/
def statusFailure (code : Nat) (text : String) : StatusResponse :=
  { code := code, failure := some text, jobId := none, status := none, progress := none,
    result := none, error := none, createdAt := none, processedAt := none, finishedAt := none }

/-- The common body of the two status routes, for the queues they consult and their two error
texts. -/
def getJobStatus (notFound failed : String) (queues : List StatusQueue) (jobId : String) :
    StatusResponse :=
  match firstJob queues jobId with
  | .error _ => statusFailure 500 failed
  | .ok none => statusFailure 404 notFound
  | .ok (some job) =>
    let state := job.state
    let progress := job.progress
    let result := if state = "completed" then job.returnvalue else none
    let error := if state = "completed" then none
      else if state = "failed" then job.failedReason else none
    { code := 200, failure := none, jobId := some job.id, status := some state,
      progress := some progress, result := result, error := error,
      createdAt := some job.timestamp, processedAt := job.processedOn,
      finishedAt := job.finishedOn }

/-- The route `GET /api/jobs/:jobId/status` of the processing service (lines 317-357). -/
def processingJobStatus (pdfQueue calculationQueue reportQueue : StatusQueue) (jobId : String) :
    StatusResponse :=
  getJobStatus "Job not found" "Failed to get job status"
    [pdfQueue, calculationQueue, reportQueue] jobId

/-- The route `GET /api/notifications/:jobId/status` of the notification service
(lines 375-412). -/
def notificationJobStatus (notificationQueue scheduledQueue : StatusQueue) (jobId : String) :
    StatusResponse :=
  getJobStatus "Notification job not found" "Failed to get notification status"
    [notificationQueue, scheduledQueue] jobId

/-- What the claim says of a status answer for the queues consulted: 404 exactly when no queue
holds a job with the id; otherwise the id, state and progress of a held job, a non-null result
only in state `completed` and a non-null error, the failure reason, only in state `failed`. -/
def StatusAnswerOk (queues : List StatusQueue) (jobId : String) (resp : StatusResponse) : Prop :=
  (resp.code = 404 ↔ ∀ q ∈ queues, ∀ j ∈ q.jobs, j.id ≠ jobId) ∧
  (resp.code ≠ 404 →
    ∃ q ∈ queues, ∃ j ∈ q.jobs, j.id = jobId ∧ resp.code = 200 ∧ resp.jobId = some j.id ∧
      resp.status = some j.state ∧ resp.progress = some j.progress ∧
      (resp.result ≠ none → j.state = "completed" ∧ resp.result = j.returnvalue) ∧
      (resp.error ≠ none → j.state = "failed" ∧ resp.error = j.failedReason))

/-! ## calculation-worker.js: compound interest

Numbers are exact rationals here; the code computes the same expressions in double precision.
`time` and `compoundFrequency` are whole numbers, so that `Math.pow` has a whole exponent. -/

/-- Parameters of `calculateCompoundInterest`; an absent `compoundFrequency` is `none`. -/
structure CompoundInterestParams where
  principal : ℚ
  rate : ℚ
  time : ℕ
  compoundFrequency : Option ℕ

/-- One entry of `monthlyBreakdown`. -/
structure BreakdownRow where
  period : ℕ
  principalAmount : ℚ
  interestEarned : ℚ
  totalAmount : ℚ

/-- The loop of `generateCompoundInterestBreakdown` (lines 533-543): `n` periods remain, the next
has number `i`, and `currentAmount` is the amount so far. -/
def breakdownFrom (principal periodRate : ℚ) : ℕ → ℕ → ℚ → List BreakdownRow
  | 0, _, _ => []
  | n + 1, i, currentAmount =>
    let interest := currentAmount * periodRate
    { period := i, principalAmount := principal, interestEarned := interest,
      totalAmount := currentAmount + interest } ::
      breakdownFrom principal periodRate n (i + 1) (currentAmount + interest)

/-- The function `generateCompoundInterestBreakdown` (lines 527-546). -/
def generateCompoundInterestBreakdown (principal rate : ℚ) (time frequency : ℕ) :
    List BreakdownRow :=
  breakdownFrom principal (rate / frequency) (time * frequency) 1 principal

/-- Return value of `calculateCompoundInterest`. -/
structure CompoundInterestResult where
  principal : ℚ
  rate : ℚ
  time : ℕ
  compoundFrequency : ℕ
  finalAmount : ℚ
  totalInterest : ℚ
  monthlyBreakdown : List BreakdownRow

/-- The function `calculateCompoundInterest` (lines 199-210); the parameter default
`compoundFrequency = 12` applies when the key is absent. -/
def calculateCompoundInterest (params : CompoundInterestParams) : CompoundInterestResult :=
  let principal := params.principal
  let rate := params.rate
  let time := params.time
  let compoundFrequency := params.compoundFrequency.getD 12
  let amount := principal * (1 + rate / compoundFrequency) ^ (compoundFrequency * time)
  { principal := principal
    rate := rate
    time := time
    compoundFrequency := compoundFrequency
    finalAmount := amount
    totalInterest := amount - principal
    monthlyBreakdown := generateCompoundInterestBreakdown principal rate time compoundFrequency }

/-- The parameters of Scenario A: principal 10000, rate 0.07, time 10, no `compoundFrequency`. -/
def scenarioA : CompoundInterestParams :=
  { principal := 10000, rate := 7 / 100, time := 10, compoundFrequency := none }

/-! ## processing-service: `POST /api/pdf/generate` and the type switch of the PDF worker -/

/-- Body of `POST /api/pdf/generate`; an absent key is `none`. -/
structure PdfBody where
  type : Option String
  data : Option JsObj
  options : Option JsObj
deriving DecidableEq, Repr

/-- Payload of a `generate-pdf` job. -/
structure PdfJobData where
  type : String
  data : JsObj
  options : JsObj
  userId : String
  timestamp : Int
deriving DecidableEq, Repr

/-- A job of the pdf queue with the options the route passes. -/
structure PdfJob where
  id : Nat
  name : String
  data : PdfJobData
  attempts : Nat
  backoffType : String
  backoffDelay : Nat
  timeout : Int
deriving DecidableEq, Repr

/-- The pdf queue: stored jobs, the id of the next job, and the outcomes of the coming `add`
calls (as for `Queue`). -/
structure PdfQueue where
  nextId : Nat
  jobs : List PdfJob
  faults : List (Option String)
deriving Repr

/-- The route handler of `POST /api/pdf/generate` (lines 137-172), run for an authenticated
request; `pdfTimeout` is `process.env.PDF_TIMEOUT || 30000`. The metrics counter is left out. -/
def postPdfGenerate (pdfTimeout : Int) (userId : String) (now : Int) (body : PdfBody)
    (q : PdfQueue) : PdfQueue × Response :=
  if !strTruthy body.type || body.data.isNone then
    (q, errorResponse 400 "Type and data are required")
  else
    match q.faults with
    | some _ :: rest =>
      ({ q with faults := rest }, errorResponse 500 "Failed to create PDF generation job")
    | rest =>
      let job : PdfJob :=
        { id := q.nextId
          name := "generate-pdf"
          data := { type := body.type.getD "", data := body.data.getD [],
                    options := body.options.getD [], userId := userId, timestamp := now }
          attempts := 3
          backoffType := "exponential"
          backoffDelay := 2000
          timeout := pdfTimeout }
      ({ nextId := q.nextId + 1, jobs := q.jobs ++ [job], faults := rest.tail },
        { status := 200, error := none, success := none, jobId := some job.id,
          jobStatus := some "queued", scheduledFor := none,
          message := some "PDF generation job created" })

/-- The PDF types with an arm in the switch of `generatePDF` (pdf-worker.js lines 15-27). -/
def knownPdfTypes : List String :=
  ["transaction-statement", "portfolio-report", "financial-summary", "tax-report"]

/-- The `default` arm of that switch: for a type without an arm the worker throws, and the
catch posts the message as `error`. `none` means that an arm is taken. -/
def unknownPdfType (type : String) : Option String :=
  if type ∈ knownPdfTypes then none else some ("Unknown PDF type: " ++ type)

/-- The body of the test `should handle invalid job types`. -/
def invalidTypeBody : PdfBody :=
  { type := some "invalid_type", data := some [], options := none }

/-- An empty pdf queue whose `add` calls succeed. -/
def emptyPdfQueue : PdfQueue := { nextId := 1, jobs := [], faults := [] }

/-- The notification types that `schemas.notification` and the NotificationLog schema
recognise. -/
def recognisedTypes : List String :=
  ["transaction_alert", "budget_alert", "investment_update", "security_alert",
   "market_news", "payment_reminder", "goal_milestone", "system_notification"]

/-- A send body with title and message and a type that is not recognised. -/
def invalidTypeSend : SendBody :=
  { type := some "invalid_type", title := some "Hello", message := some "This should fail",
    channels := none, recipients := none, data := none, priority := none, scheduled := none }

/-- A provider whose send fails with `messaging/registration-token-not-registered` for the
token `stale` and succeeds for every other token. -/
def staleTokenFcm : PushConfig :=
  { fcm := some (fun m =>
      if m.token = "stale" then
        .error { message := "Requested entity was not found.", code := some tokenNotRegistered }
      else .ok "projects/app/messages/1") }

/-- Two active devices of `u1`, the first with the token `stale`. -/
def u1Devices : DeviceStore :=
  { docs := [{ id := 1, userId := "u1", token := "stale", platform := "ios", deviceId := "phone",
               appVersion := none, isActive := true, lastUsed := 0 },
             { id := 2, userId := "u1", token := "fresh", platform := "web", deviceId := "laptop",
               appVersion := none, isActive := true, lastUsed := 0 }]
    findFailing := false
    saveFaults := [] }

/-- A send-push job as the fan-out enqueues it for `u1`. -/
def pushJob : Job :=
  { id := 1, name := "send-push", data := subJobData (u1Request "security_alert") "u1" "push",
    opts := noOpts }

/-- A registration body for the device `phone` with a new token. -/
def renewBody : RegisterBody :=
  { token := some "renewed", platform := some "ios", deviceId := "phone", appVersion := none }

/-- A queue holding one failed job with id `7`. -/
def failedJobQueue : StatusQueue :=
  { jobs := [{ id := "7", state := "failed", progress := 40, returnvalue := none,
               failedReason := some "Unknown PDF type: invalid_type", timestamp := 0,
               processedOn := some 1, finishedOn := some 2 }]
    failing := false }

/-- A queue without jobs. -/
def idleQueue : StatusQueue := { jobs := [], failing := false }

/-! ## processing-service/src/processors.js: the worker-thread handlers

Each handler starts a worker thread and returns a promise; what happens next is driven by the
events of the worker and of the progress timer, which arrive one at a time. A run is modelled by
the list of these events in arrival order. -/

/-- The message a worker posts: its `error` key (absent is `none`) and the rest of it. -/
structure WorkerMessage where
  error : Option String
  payload : String
deriving DecidableEq, Repr

/-- The events a handler has listeners for: the worker's `message`, `error` and `exit`, and a
tick of the `setInterval` timer. -/
inductive WorkerEvent where
  | message (result : WorkerMessage)
  | error (err : String)
  | exit (code : Int)
  | tick
deriving DecidableEq, Repr

/-- The state of the promise that a handler returns. -/
inductive PromiseState where
  | pending
  | resolved (result : WorkerMessage)
  | rejected (err : String)
deriving DecidableEq, Repr

/-- What differs between the five handlers: the first progress value, the step and the cap of
the timer callback, and whether the callback keeps its own counter (`currentProgress`) or reads
`job.progress()`. -/
structure HandlerShape where
  name : String
  initial : Nat
  step : Nat
  cap : Nat
  ownCounter : Bool
deriving DecidableEq, Repr

/-- The five processors of processors.js (lines 16-51, 54-94, 96-138, 141-185, 188-230). -/
def handlerShapes : List HandlerShape :=
  [{ name := "generate-pdf", initial := 10, step := 10, cap := 90, ownCounter := false },
   { name := "portfolio-analysis", initial := 10, step := 15, cap := 90, ownCounter := false },
   { name := "bulk-calculations", initial := 5, step := 5, cap := 95, ownCounter := true },
   { name := "transaction-analysis", initial := 10, step := 20, cap := 90, ownCounter := true },
   { name := "generate-report", initial := 10, step := 10, cap := 90, ownCounter := false }]

/-- State of one run of a handler: the promise, the progress stored on the job, the counter
`currentProgress`, whether the timer is still set, and every value passed to `job.progress(v)`
so far, in order. -/
structure RunState where
  promise : PromiseState
  jobProgress : Nat
  currentProgress : Nat
  timerSet : Bool
  reports : List Nat
deriving DecidableEq, Repr

/-- Settle a promise: `resolve` and `reject` have an effect only while it is pending. -/
def settle (p : PromiseState) (outcome : PromiseState) : PromiseState :=
  match p with
  | .pending => outcome
  | settled => settled

/-- The call `job.progress(v)`. -/
def RunState.report (s : RunState) (v : Nat) : RunState :=
  { s with jobProgress := v, reports := s.reports ++ [v] }

/-- The state when the handler has returned its promise: `job.progress(initial)` was called, the
listeners are attached and the timer is set. -/
def startRun (h : HandlerShape) : RunState :=
  { promise := .pending, jobProgress := h.initial, currentProgress := h.initial,
    timerSet := true, reports := [h.initial] }

/-- The listeners of a handler, run on one event. `message`: the first listener rejects when
`result.error` is truthy and resolves otherwise, the second clears the timer and reports 100.
`error`: reject. `exit`: reject when the code is not 0. `tick`: the timer callback, if the timer
is still set. -/
def onEvent (h : HandlerShape) (s : RunState) : WorkerEvent → RunState
  | .message result =>
    let outcome : PromiseState :=
      if strTruthy result.error then .rejected (result.error.getD "") else .resolved result
    let s1 : RunState := { s with promise := settle s.promise outcome }
    let s2 : RunState := { s1 with timerSet := false }
    s2.report 100
  | .error err => { s with promise := settle s.promise (.rejected err) }
  | .exit code =>
    if code ≠ 0 then
      let outcome : PromiseState := .rejected ("Worker stopped with exit code " ++ toString code)
      { s with promise := settle s.promise outcome }
    else s
  | .tick =>
    if s.timerSet then
      if h.ownCounter then
        let currentProgress := min h.cap (s.currentProgress + h.step)
        let s1 : RunState := { s with currentProgress := currentProgress }
        s1.report currentProgress
      else
        s.report (min h.cap (s.jobProgress + h.step))
    else s

/-- A run of a handler on the events that arrive, in order. -/
def runHandler (h : HandlerShape) (events : List WorkerEvent) : RunState :=
  events.foldl (onEvent h) (startRun h)

/-- The outcome with which an event settles a pending promise, if it settles it. -/
def settlement : WorkerEvent → Option PromiseState
  | .message result =>
    some (if strTruthy result.error then .rejected (result.error.getD "") else .resolved result)
  | .error err => some (.rejected err)
  | .exit code =>
    if code ≠ 0 then some (.rejected ("Worker stopped with exit code " ++ toString code))
    else none
  | .tick => none

/-- The event is a message of the worker. -/
def WorkerEvent.isMessage : WorkerEvent → Bool
  | .message _ => true
  | _ => false

/-- Invariant of a run of a handler of shape `h`: the reported values are in non-decreasing
order and none exceeds the progress stored on the job, which is at most 100; while the timer is
set the stored progress is at most the cap and, in a shape with its own counter, equals the
counter `currentProgress`. -/
def ProgressInv (h : HandlerShape) (s : RunState) : Prop :=
  s.jobProgress ≤ 100 ∧ s.reports.Pairwise (fun a b => a ≤ b) ∧
  (∀ v ∈ s.reports, v ≤ s.jobProgress) ∧
  (s.timerSet = true →
    s.jobProgress ≤ h.cap ∧ (h.ownCounter = true → s.currentProgress = s.jobProgress))

/-! ## shared/utils/index.js: `Utils.retry` -/

/-- The `options` argument of `Utils.retry`; an absent key is `none`. -/
structure RetryOptions where
  maxAttempts : Option Nat
  baseDelay : Option ℚ
  maxDelay : Option ℚ
  backoffFactor : Option ℚ

/-- What a run of `Utils.retry` did: how it ended (`some (.ok v)`: returned `v`;
`some (.error e)`: threw `e`; `none`: the loop ended and `undefined` was returned), how many
times it called `fn`, and the waits between the calls, in order. -/
structure RetryRun (ε α : Type) where
  outcome : Option (Except ε α)
  calls : Nat
  waits : List ℚ

/-- The `while (attempt <= maxAttempts)` loop of `Utils.retry` (lines 168-182). `fn k` is the
outcome of the `k`-th call of the callback. The first argument counts the iterations the loop
condition still allows, `maxAttempts + 1 - attempt`; when it is 0 the condition is false. -/
def retryLoop {ε α : Type} (fn : Nat → Except ε α) (maxAttempts : Nat)
    (maxDelay backoffFactor : ℚ) : Nat → Nat → ℚ → List ℚ → RetryRun ε α
  | 0, attempt, _, waits => { outcome := none, calls := attempt - 1, waits := waits }
  | remaining + 1, attempt, delay, waits =>
    match fn attempt with
    | .ok value => { outcome := some (.ok value), calls := attempt, waits := waits }
    | .error error =>
      if attempt = maxAttempts then
        { outcome := some (.error error), calls := attempt, waits := waits }
      else
        retryLoop fn maxAttempts maxDelay backoffFactor remaining (attempt + 1)
          (min (delay * backoffFactor) maxDelay) (waits ++ [delay])

/-- The function `Utils.retry` (lines 157-183). -/
def retry {ε α : Type} (fn : Nat → Except ε α) (options : RetryOptions) : RetryRun ε α :=
  let maxAttempts := options.maxAttempts.getD 3
  let baseDelay := options.baseDelay.getD 1000
  let maxDelay := options.maxDelay.getD 10000
  let backoffFactor := options.backoffFactor.getD 2
  retryLoop fn maxAttempts maxDelay backoffFactor maxAttempts 1 baseDelay []

/-- Options with a base delay above the maximal delay. -/
def slowStartOptions : RetryOptions :=
  { maxAttempts := some 3, baseDelay := some 20000, maxDelay := some 10000,
    backoffFactor := some 2 }

/-- A callback that fails on every call. -/
def alwaysFails : Nat → Except String Nat := fun k => .error ("failure " ++ toString k)

/-- A callback that fails once and then succeeds. -/
def secondCallSucceeds : Nat → Except String Nat :=
  fun k => if k = 2 then .ok 42 else .error ("failure " ++ toString k)

/-- An environment with both retry settings given. -/
def tunedEnv : RetryEnv := { RETRY_ATTEMPTS := some 5, RETRY_DELAY := some 1000 }

/-! ## processing-service/src/workers/calculation-worker.js: `performBulkCalculations` -/

/-- One element of the `operations` array; `P` is the type of `params`. -/
structure Operation (P : Type) where
  id : String
  type : String
  params : P

/-- The seven calculators that the switch of `performBulkCalculations` calls, each a function of
`operation.params` that returns a value or throws an error with a message. Nothing is assumed
about what they compute. -/
structure Calculators (P V : Type) where
  calculateCompoundInterest : P → Except String V
  calculatePresentValue : P → Except String V
  calculateFutureValue : P → Except String V
  calculateLoanPayment : P → Except String V
  calculateRetirementNeeds : P → Except String V
  optimizeTaxStrategy : P → Except String V
  optimizePortfolio : P → Except String V

/-- The value of the key `result` of an entry: what a calculator returned, or the object
`{ error }` of the default arm of the switch. -/
inductive CalcResult (V : Type) where
  | value (v : V)
  | errorObject (error : String)
deriving DecidableEq, Repr

/-- One element of the returned `results` array; an absent key is `none`. -/
structure BulkEntry (V : Type) where
  id : String
  type : String
  result : Option (CalcResult V)
  error : Option String
  completedAt : String
deriving DecidableEq, Repr

/-- The switch on `operation.type` (lines 152-176): the value assigned to `result`, or the
message of the error thrown by the calculator. -/
def calculate {P V : Type} (fns : Calculators P V) (operation : Operation P) :
    Except String (CalcResult V) :=
  if operation.type = "compound-interest" then
    (fns.calculateCompoundInterest operation.params).map CalcResult.value
  else if operation.type = "present-value" then
    (fns.calculatePresentValue operation.params).map CalcResult.value
  else if operation.type = "future-value" then
    (fns.calculateFutureValue operation.params).map CalcResult.value
  else if operation.type = "loan-payment" then
    (fns.calculateLoanPayment operation.params).map CalcResult.value
  else if operation.type = "retirement-planning" then
    (fns.calculateRetirementNeeds operation.params).map CalcResult.value
  else if operation.type = "tax-optimization" then
    (fns.optimizeTaxStrategy operation.params).map CalcResult.value
  else if operation.type = "portfolio-optimization" then
    (fns.optimizePortfolio operation.params).map CalcResult.value
  else
    .ok (.errorObject ("Unknown calculation type: " ++ operation.type))

/-- Body of the loop of `performBulkCalculations` (lines 149-192): the `try` arm pushes an
entry with `result`, the `catch` arm one with `error`. `clock k` is the clock read made for the
entry of index `k`. -/
def bulkStep {P V : Type} (fns : Calculators P V) (clock : Nat → String)
    (results : List (BulkEntry V)) (operation : Operation P) : List (BulkEntry V) :=
  match calculate fns operation with
  | .ok result =>
    results ++ [{ id := operation.id, type := operation.type, result := some result,
                  error := none, completedAt := clock results.length }]
  | .error message =>
    results ++ [{ id := operation.id, type := operation.type, result := none,
                  error := some message, completedAt := clock results.length }]

/-- The function `performBulkCalculations` (lines 145-196). -/
def performBulkCalculations {P V : Type} (fns : Calculators P V) (clock : Nat → String)
    (operations : List (Operation P)) : List (BulkEntry V) :=
  operations.foldl (bulkStep fns clock) []

/-- The seven types that the switch knows. -/
def knownCalculationTypes : List String :=
  ["compound-interest", "present-value", "future-value", "loan-payment", "retirement-planning",
   "tax-optimization", "portfolio-optimization"]

/-- Calculators over numbers: doubling for compound interest, one that throws for loan
payments, the identity elsewhere. -/
def sampleCalculators : Calculators Nat Nat :=
  { calculateCompoundInterest := fun p => .ok (2 * p)
    calculatePresentValue := fun p => .ok p
    calculateFutureValue := fun p => .ok p
    calculateLoanPayment := fun _ => .error "Cannot destructure property"
    calculateRetirementNeeds := fun p => .ok p
    optimizeTaxStrategy := fun p => .ok p
    optimizePortfolio := fun p => .ok p }

/-- Three operations: one that succeeds, one that throws, one of an unknown type. -/
def sampleOperations : List (Operation Nat) :=
  [{ id := "a", type := "compound-interest", params := 21 },
   { id := "b", type := "loan-payment", params := 0 },
   { id := "c", type := "lottery", params := 7 }]

/-! ## calculation-worker.js: `calculateTax`

Numbers are exact rationals. -/

/-- One element of `taxBrackets`. -/
structure TaxBracket where
  min : ℚ
  max : ℚ
  rate : ℚ

/-- The loop of `calculateTax` (lines 584-590), from the brackets still to visit, the `tax` so
far and the `remainingIncome`. -/
def taxLoop : List TaxBracket → ℚ → ℚ → ℚ
  | [], tax, _ => tax
  | bracket :: rest, tax, remainingIncome =>
    let taxableAtThisBracket := Min.min remainingIncome (bracket.max - bracket.min)
    let tax1 := tax + taxableAtThisBracket * bracket.rate
    let remaining1 := remainingIncome - taxableAtThisBracket
    if remaining1 ≤ 0 then tax1 else taxLoop rest tax1 remaining1

/-- The function `calculateTax` (lines 579-593). -/
def calculateTax (income deductions : ℚ) (taxBrackets : List TaxBracket) : ℚ :=
  let taxableIncome := Max.max 0 (income - deductions)
  taxLoop taxBrackets 0 taxableIncome

/-- Brackets that are contiguous from `start`: the first bracket's `min` is `start` and each
bracket's `min` is the `max` of the bracket before it. -/
def ContiguousFrom : ℚ → List TaxBracket → Prop
  | _, [] => True
  | start, bracket :: rest => bracket.min = start ∧ ContiguousFrom bracket.max rest

/-- Length of the overlap of the intervals `[lo, hi]` and `[0, t]`. -/
def overlapLength (lo hi t : ℚ) : ℚ := Max.max 0 (Min.min hi t - Max.max lo 0)

/-- The sum over the brackets of rate × overlap with `[0, t]`. -/
def bracketSum (taxBrackets : List TaxBracket) (t : ℚ) : ℚ :=
  (taxBrackets.map fun b => b.rate * overlapLength b.min b.max t).sum

/-- Two brackets: 10% up to 10000 and 20% from there to 40000. -/
def sampleBrackets : List TaxBracket :=
  [{ min := 0, max := 10000, rate := 1 / 10 }, { min := 10000, max := 40000, rate := 1 / 5 }]

/-! ## calculation-worker.js: `calculateLoanPayment`

Numbers are exact rationals; `term` is a whole number of months. -/

/-- Parameters of `calculateLoanPayment`. -/
structure LoanParams where
  principal : ℚ
  rate : ℚ
  term : ℕ

/-- One row of `amortizationSchedule`. -/
structure AmortizationRow where
  month : ℕ
  payment : ℚ
  principal : ℚ
  interest : ℚ
  balance : ℚ

/-- The loop of `generateAmortizationSchedule` (lines 553-567): the first argument counts the
months the loop condition `month <= term` still allows, then come `month` and
`remainingBalance`. The `break` ends the schedule with the row just pushed. -/
def amortizationFrom (monthlyRate monthlyPayment : ℚ) : ℕ → ℕ → ℚ → List AmortizationRow
  | 0, _, _ => []
  | n + 1, month, remainingBalance =>
    let interestPayment := remainingBalance * monthlyRate
    let principalPayment := monthlyPayment - interestPayment
    let remaining1 := remainingBalance - principalPayment
    let row : AmortizationRow :=
      { month := month, payment := monthlyPayment, principal := principalPayment,
        interest := interestPayment, balance := Max.max 0 remaining1 }
    if remaining1 ≤ 0 then [row]
    else row :: amortizationFrom monthlyRate monthlyPayment n (month + 1) remaining1

/-- The function `generateAmortizationSchedule` (lines 548-570). -/
def generateAmortizationSchedule (principal rate : ℚ) (term : ℕ) (monthlyPayment : ℚ) :
    List AmortizationRow :=
  amortizationFrom (rate / 12) monthlyPayment term 1 principal

/-- Return value of `calculateLoanPayment`. -/
structure LoanResult where
  principal : ℚ
  rate : ℚ
  term : ℕ
  monthlyPayment : ℚ
  totalPayments : ℚ
  totalInterest : ℚ
  amortizationSchedule : List AmortizationRow

/-- The function `calculateLoanPayment` (lines 234-248). -/
def calculateLoanPayment (params : LoanParams) : LoanResult :=
  let principal := params.principal
  let rate := params.rate
  let term := params.term
  let monthlyRate := rate / 12
  let monthlyPayment := principal * (monthlyRate * (1 + monthlyRate) ^ term) /
    ((1 + monthlyRate) ^ term - 1)
  { principal := principal
    rate := rate
    term := term
    monthlyPayment := monthlyPayment
    totalPayments := monthlyPayment * term
    totalInterest := monthlyPayment * term - principal
    amortizationSchedule := generateAmortizationSchedule principal rate term monthlyPayment }

/-- A loan of 1200 at 12% a year over 2 months. -/
def sampleLoan : LoanParams := { principal := 1200, rate := 12 / 100, term := 2 }

/-! ## Accounting for adds that fail -/

/-- The `add` calls made on a queue whose fault script is `faults`, paired with their outcomes:
the `k`-th call meets the `k`-th entry of the script (`some msg`: it rejects with `msg`;
`none`, or past the end of the script: it succeeds). -/
def attemptOutcomes {β : Type} : List (Option String) → List β → List (β × Option String)
  | _, [] => []
  | faults, x :: xs => (x, faults.head?.join) :: attemptOutcomes faults.tail xs

/-- Invariant of the fan-out of `nd` started in `w`, for the queue `qn` and the pair `(u, c)`,
when `attempted` lists the payloads of the adds made on `qn` so far: the fault script of `qn`
has been consumed once per add; `qn` holds its old jobs followed by the payloads whose add
succeeded; a failed add for `(u, c)` has its message in `errors`; and `results` has the key of
`(u, c)`, with value `queued`, exactly when an add for `(u, c)` succeeded. -/
def PairAccount (w : World) (nd : NotificationData) (qn : QueueName) (u c : String)
    (attempted : List NotificationData) (st : FanOutState) : Prop :=
  st.world.preferenceStore = w.preferenceStore ∧
  (st.world.queue qn).faults = (w.queue qn).faults.drop attempted.length ∧
  queueData qn st = (w.queue qn).jobs.map Job.data ++
    ((attemptOutcomes (w.queue qn).faults attempted).filter (fun p => p.2.isNone)).map Prod.fst ∧
  (∀ msg, (subJobData nd u c, some msg) ∈ attemptOutcomes (w.queue qn).faults attempted →
    (c ++ ":" ++ u ++ " - " ++ msg) ∈ st.errors) ∧
  ((subJobData nd u c, none) ∈ attemptOutcomes (w.queue qn).faults attempted →
    List.lookup (u ++ "_" ++ c) st.results = some "queued") ∧
  ((subJobData nd u c, none) ∉ attemptOutcomes (w.queue qn).faults attempted →
    List.lookup (u ++ "_" ++ c) st.results = none)

/-- The world `u1World` with an sms queue whose first `add` rejects. -/
def smsDownWorld : World :=
  { u1World with smsQueue := { emptyQueue with faults := [some "queue unavailable"] } }

/-- A send-notification job to `u1` and `u2` on sms and email. -/
def twoRecipientsJob : Job :=
  { id := 3, name := "send-notification",
    data := { u1Request "security_alert" with
                channels := ["sms", "email"], recipients := ["u1", "u2"] },
    opts := noOpts }

/-- A request of type `transaction_alert` to `u1` on the sms channel. -/
def u1SmsAlertJob : Job :=
  { id := 4, name := "send-notification",
    data := { u1Request "transaction_alert" with channels := ["sms"] },
    opts := noOpts }

/-- A request of type `budget_alert` to `u1` on push, email and sms. -/
def u1ThreeChannelsJob : Job :=
  { id := 5, name := "send-notification",
    data := { u1Request "budget_alert" with channels := ["push", "email", "sms"] },
    opts := noOpts }

/-- A request to `u1` on push, email and sms whose type is the string `constructor`. -/
def constructorJob : Job :=
  { id := 6, name := "send-notification",
    data := { u1Request "constructor" with channels := ["push", "email", "sms"] },
    opts := noOpts }

/-- The argument that the send-sms processor passes to `smsClient.messages.create`
(lines 436-445). -/
def smsMessage (cfg : SmsConfig) (notificationData : NotificationData) : SmsMessage :=
  { body := notificationData.title ++ "\n\n" ++ notificationData.message ++ "\n\nType: " ++
      notificationData.type
    fromNumber := cfg.TWILIO_PHONE_NUMBER.getD ""
    toNumber :=
      if strTruthy notificationData.phone then notificationData.phone.getD "" else "+1234567890" }

/-! # Theorems -/

/-! ## Basic facts about queues and worlds -/

theorem queue_setQueue (w : World) (n m : QueueName) (q : Queue) :
    (w.setQueue n q).queue m = if m = n then q else w.queue m := by
  cases n <;> cases m <;> simp [World.setQueue, World.queue]

theorem preferenceStore_setQueue (w : World) (n : QueueName) (q : Queue) :
    (w.setQueue n q).preferenceStore = w.preferenceStore := by
  cases n <;> rfl

theorem add_cases (q : Queue) (name : String) (data : NotificationData) (opts : JobOpts) :
    (∃ msg, (q.add name data opts).1 = .error msg ∧ (q.add name data opts).2.jobs = q.jobs ∧
        (q.add name data opts).2.nextId = q.nextId ∧
        q.faults = some msg :: (q.add name data opts).2.faults) ∨
    ((q.add name data opts).1 = .ok ⟨q.nextId, name, data, opts⟩ ∧
        (q.add name data opts).2.jobs = q.jobs ++ [⟨q.nextId, name, data, opts⟩] ∧
        (q.add name data opts).2.nextId = q.nextId + 1 ∧
        (q.faults = none :: (q.add name data opts).2.faults ∨
          (q.faults = [] ∧ (q.add name data opts).2.faults = []))) := by
  unfold Queue.add
  rcases hq : q.faults with _ | ⟨f, rest⟩
  · right; simp
  · cases f with
    | none => right; simp
    | some msg => left; exact ⟨msg, by simp⟩

theorem add_ok_of_noFaults (q : Queue) (name : String) (data : NotificationData) (opts : JobOpts)
    (h : ∀ f ∈ q.faults, f = none) :
    (q.add name data opts).1 = .ok ⟨q.nextId, name, data, opts⟩ ∧
    (q.add name data opts).2.jobs = q.jobs ++ [⟨q.nextId, name, data, opts⟩] ∧
    (∀ f ∈ (q.add name data opts).2.faults, f = none) := by
  rcases add_cases q name data opts with ⟨msg, -, -, -, hf⟩ | ⟨h1, h2, -, hf | ⟨-, hf⟩⟩
  · have := h (some msg) (by rw [hf]; simp)
    simp at this
  · refine ⟨h1, h2, ?_⟩
    intro f hfm
    exact h f (by rw [hf]; exact List.mem_cons_of_mem _ hfm)
  · refine ⟨h1, h2, ?_⟩
    intro f hfm
    rw [hf] at hfm
    simp at hfm

theorem Grows.refl (P : QueueName → Job → Prop) (w : World) : Grows P w w :=
  ⟨rfl, fun _ => ⟨[], by simp⟩⟩

theorem Grows.trans {P : QueueName → Job → Prop} {w0 w1 w2 : World}
    (h01 : Grows P w0 w1) (h12 : Grows P w1 w2) : Grows P w0 w2 := by
  refine ⟨h12.1.trans h01.1, fun qn => ?_⟩
  obtain ⟨a1, e1, p1⟩ := h01.2 qn
  obtain ⟨a2, e2, p2⟩ := h12.2 qn
  refine ⟨a1 ++ a2, by rw [e2, e1, List.append_assoc], ?_⟩
  intro j hj
  rcases List.mem_append.mp hj with hj | hj
  · exact p1 j hj
  · exact p2 j hj

theorem Grows.addedJobs {P : QueueName → Job → Prop} {w0 w1 : World} (h : Grows P w0 w1)
    (qn : QueueName) : ∀ j ∈ addedJobs w0 w1 qn, P qn j := by
  obtain ⟨a, e, p⟩ := h.2 qn
  intro j hj
  unfold NotificationService.addedJobs at hj
  rw [e, List.drop_left] at hj
  exact p j hj

theorem foldl_invariant {σ α : Type} (I : σ → Prop) (f : σ → α → σ) (xs : List α)
    (hstep : ∀ s x, x ∈ xs → I s → I (f s x)) (s : σ) (h : I s) : I (xs.foldl f s) := by
  induction xs generalizing s with
  | nil => simpa using h
  | cons x xs ih =>
    simp only [List.foldl_cons]
    exact ih (fun s y hy hs => hstep s y (List.mem_cons_of_mem _ hy) hs) _
      (hstep s x (List.mem_cons_self _ _) h)

/-! ## Soundness of the fan-out: whatever is enqueued or recorded comes from an enabled pair -/

theorem mem_setKey {o : JsObj} {k v : String} {p : String × String} (h : p ∈ setKey o k v) :
    p ∈ o ∨ p = (k, v) := by
  unfold setKey at h
  split at h
  · obtain ⟨a, ha, rfl⟩ := List.mem_map.mp h
    by_cases hk : a.1 = k
    · right; simp [hk]
    · left; simpa [hk] using ha
  · rcases List.mem_append.mp h with h | h
    · exact Or.inl h
    · right; simpa using h

theorem enqueueSubJob_grows (st : FanOutState) (qn : QueueName) (jobName channel : String)
    (nd : NotificationData) (userId : String) (P : QueueName → Job → Prop)
    (hP : ∀ id, P qn ⟨id, jobName, subJobData nd userId channel, noOpts⟩) :
    Grows P st.world (enqueueSubJob st qn jobName channel nd userId).world := by
  unfold enqueueSubJob
  rcases add_cases (st.world.queue qn) jobName
    { nd with userId := some userId, channel := some channel } noOpts with
    ⟨msg, h1, h2, -, -⟩ | ⟨h1, h2, -, -⟩
  · generalize (st.world.queue qn).add jobName
      { nd with userId := some userId, channel := some channel } noOpts = r at h1 h2
    obtain ⟨r1, r2⟩ := r
    simp only at h1 h2
    subst h1
    refine ⟨preferenceStore_setQueue _ _ _, fun m => ⟨[], ?_, by simp⟩⟩
    rw [queue_setQueue]
    by_cases hm : m = qn
    · subst hm; simp [h2]
    · simp [hm]
  · generalize (st.world.queue qn).add jobName
      { nd with userId := some userId, channel := some channel } noOpts = r at h1 h2
    obtain ⟨r1, r2⟩ := r
    simp only at h1 h2
    subst h1
    refine ⟨preferenceStore_setQueue _ _ _, fun m => ?_⟩
    rw [queue_setQueue]
    by_cases hm : m = qn
    · subst hm
      refine ⟨[⟨(st.world.queue m).nextId, jobName, subJobData nd userId channel, noOpts⟩], ?_, ?_⟩
      · simp [h2, subJobData]
      · intro j hj
        simp only [List.mem_singleton] at hj
        subst hj
        exact hP _
    · exact ⟨[], by simp [hm], by simp⟩

theorem enqueueSubJob_results (st : FanOutState) (qn : QueueName) (jobName channel : String)
    (nd : NotificationData) (userId : String) {p : String × String}
    (h : p ∈ (enqueueSubJob st qn jobName channel nd userId).results) :
    p ∈ st.results ∨ p = (userId ++ "_" ++ channel, "queued") := by
  unfold enqueueSubJob at h
  split at h
  · exact mem_setKey h
  · exact Or.inl h

theorem processChannel_sound (w : World) (nd : NotificationData) (u c : String)
    (hu : u ∈ nd.recipients) (hc : c ∈ nd.channels) (st : FanOutState)
    (h : FanOutSound w nd st) :
    FanOutSound w nd
      (processChannel nd u (getUserPreferences w.preferenceStore u) st c) := by
  unfold processChannel
  by_cases hd : channelDisabled (getUserPreferences w.preferenceStore u) nd.type c = true
  · simpa [hd] using h
  · have hd2 : channelDisabled (getUserPreferences w.preferenceStore u) nd.type c = false := by
      simpa using hd
    rw [if_neg hd]
    have key : ∀ (qn : QueueName) (jobName : String), queueChannel qn = some c →
        FanOutSound w nd (enqueueSubJob st qn jobName c nd u) := by
      intro qn jobName hq
      refine ⟨h.1.trans (enqueueSubJob_grows st qn jobName c nd u _ ?_), ?_⟩
      · intro id
        exact ⟨u, hu, c, hc, hd2, hq, rfl, rfl⟩
      · intro p hp
        rcases enqueueSubJob_results st qn jobName c nd u hp with hp | hp
        · exact h.2 p hp
        · subst hp
          refine ⟨u, hu, c, hc, hd2, ?_, rfl, ?_⟩
          · cases qn <;> simp [queueChannel] at hq <;> subst hq <;> simp
          · cases qn <;> simp [queueChannel] at hq <;> subst hq <;> simp
    by_cases h1 : c = "push"
    · rw [if_pos h1]; subst h1; exact key .push _ rfl
    rw [if_neg h1]
    by_cases h2 : c = "email"
    · rw [if_pos h2]; subst h2; exact key .email _ rfl
    rw [if_neg h2]
    by_cases h3 : c = "sms"
    · rw [if_pos h3]; subst h3; exact key .sms _ rfl
    rw [if_neg h3]
    by_cases h4 : c = "websocket"
    · rw [if_pos h4]
      subst h4
      refine ⟨h.1.trans ⟨rfl, fun qn => ⟨[], ?_, by simp⟩⟩, ?_⟩
      · cases qn <;> simp [World.queue]
      · intro p hp
        rcases mem_setKey hp with hp | hp
        · exact h.2 p hp
        · subst hp
          exact ⟨u, hu, "websocket", hc, hd2, by simp, rfl, by simp⟩
    · rw [if_neg h4]; exact h

theorem processRecipient_sound (w : World) (nd : NotificationData) (u : String)
    (hu : u ∈ nd.recipients) (st : FanOutState) (h : FanOutSound w nd st) :
    FanOutSound w nd (processRecipient nd st u) := by
  unfold processRecipient
  have hs : st.world.preferenceStore = w.preferenceStore := h.1.1
  simp only [hs]
  exact foldl_invariant (FanOutSound w nd) _ nd.channels
    (fun s c hc hs => processChannel_sound w nd u c hu hc s hs) st h

theorem fanOut_sound (w : World) (nd : NotificationData) : FanOutSound w nd (fanOut w nd) := by
  unfold fanOut
  exact foldl_invariant (FanOutSound w nd) _ nd.recipients
    (fun s u hu hs => processRecipient_sound w nd u hu s hs) _
    ⟨Grows.refl _ _, by simp⟩

theorem key_injective (u u' c c' : String)
    (hc : c ∈ ["push", "email", "sms", "websocket"])
    (hc' : c' ∈ ["push", "email", "sms", "websocket"])
    (h : u ++ "_" ++ c = u' ++ "_" ++ c') : u = u' ∧ c = c' := by
  have hd := congrArg String.data h
  simp only [String.data_append] at hd
  have hr := congrArg List.reverse hd
  simp only [List.mem_cons, List.mem_singleton, List.not_mem_nil, or_false] at hc hc'
  rcases hc with rfl | rfl | rfl | rfl <;> rcases hc' with rfl | rfl | rfl | rfl <;>
    first
    | (refine ⟨String.ext ?_, rfl⟩
       simpa using hd)
    | (exfalso
       simp at hr)

theorem queue_logNotification (w : World) (nd : NotificationData) (status : String)
    (error : Option String) (qn : QueueName) :
    (logNotification w nd status error).queue qn = w.queue qn := by
  unfold logNotification
  simp only []
  split <;> cases qn <;> rfl

theorem addedJobs_sendNotificationHandler (w : World) (job : Job) (now : Int) (qn : QueueName) :
    addedJobs w (sendNotificationHandler w job now).1 qn =
      addedJobs w (fanOut w job.data).world qn := by
  simp [addedJobs, sendNotificationHandler, queue_logNotification]

/-- What the guard of line 183 skips is not enqueued: when the guard holds for `u` and `c`, the
handler adds to no queue a sub-job for `u` on `c`, and for `c` one of the four channels of the
switch its `results` have no entry under the key of `(u, c)`, whatever the `add` calls do. -/
theorem guard_skips_pair (w : World) (job : Job) (now : Int) (u c : String)
    (hdis : channelDisabled (getUserPreferences w.preferenceStore u) job.data.type c = true) :
    (∀ qn, ∀ j ∈ addedJobs w (sendNotificationHandler w job now).1 qn,
        ¬ (j.data.userId = some u ∧ j.data.channel = some c)) ∧
    (c ∈ ["push", "email", "sms", "websocket"] →
      ∀ v, (u ++ "_" ++ c, v) ∉ (sendNotificationHandler w job now).2.results) := by
  have hs := fanOut_sound w job.data
  refine ⟨?_, ?_⟩
  · intro qn j hj
    rw [addedJobs_sendNotificationHandler] at hj
    obtain ⟨u', -, c', -, hen, -, hdata, -⟩ := hs.1.addedJobs qn j hj
    rintro ⟨h1, h2⟩
    rw [hdata] at h1 h2
    simp only [subJobData, Option.some.injEq] at h1 h2
    subst h1 h2
    rw [hdis] at hen
    exact Bool.noConfusion hen
  · intro hc v hmem
    have hmem2 : (u ++ "_" ++ c, v) ∈ (fanOut w job.data).results := hmem
    obtain ⟨u', -, c', -, hen, hc', hk, -⟩ := hs.2 _ hmem2
    obtain ⟨rfl, rfl⟩ := key_injective u u' c c' hc hc' hk
    rw [hdis] at hen
    exact Bool.noConfusion hen

/-- C2 (code at the scenario): for type `budget_alert`, channels push and email, recipient `u1`
whose stored `budgetAlerts.email` is false and `budgetAlerts.push` is true, the handler looks up
`preferences["budget_alert"]`, which the stored document (keyed `budgetAlerts`) does not have, so
the check lets both channels through: it enqueues one push sub-job and one email sub-job. -/
theorem C2_budget_alert_dispatches_email_too :
    getUserPreferences u1World.preferenceStore "u1" = some (plainObject u1Preferences) ∧
    (u1Preferences.lookup "budgetAlerts").bind (fun e => e.lookup "email") = some (.bool false) ∧
    (u1Preferences.lookup "budgetAlerts").bind (fun e => e.lookup "push") = some (.bool true) ∧
    (addedJobs u1World (sendNotificationHandler u1World (u1Job "budget_alert") 0).1 .push).map
        (fun j => (j.name, j.data.userId, j.data.channel)) =
      [("send-push", some "u1", some "push")] ∧
    (addedJobs u1World (sendNotificationHandler u1World (u1Job "budget_alert") 0).1 .email).map
        (fun j => (j.name, j.data.userId, j.data.channel)) =
      [("send-email", some "u1", some "email")] ∧
    (sendNotificationHandler u1World (u1Job "budget_alert") 0).2.results =
      [("u1_push", "queued"), ("u1_email", "queued")] := by
  decide

/-- C1 (code at the failing input): `u1` has stored `transactionAlerts.sms = false`, so the
preference of `u1` for transaction alerts on sms is disabled. For a request of type
`transaction_alert` to `u1` on sms the handler reads `preferences["transaction_alert"]`, which
the stored document (keyed `transactionAlerts`) does not have; the guard of line 183 is false, a
send-sms sub-job for `u1` is added to the sms queue and `results` has the entry `u1_sms`. -/
theorem C1_disabled_sms_still_enqueued :
    getUserPreferences u1World.preferenceStore "u1" = some (plainObject u1Preferences) ∧
    (u1Preferences.lookup "transactionAlerts").bind (fun e => e.lookup "sms") =
      some (.bool false) ∧
    channelDisabled (getUserPreferences u1World.preferenceStore "u1") "transaction_alert" "sms" =
      false ∧
    (addedJobs u1World (sendNotificationHandler u1World u1SmsAlertJob 0).1 .sms).map
        (fun j => (j.name, j.data.userId, j.data.channel)) =
      [("send-sms", some "u1", some "sms")] ∧
    (sendNotificationHandler u1World u1SmsAlertJob 0).2.results = [("u1_sms", "queued")] := by
  decide

/-- C3 (code at the failing input): `u1` has stored `budgetAlerts` with push on, email off and sms
off, so one of the three requested channels is enabled for `u1` and budget alerts. For a request
of type `budget_alert` to `u1` on push, email and sms, with every add succeeding, the handler
enqueues three sub-jobs, one in each of the push, email and sms queues: the two disabled
channels contribute one sub-job each. -/
theorem C3_fanout_count_ignores_stored_preferences :
    u1ThreeChannelsJob.data.recipients = ["u1"] ∧
    u1ThreeChannelsJob.data.channels = ["push", "email", "sms"] ∧
    (u1ThreeChannelsJob.data.channels.filter fun c =>
      (u1Preferences.lookup "budgetAlerts").bind (fun e => e.lookup c) =
        some (.bool true)) = ["push"] ∧
    enqueuedCount u1World (sendNotificationHandler u1World u1ThreeChannelsJob 0).1 = 3 ∧
    (addedJobs u1World (sendNotificationHandler u1World u1ThreeChannelsJob 0).1 .email).map
        (fun j => (j.name, j.data.userId, j.data.channel)) =
      [("send-email", some "u1", some "email")] ∧
    (addedJobs u1World (sendNotificationHandler u1World u1ThreeChannelsJob 0).1 .sms).map
        (fun j => (j.name, j.data.userId, j.data.channel)) =
      [("send-sms", some "u1", some "sms")] := by
  decide

/-! ## Exact effect of the fan-out when every `add` succeeds -/

theorem foldl_trace {σ α β : Type} (I : σ → Prop) (tr : σ → List β) (g : α → List β)
    (f : σ → α → σ) (xs : List α)
    (hstep : ∀ s x, x ∈ xs → I s → I (f s x) ∧ tr (f s x) = tr s ++ g x)
    (s : σ) (h : I s) :
    I (xs.foldl f s) ∧ tr (xs.foldl f s) = tr s ++ xs.flatMap g := by
  induction xs generalizing s with
  | nil => simpa using h
  | cons x xs ih =>
    simp only [List.foldl_cons, List.flatMap_cons]
    obtain ⟨h1, h2⟩ := hstep s x (List.mem_cons_self _ _) h
    obtain ⟨h3, h4⟩ := ih (fun s y hy hs => hstep s y (List.mem_cons_of_mem _ hy) hs) _ h1
    exact ⟨h3, by rw [h4, h2, List.append_assoc]⟩

theorem enqueueSubJob_exact (st : FanOutState) (qn : QueueName) (jobName channel : String)
    (nd : NotificationData) (userId : String) (hnf : NoFaults st.world) :
    NoFaults (enqueueSubJob st qn jobName channel nd userId).world ∧
    (enqueueSubJob st qn jobName channel nd userId).world.preferenceStore =
      st.world.preferenceStore ∧
    (enqueueSubJob st qn jobName channel nd userId).results =
      setKey st.results (userId ++ "_" ++ channel) "queued" ∧
    ∀ m, queueData m (enqueueSubJob st qn jobName channel nd userId) =
      queueData m st ++ (if m = qn then [subJobData nd userId channel] else []) := by
  unfold enqueueSubJob
  obtain ⟨h1, h2, h3⟩ := add_ok_of_noFaults (st.world.queue qn) jobName
    { nd with userId := some userId, channel := some channel } noOpts (hnf qn)
  generalize (st.world.queue qn).add jobName
      { nd with userId := some userId, channel := some channel } noOpts = r at h1 h2 h3
  obtain ⟨r1, r2⟩ := r
  simp only at h1 h2 h3
  subst h1
  refine ⟨?_, preferenceStore_setQueue _ _ _, rfl, ?_⟩
  · intro m
    simp only [queue_setQueue]
    by_cases hm : m = qn
    · simpa [hm] using h3
    · simpa [hm] using hnf m
  · intro m
    simp only [queueData, queue_setQueue]
    by_cases hm : m = qn
    · subst hm; simp [h2, subJobData]
    · simp [hm]

theorem processChannel_exact (nd : NotificationData) (u : String) (prefs : Option PreferencesObject)
    (store : PreferenceStore) (st : FanOutState) (c : String)
    (h : NoFaults st.world ∧ st.world.preferenceStore = store) (qn : QueueName) :
    (NoFaults (processChannel nd u prefs st c).world ∧
      (processChannel nd u prefs st c).world.preferenceStore = store) ∧
    queueData qn (processChannel nd u prefs st c) =
      queueData qn st ++ channelSubJobs nd u prefs qn c := by
  unfold processChannel channelSubJobs
  by_cases hd : channelDisabled prefs nd.type c = true
  · simp [hd, h.1, h.2]
  · have hd2 : channelDisabled prefs nd.type c = false := by simpa using hd
    rw [if_neg hd]
    simp only [hd2, true_and]
    have key : ∀ (q : QueueName) (jobName : String), queueChannel q = some c →
        (∀ m, queueChannel m = some c → m = q) →
        (NoFaults (enqueueSubJob st q jobName c nd u).world ∧
          (enqueueSubJob st q jobName c nd u).world.preferenceStore = store) ∧
        queueData qn (enqueueSubJob st q jobName c nd u) =
          queueData qn st ++ (if queueChannel qn = some c then [subJobData nd u c] else []) := by
      intro q jobName hq huniq
      obtain ⟨e1, e2, -, e4⟩ := enqueueSubJob_exact st q jobName c nd u h.1
      refine ⟨⟨e1, e2.trans h.2⟩, ?_⟩
      rw [e4 qn]
      by_cases hm : qn = q
      · subst hm; simp [hq]
      · have : ¬ queueChannel qn = some c := fun hh => hm (huniq qn hh)
        simp [hm, this]
    by_cases h1 : c = "push"
    · rw [if_pos h1]; subst h1
      exact key .push _ rfl (by intro m hm; cases m <;> simp [queueChannel] at hm ⊢)
    rw [if_neg h1]
    by_cases h2 : c = "email"
    · rw [if_pos h2]; subst h2
      exact key .email _ rfl (by intro m hm; cases m <;> simp [queueChannel] at hm ⊢)
    rw [if_neg h2]
    by_cases h3 : c = "sms"
    · rw [if_pos h3]; subst h3
      exact key .sms _ rfl (by intro m hm; cases m <;> simp [queueChannel] at hm ⊢)
    rw [if_neg h3]
    have hq : ¬ queueChannel qn = some c := by
      cases qn <;> simp [queueChannel] <;> intro hh <;> simp_all
    by_cases h4 : c = "websocket"
    · rw [if_pos h4]
      refine ⟨⟨?_, h.2⟩, ?_⟩
      · intro m; have := h.1 m; cases m <;> exact this
      · simp only [hq, if_false, List.append_nil]
        cases qn <;> rfl
    · rw [if_neg h4]
      simp [hq, h.1, h.2]

theorem fanOut_exact (w : World) (nd : NotificationData) (hnf : NoFaults w) (qn : QueueName) :
    queueData qn (fanOut w nd) = (w.queue qn).jobs.map Job.data ++ expectedSubJobs w nd qn := by
  unfold fanOut expectedSubJobs
  have := foldl_trace
    (fun st : FanOutState => NoFaults st.world ∧ st.world.preferenceStore = w.preferenceStore)
    (queueData qn)
    (fun u => nd.channels.flatMap
      (channelSubJobs nd u (getUserPreferences w.preferenceStore u) qn))
    (processRecipient nd) nd.recipients
    (by
      intro st u _ hst
      unfold processRecipient
      simp only [hst.2]
      exact foldl_trace _ (queueData qn) _ _ nd.channels
        (fun s c _ hs => processChannel_exact nd u _ w.preferenceStore s c hs qn) st hst)
    { world := w, results := [], errors := [] } ⟨hnf, rfl⟩
  exact this.2

theorem addedJobs_fanOut_data (w : World) (nd : NotificationData) (hnf : NoFaults w)
    (qn : QueueName) :
    (addedJobs w (fanOut w nd).world qn).map Job.data = expectedSubJobs w nd qn := by
  have h := fanOut_exact w nd hnf qn
  unfold queueData at h
  unfold addedJobs
  rw [List.map_drop, h]
  exact List.drop_left' (by simp)

theorem channelSubJobs_head (nd : NotificationData) (u : String) (prefs : Option PreferencesObject)
    (c : String) (hc : c ∈ ["push", "email", "sms"]) :
    (channelSubJobs nd u prefs .push c).length + (channelSubJobs nd u prefs .email c).length +
    (channelSubJobs nd u prefs .sms c).length +
    (channelSubJobs nd u prefs .notification c).length +
    (channelSubJobs nd u prefs .scheduled c).length =
    if channelDisabled prefs nd.type c = false then 1 else 0 := by
  simp only [List.mem_cons, List.mem_singleton, List.not_mem_nil, or_false] at hc
  by_cases hd : channelDisabled prefs nd.type c = false
  · rcases hc with rfl | rfl | rfl <;> simp [channelSubJobs, queueChannel, hd]
  · rcases hc with rfl | rfl | rfl <;> simp [channelSubJobs, queueChannel, hd]

theorem channelSubJobs_count (nd : NotificationData) (u : String) (prefs : Option PreferencesObject)
    (cs : List String) (hcs : ∀ c ∈ cs, c ∈ ["push", "email", "sms"]) :
    (cs.flatMap (channelSubJobs nd u prefs .push)).length +
    (cs.flatMap (channelSubJobs nd u prefs .email)).length +
    (cs.flatMap (channelSubJobs nd u prefs .sms)).length +
    (cs.flatMap (channelSubJobs nd u prefs .notification)).length +
    (cs.flatMap (channelSubJobs nd u prefs .scheduled)).length =
    (cs.filter (fun c => channelDisabled prefs nd.type c = false)).length := by
  induction cs with
  | nil => simp
  | cons c cs ih =>
    have ih2 := ih (fun x hx => hcs x (List.mem_cons_of_mem _ hx))
    have hh := channelSubJobs_head nd u prefs c (hcs c (List.mem_cons_self _ _))
    simp only [List.flatMap_cons, List.length_append]
    by_cases hd : channelDisabled prefs nd.type c = false
    · rw [if_pos hd] at hh
      have hf : ((c :: cs).filter (fun c => channelDisabled prefs nd.type c = false)).length =
          (cs.filter (fun c => channelDisabled prefs nd.type c = false)).length + 1 := by
        simp [List.filter_cons, hd]
      omega
    · rw [if_neg hd] at hh
      have hf : ((c :: cs).filter (fun c => channelDisabled prefs nd.type c = false)).length =
          (cs.filter (fun c => channelDisabled prefs nd.type c = false)).length := by
        simp [List.filter_cons, hd]
      omega

theorem expectedSubJobs_count (w : World) (nd : NotificationData)
    (hcs : ∀ c ∈ nd.channels, c ∈ ["push", "email", "sms"]) :
    (expectedSubJobs w nd .push).length + (expectedSubJobs w nd .email).length +
    (expectedSubJobs w nd .sms).length + (expectedSubJobs w nd .notification).length +
    (expectedSubJobs w nd .scheduled).length =
    (nd.recipients.map fun u => (nd.channels.filter fun c =>
      channelDisabled (getUserPreferences w.preferenceStore u) nd.type c = false).length).sum := by
  unfold expectedSubJobs
  induction nd.recipients with
  | nil => simp
  | cons u us ih =>
    have := channelSubJobs_count nd u (getUserPreferences w.preferenceStore u) nd.channels hcs
    simp only [List.flatMap_cons, List.length_append, List.map_cons, List.sum_cons]
    omega

/-- The fan-out counted by the guard of line 183: for duplicate-free recipients and channels
drawn from push, email and sms, when every queue add succeeds, the number of sub-jobs enqueued
is the sum over the recipients of the number of requested channels for which the guard is false;
and a pair for which the guard holds gets no sub-job in any queue. -/
theorem fanOut_count_by_guard (w : World) (job : Job) (now : Int)
    (hnf : NoFaults w)
    (hrec : job.data.recipients.Nodup) (hch : job.data.channels.Nodup)
    (hcs : ∀ c ∈ job.data.channels, c ∈ ["push", "email", "sms"]) :
    enqueuedCount w (sendNotificationHandler w job now).1 =
      Finset.sum job.data.recipients.toFinset (fun u =>
        (job.data.channels.toFinset.filter (fun c =>
          channelDisabled (getUserPreferences w.preferenceStore u) job.data.type c = false)).card) ∧
    ∀ u c, channelDisabled (getUserPreferences w.preferenceStore u) job.data.type c = true →
      ∀ qn, (addedJobs w (sendNotificationHandler w job now).1 qn).filter
        (fun j => j.data.userId = some u ∧ j.data.channel = some c) = [] := by
  refine ⟨?_, ?_⟩
  · unfold enqueuedCount
    simp only [addedJobs_sendNotificationHandler]
    have hlen : ∀ qn, (addedJobs w (fanOut w job.data).world qn).length =
        (expectedSubJobs w job.data qn).length := by
      intro qn
      rw [← addedJobs_fanOut_data w job.data hnf qn, List.length_map]
    simp only [hlen]
    rw [expectedSubJobs_count w job.data hcs, List.sum_toFinset _ hrec]
    congr 1
    apply List.map_congr_left
    intro u _
    rw [← List.toFinset_card_of_nodup (hch.filter _)]
    congr 1
    ext c
    simp
  · intro u c hdis qn
    rw [List.filter_eq_nil_iff]
    intro j hj
    rw [addedJobs_sendNotificationHandler] at hj
    obtain ⟨u', -, c', -, hen, -, hdata, -⟩ := (fanOut_sound w job.data).1.addedJobs qn j hj
    simp only [decide_eq_true_eq]
    rintro ⟨h1, h2⟩
    rw [hdata] at h1 h2
    simp only [subJobData, Option.some.injEq] at h1 h2
    subst h1 h2
    rw [hdis] at hen
    exact Bool.noConfusion hen

/-! ## Reading `results` back -/

theorem lookup_setKey_self (o : JsObj) (k v : String) :
    List.lookup k (setKey o k v) = some v := by
  unfold setKey
  induction o with
  | nil => simp [List.lookup]
  | cons p o ih =>
    obtain ⟨a, b⟩ := p
    by_cases hak : a = k
    · subst hak
      simp [List.lookup]
    · have hka : (k == a) = false := by simpa using fun h => hak h.symm
      by_cases hany : o.any (fun p => p.1 == k) = true
      · simp only [hany, if_true] at ih
        simp [hak, hany, List.lookup, hka, ih]
      · simp only [hany] at ih
        simp [hak, hany, List.lookup, hka]
        simpa using ih

theorem lookup_map_ne (o : JsObj) (k k0 v : String) (h : k0 ≠ k) :
    List.lookup k0 (o.map (fun p => if p.1 = k then (k, v) else p)) = List.lookup k0 o := by
  induction o with
  | nil => rfl
  | cons p o ih =>
    obtain ⟨a, b⟩ := p
    by_cases hak : a = k
    · subst hak
      have : (k0 == a) = false := by simpa using h
      simp only [List.map_cons, if_true, List.lookup_cons, this, ih]
    · simp only [List.map_cons, hak, if_false, List.lookup_cons, ih]

theorem lookup_append_ne (o : JsObj) (k k0 v : String) (h : k0 ≠ k) :
    List.lookup k0 (o ++ [(k, v)]) = List.lookup k0 o := by
  induction o with
  | nil =>
    have : (k0 == k) = false := by simpa using h
    simp [List.lookup, this]
  | cons p o ih =>
    obtain ⟨a, b⟩ := p
    simp only [List.cons_append, List.lookup_cons, ih]

theorem lookup_setKey_ne (o : JsObj) (k k0 v : String) (h : k0 ≠ k) :
    List.lookup k0 (setKey o k v) = List.lookup k0 o := by
  unfold setKey
  split
  · exact lookup_map_ne o k k0 v h
  · exact lookup_append_ne o k k0 v h

theorem enqueueSubJob_results_eq (st : FanOutState) (qn : QueueName) (jobName channel : String)
    (nd : NotificationData) (userId : String) :
    (enqueueSubJob st qn jobName channel nd userId).results = st.results ∨
    (enqueueSubJob st qn jobName channel nd userId).results =
      setKey st.results (userId ++ "_" ++ channel) "queued" := by
  unfold enqueueSubJob
  split
  · exact Or.inr rfl
  · exact Or.inl rfl

theorem processChannel_keeps_sent (nd : NotificationData) (u u' c' : String)
    (prefs : Option PreferencesObject) (st : FanOutState)
    (h : List.lookup (u ++ "_" ++ "websocket") st.results = some "sent") :
    List.lookup (u ++ "_" ++ "websocket") (processChannel nd u' prefs st c').results =
      some "sent" := by
  have key : ∀ (qn : QueueName) (jobName c : String), c ∈ ["push", "email", "sms"] →
      List.lookup (u ++ "_" ++ "websocket") (enqueueSubJob st qn jobName c nd u').results =
        some "sent" := by
    intro qn jobName c hc
    rcases enqueueSubJob_results_eq st qn jobName c nd u' with e | e
    · rw [e]; exact h
    · rw [e, lookup_setKey_ne _ _ _ _ ?_]
      · exact h
      · intro hk
        have := (key_injective u u' "websocket" c (by simp)
          (by simp only [List.mem_cons, List.mem_singleton] at hc ⊢; tauto) hk).2
        subst this
        simp at hc
  unfold processChannel
  split
  · exact h
  split
  · exact key _ _ _ (by simp)
  split
  · exact key _ _ _ (by simp)
  split
  · exact key _ _ _ (by simp)
  split
  · simp only
    by_cases hk : u ++ "_" ++ "websocket" = u' ++ "_" ++ "websocket"
    · rw [hk]; exact lookup_setKey_self _ _ _
    · rw [lookup_setKey_ne _ _ _ _ hk]; exact h
  · exact h

theorem processChannel_websocket (nd : NotificationData) (u : String)
    (prefs : Option PreferencesObject) (st : FanOutState)
    (hen : channelDisabled prefs nd.type "websocket" = false) :
    (∀ qn, (processChannel nd u prefs st "websocket").world.queue qn = st.world.queue qn) ∧
    (processChannel nd u prefs st "websocket").world.websocketSent =
      st.world.websocketSent ++ [{ nd with userId := some u }] ∧
    List.lookup (u ++ "_" ++ "websocket") (processChannel nd u prefs st "websocket").results =
      some "sent" := by
  unfold processChannel
  simp only [hen, Bool.false_eq_true, if_false]
  rw [if_neg (by decide), if_neg (by decide), if_neg (by decide), if_pos trivial]
  refine ⟨fun qn => by cases qn <;> rfl, rfl, lookup_setKey_self _ _ _⟩

theorem foldl_establish {σ α : Type} (I J : σ → Prop) (f : σ → α → σ) (xs : List α) (x0 : α)
    (hx0 : x0 ∈ xs)
    (hI : ∀ s x, x ∈ xs → I s → I (f s x))
    (hest : ∀ s, I s → J (f s x0))
    (hpres : ∀ s x, x ∈ xs → J s → J (f s x))
    (s : σ) (h : I s) : J (xs.foldl f s) := by
  induction xs generalizing s with
  | nil => simp at hx0
  | cons x xs ih =>
    simp only [List.foldl_cons]
    rcases List.mem_cons.mp hx0 with rfl | hmem
    · exact foldl_invariant J f xs
        (fun s y hy hs => hpres s y (List.mem_cons_of_mem _ hy) hs) _ (hest s h)
    · exact ih hmem (fun s y hy hs => hI s y (List.mem_cons_of_mem _ hy) hs)
        (fun s y hy hs => hpres s y (List.mem_cons_of_mem _ hy) hs) _
        (hI s x (List.mem_cons_self _ _) h)

theorem fanOut_websocket_sent (w : World) (nd : NotificationData) (u : String)
    (hu : u ∈ nd.recipients) (hc : "websocket" ∈ nd.channels)
    (hen : channelDisabled (getUserPreferences w.preferenceStore u) nd.type "websocket" = false) :
    List.lookup (u ++ "_" ++ "websocket") (fanOut w nd).results = some "sent" := by
  unfold fanOut
  refine foldl_establish (FanOutSound w nd)
    (fun st => List.lookup (u ++ "_" ++ "websocket") st.results = some "sent")
    (processRecipient nd) nd.recipients u hu
    (fun s x hx hs => processRecipient_sound w nd x hx s hs) ?_ ?_ _ ⟨Grows.refl _ _, by simp⟩
  · intro s hs
    unfold processRecipient
    have hstore : s.world.preferenceStore = w.preferenceStore := hs.1.1
    simp only [hstore]
    exact foldl_establish (fun _ => True) _ _ nd.channels "websocket" hc
      (fun _ _ _ _ => trivial)
      (fun s' _ => (processChannel_websocket nd u _ s' hen).2.2)
      (fun s' c' _ hs' => processChannel_keeps_sent nd u u c' _ s' hs') s trivial
  · intro s x _ hs
    unfold processRecipient
    exact foldl_invariant _ _ nd.channels
      (fun s' c' _ hs' => processChannel_keeps_sent nd u x c' _ s' hs') s hs

theorem flatMap_eq_of_unique {α β : Type} (g : α → List β) (xs : List α) (x0 : α)
    (hnd : xs.Nodup) (hx0 : x0 ∈ xs) (h : ∀ x ∈ xs, x ≠ x0 → g x = []) :
    xs.flatMap g = g x0 := by
  induction xs with
  | nil => simp at hx0
  | cons x xs ih =>
    rw [List.nodup_cons] at hnd
    simp only [List.flatMap_cons]
    rcases List.mem_cons.mp hx0 with rfl | hmem
    · have : xs.flatMap g = [] := by
        rw [List.flatMap_eq_nil_iff]
        intro y hy
        exact h y (List.mem_cons_of_mem _ hy) (fun e => hnd.1 (e ▸ hy))
      rw [this, List.append_nil]
    · have hx : g x = [] :=
        h x (List.mem_cons_self _ _) (fun e => hnd.1 (e ▸ hmem))
      rw [hx, List.nil_append]
      exact ih hnd.2 hmem (fun y hy => h y (List.mem_cons_of_mem _ hy))

theorem userId_of_mem_channelSubJobs {nd : NotificationData} {u : String}
    {prefs : Option PreferencesObject} {qn : QueueName} {cs : List String} {d : NotificationData}
    (h : d ∈ cs.flatMap (channelSubJobs nd u prefs qn)) : d.userId = some u := by
  obtain ⟨c, -, hd⟩ := List.mem_flatMap.mp h
  unfold channelSubJobs at hd
  split at hd
  · simp only [List.mem_singleton] at hd
    subst hd
    rfl
  · simp at hd

theorem expectedSubJobs_for_recipient (w : World) (nd : NotificationData) (qn : QueueName)
    (u c : String) (hrec : nd.recipients.Nodup) (hch : nd.channels.Nodup)
    (hu : u ∈ nd.recipients) (hc : c ∈ nd.channels)
    (hen : channelDisabled (getUserPreferences w.preferenceStore u) nd.type c = false)
    (hq : queueChannel qn = some c) :
    (expectedSubJobs w nd qn).filter (fun d => d.userId = some u) = [subJobData nd u c] := by
  unfold expectedSubJobs
  rw [List.filter_flatMap]
  rw [flatMap_eq_of_unique _ nd.recipients u hrec hu]
  · rw [List.filter_eq_self.mpr]
    · rw [flatMap_eq_of_unique _ nd.channels c hch hc]
      · simp [channelSubJobs, hen, hq]
      · intro c' _ hne
        have : ¬ queueChannel qn = some c' := by
          rw [hq]; intro e; exact hne (Option.some.inj e).symm
        simp [channelSubJobs, this]
    · intro d hd
      simpa using userId_of_mem_channelSubJobs hd
  · intro u' _ hne
    rw [List.filter_eq_nil_iff]
    intro d hd
    have := userId_of_mem_channelSubJobs hd
    simp only [decide_eq_true_eq, this, Option.some.injEq]
    exact hne

/-- C9: in a run of the send-notification handler on duplicate-free recipients and channels in
which every add succeeds, for a recipient `u` and a requested channel `c` that pass the preference
check: the queue dedicated to `c` (push, email or sms queue) receives exactly one job for `u`,
whose payload has `userId = u`, `channel = c` and the type, title, message and data of the
request; no other queue receives a job for `(u, c)`; and for `c = websocket` (which has no queue,
so no job is added anywhere) the handler records `sent` under the key of `(u, websocket)`. -/
theorem C9_subjob_for_enabled_pair (w : World) (job : Job) (now : Int) (u c : String)
    (hnf : NoFaults w) (hrec : job.data.recipients.Nodup) (hch : job.data.channels.Nodup)
    (hu : u ∈ job.data.recipients) (hc : c ∈ job.data.channels)
    (hen : channelDisabled (getUserPreferences w.preferenceStore u) job.data.type c = false) :
    (∀ qn, queueChannel qn = some c →
      ∃ j, (addedJobs w (sendNotificationHandler w job now).1 qn).filter
              (fun j => j.data.userId = some u) = [j] ∧
        j.data.userId = some u ∧ j.data.channel = some c ∧
        j.data.type = job.data.type ∧ j.data.title = job.data.title ∧
        j.data.message = job.data.message ∧ j.data.data = job.data.data) ∧
    (∀ qn, queueChannel qn ≠ some c →
      (addedJobs w (sendNotificationHandler w job now).1 qn).filter
        (fun j => j.data.userId = some u ∧ j.data.channel = some c) = []) ∧
    (c = "websocket" →
      List.lookup (u ++ "_" ++ "websocket") (sendNotificationHandler w job now).2.results =
        some "sent") := by
  refine ⟨?_, ?_, ?_⟩
  · intro qn hq
    rw [addedJobs_sendNotificationHandler]
    have h1 := expectedSubJobs_for_recipient w job.data qn u c hrec hch hu hc hen hq
    rw [← addedJobs_fanOut_data w job.data hnf qn, List.filter_map] at h1
    generalize (addedJobs w (fanOut w job.data).world qn) = L at h1
    have h2 : List.filter (fun j : Job => decide (j.data.userId = some u)) L =
        List.filter ((fun d : NotificationData => decide (d.userId = some u)) ∘ Job.data) L := rfl
    rw [h2]
    generalize List.filter ((fun d : NotificationData => decide (d.userId = some u)) ∘ Job.data) L
      = X at h1
    match X, h1 with
    | [j], h1 =>
      simp only [List.map_cons, List.map_nil, List.cons.injEq, and_true] at h1
      exact ⟨j, rfl, by rw [h1]; rfl, by rw [h1]; rfl, by rw [h1]; rfl, by rw [h1]; rfl,
        by rw [h1]; rfl, by rw [h1]; rfl⟩
    | [], h1 => simp at h1
    | _ :: _ :: _, h1 => simp at h1
  · intro qn hq
    rw [List.filter_eq_nil_iff]
    intro j hj
    rw [addedJobs_sendNotificationHandler] at hj
    obtain ⟨u', -, c', -, -, hq', hdata, -⟩ := (fanOut_sound w job.data).1.addedJobs qn j hj
    simp only [decide_eq_true_eq]
    rintro ⟨-, h2⟩
    rw [hdata] at h2
    simp only [subJobData, Option.some.injEq] at h2
    subst h2
    exact hq hq'
  · intro hws
    subst hws
    exact fanOut_websocket_sent w job.data u hu hc hen

/-! ## The send endpoint, the scheduled processor and the SMS processor -/

theorem add_of_noFaults (q : Queue) (name : String) (data : NotificationData) (opts : JobOpts)
    (h : ∀ f ∈ q.faults, f = none) :
    q.add name data opts =
      (.ok ⟨q.nextId, name, data, opts⟩,
       { nextId := q.nextId + 1, jobs := q.jobs ++ [⟨q.nextId, name, data, opts⟩],
         faults := q.faults.tail }) := by
  unfold Queue.add
  rcases hq : q.faults with _ | ⟨f, rest⟩
  · simp
  · have hf : f = none := h f (by rw [hq]; exact List.mem_cons_self _ _)
    subst hf
    simp

theorem addedJobs_self (w : World) (qn : QueueName) : addedJobs w w qn = [] := by
  simp [addedJobs]

/-- C5: the send endpoint answers 400 and leaves every queue as it was (the whole state is
unchanged, so no job is added anywhere) whenever `type`, `title` or `message` is missing from the
body or is the empty string. -/
theorem C5_missing_field_rejected (env : RetryEnv) (userId : String) (createdAt now : Int)
    (body : SendBody) (w : World)
    (h : (body.type = none ∨ body.type = some "") ∨ (body.title = none ∨ body.title = some "") ∨
      (body.message = none ∨ body.message = some "")) :
    (postNotificationsSend env userId createdAt now body w).2.status = 400 ∧
    (postNotificationsSend env userId createdAt now body w).1 = w ∧
    ∀ qn, addedJobs w (postNotificationsSend env userId createdAt now body w).1 qn = [] := by
  have hc : (!strTruthy body.type || !strTruthy body.title || !strTruthy body.message) = true := by
    rcases h with (h | h) | (h | h) | (h | h) <;> simp [h, strTruthy]
  have hr : postNotificationsSend env userId createdAt now body w =
      (w, errorResponse 400 "Type, title, and message are required") := by
    unfold postNotificationsSend
    rw [if_pos hc]
  rw [hr]
  exact ⟨rfl, rfl, fun qn => addedJobs_self w qn⟩

/-- C5 at a concrete request: a body with only `type`. -/
theorem C5_missing_field_rejected_witness :
    ((incompleteBody.type = none ∨ incompleteBody.type = some "") ∨
      (incompleteBody.title = none ∨ incompleteBody.title = some "") ∨
      (incompleteBody.message = none ∨ incompleteBody.message = some "")) ∧
    ((postNotificationsSend defaultEnv "admin" 0 0 incompleteBody u1World).2.status = 400 ∧
    (postNotificationsSend defaultEnv "admin" 0 0 incompleteBody u1World).1 = u1World ∧
    ∀ qn, addedJobs u1World
      (postNotificationsSend defaultEnv "admin" 0 0 incompleteBody u1World).1 qn = []) :=
  ⟨Or.inr (Or.inl (Or.inl rfl)),
   C5_missing_field_rejected defaultEnv "admin" 0 0 incompleteBody u1World
     (Or.inr (Or.inl (Or.inl rfl)))⟩

theorem postNotificationsSend_ok (env : RetryEnv) (userId : String) (createdAt now : Int)
    (body : SendBody) (w : World)
    (hvalid : strTruthy body.type = true ∧ strTruthy body.title = true ∧
      strTruthy body.message = true)
    (hnf : NoFaults w) :
    postNotificationsSend env userId createdAt now body w =
      match body.scheduled with
      | some scheduled =>
        ({ w with scheduledQueue :=
            { nextId := w.scheduledQueue.nextId + 1
              jobs := w.scheduledQueue.jobs ++ [⟨w.scheduledQueue.nextId, "scheduled-notification",
                requestData userId createdAt body, sendOpts env (some (scheduled - now))⟩]
              faults := w.scheduledQueue.faults.tail } },
          { status := 200, error := none, success := some true,
            jobId := some w.scheduledQueue.nextId,
            jobStatus := some "scheduled", scheduledFor := some scheduled,
            message := some "Notification scheduled successfully" })
      | none =>
        ({ w with notificationQueue :=
            { nextId := w.notificationQueue.nextId + 1
              jobs := w.notificationQueue.jobs ++ [⟨w.notificationQueue.nextId,
                "send-notification", requestData userId createdAt body, sendOpts env none⟩]
              faults := w.notificationQueue.faults.tail } },
          { status := 200, error := none, success := some true,
            jobId := some w.notificationQueue.nextId,
            jobStatus := some "queued", scheduledFor := none,
            message := some "Notification queued successfully" }) := by
  obtain ⟨h1, h2, h3⟩ := hvalid
  have hc : ¬ (!strTruthy body.type || !strTruthy body.title || !strTruthy body.message) = true := by
    simp [h1, h2, h3]
  have hrec : (match body.recipients with
      | some recipients => recipients
      | none => [userId]) = body.recipients.getD [userId] := by
    cases body.recipients <;> rfl
  unfold postNotificationsSend
  rw [if_neg hc]
  simp only [hrec]
  cases hs : body.scheduled with
  | some scheduled =>
    have hq : ∀ f ∈ w.scheduledQueue.faults, f = none := hnf .scheduled
    simp only
    rw [add_of_noFaults _ _ _ _ hq]
    rfl
  | none =>
    have hq : ∀ f ∈ w.notificationQueue.faults, f = none := hnf .notification
    simp only
    rw [add_of_noFaults _ _ _ _ hq]
    rfl

theorem addedJobs_of_append (w0 w1 : World) (qn : QueueName) (L : List Job)
    (h : (w1.queue qn).jobs = (w0.queue qn).jobs ++ L) : addedJobs w0 w1 qn = L := by
  unfold addedJobs
  rw [h, List.drop_left]

/-- C7: for a request the endpoint accepts (type, title and message present) and a queue add
that succeeds: when the body carries a scheduled instant `t`, the endpoint adds exactly one job,
named `scheduled-notification`, to the scheduled queue with `delay = t - now`, adds nothing to
any other queue (the main notification queue included), and reports status `scheduled`; when
`scheduled` is absent it adds exactly one `send-notification` job, without a delay, to the main
queue, nothing to any other queue, and reports status `queued`. In both cases the reported
`jobId` is the id of the added job. -/
theorem C7_scheduled_or_queued (env : RetryEnv) (userId : String) (createdAt now : Int)
    (body : SendBody) (w : World)
    (hvalid : strTruthy body.type = true ∧ strTruthy body.title = true ∧
      strTruthy body.message = true)
    (hnf : NoFaults w) :
    (∀ t, body.scheduled = some t →
      (∃ j, addedJobs w (postNotificationsSend env userId createdAt now body w).1 .scheduled = [j] ∧
        j.name = "scheduled-notification" ∧ j.opts.delay = some (t - now) ∧
        (postNotificationsSend env userId createdAt now body w).2.jobId = some j.id) ∧
      (∀ qn, qn ≠ .scheduled →
        addedJobs w (postNotificationsSend env userId createdAt now body w).1 qn = []) ∧
      (postNotificationsSend env userId createdAt now body w).2.jobStatus = some "scheduled" ∧
      (postNotificationsSend env userId createdAt now body w).2.status = 200) ∧
    (body.scheduled = none →
      (∃ j, addedJobs w (postNotificationsSend env userId createdAt now body w).1 .notification
          = [j] ∧
        j.name = "send-notification" ∧ j.opts.delay = none ∧
        (postNotificationsSend env userId createdAt now body w).2.jobId = some j.id) ∧
      (∀ qn, qn ≠ .notification →
        addedJobs w (postNotificationsSend env userId createdAt now body w).1 qn = []) ∧
      (postNotificationsSend env userId createdAt now body w).2.jobStatus = some "queued" ∧
      (postNotificationsSend env userId createdAt now body w).2.status = 200) := by
  have hr := postNotificationsSend_ok env userId createdAt now body w hvalid hnf
  refine ⟨?_, ?_⟩
  · intro t ht
    rw [ht] at hr
    simp only at hr
    rw [hr]
    refine ⟨⟨_, addedJobs_of_append _ _ _ _ rfl, rfl, rfl, rfl⟩, ?_, rfl, rfl⟩
    intro qn hqn
    cases qn <;> first | exact absurd rfl hqn | exact addedJobs_self w _
  · intro ht
    rw [ht] at hr
    simp only at hr
    rw [hr]
    refine ⟨⟨_, addedJobs_of_append _ _ _ _ rfl, rfl, rfl, rfl⟩, ?_, rfl, rfl⟩
    intro qn hqn
    cases qn <;> first | exact absurd rfl hqn | exact addedJobs_self w _

theorem noFaults_u1World : NoFaults u1World := by
  intro qn f hf
  cases qn <;> simp [u1World, World.queue, emptyQueue] at hf

/-- C7 at a concrete request: scheduled for instant 5000, sent at instant 1000. -/
theorem C7_scheduled_or_queued_witness :
    (strTruthy (completeBody (some 5000)).type = true ∧
      strTruthy (completeBody (some 5000)).title = true ∧
      strTruthy (completeBody (some 5000)).message = true) ∧
    NoFaults u1World ∧
    (completeBody (some 5000)).scheduled = some 5000 ∧
    (postNotificationsSend defaultEnv "admin" 0 1000 (completeBody (some 5000)) u1World).2.jobStatus
      = some "scheduled" :=
  ⟨by decide, noFaults_u1World, rfl,
   ((C7_scheduled_or_queued defaultEnv "admin" 0 1000 (completeBody (some 5000)) u1World
      (by decide) noFaults_u1World).1 5000 rfl).2.2.1⟩

/-- C6 (counterexample): a body with type, title and message and an empty `channels` list, and
one with an empty `recipients` list, are both answered 200, not 400, and each puts one
`send-notification` job carrying the empty list in the main queue. -/
theorem C6_empty_lists_accepted :
    ((postNotificationsSend defaultEnv "admin" 0 0 emptyChannelsBody u1World).2.status = 200 ∧
      (addedJobs u1World
        (postNotificationsSend defaultEnv "admin" 0 0 emptyChannelsBody u1World).1
        .notification).map (fun j => (j.name, j.data.channels, j.data.recipients)) =
        [("send-notification", [], ["u1"])]) ∧
    ((postNotificationsSend defaultEnv "admin" 0 0 emptyRecipientsBody u1World).2.status = 200 ∧
      (addedJobs u1World
        (postNotificationsSend defaultEnv "admin" 0 0 emptyRecipientsBody u1World).1
        .notification).map (fun j => (j.name, j.data.channels, j.data.recipients)) =
        [("send-notification", ["push"], [])]) := by
  decide

/-- C6 (amended): the send endpoint checks only type, title and message. With these present
and `channels` absent or non-empty, a body whose `recipients` is an empty list is not answered
400; when the queue add succeeds the answer is 200 and exactly one job is enqueued, whose payload
carries the empty `recipients` list as given. -/
theorem C6_empty_recipients_not_rejected (env : RetryEnv) (userId : String)
    (createdAt now : Int) (body : SendBody) (w : World)
    (hvalid : strTruthy body.type = true ∧ strTruthy body.title = true ∧
      strTruthy body.message = true)
    (hcs : body.channels ≠ some []) (hrs : body.recipients = some []) :
    (postNotificationsSend env userId createdAt now body w).2.status ≠ 400 ∧
    (NoFaults w →
      (postNotificationsSend env userId createdAt now body w).2.status = 200 ∧
      enqueuedCount w (postNotificationsSend env userId createdAt now body w).1 = 1 ∧
      ∀ qn, ∀ j ∈ addedJobs w (postNotificationsSend env userId createdAt now body w).1 qn,
        j.data.recipients = [] ∧ j.data.channels ≠ []) := by
  have hch : body.channels.getD ["push"] ≠ [] := by
    cases hb : body.channels with
    | none => simp
    | some cs =>
      rw [hb] at hcs
      simpa using hcs
  refine ⟨?_, ?_⟩
  · obtain ⟨h1, h2, h3⟩ := hvalid
    have hc : ¬ (!strTruthy body.type || !strTruthy body.title || !strTruthy body.message)
        = true := by
      simp [h1, h2, h3]
    unfold postNotificationsSend
    rw [if_neg hc]
    simp only
    cases body.scheduled with
    | some t =>
      simp only
      split <;> simp [errorResponse]
    | none =>
      simp only
      split <;> simp [errorResponse]
  · intro hnf
    have hr := postNotificationsSend_ok env userId createdAt now body w hvalid hnf
    cases hs : body.scheduled with
    | some t =>
      rw [hs] at hr
      simp only at hr
      rw [hr]
      refine ⟨rfl, ?_, ?_⟩
      · simp [enqueuedCount, addedJobs, World.queue]
      · intro qn j hj
        cases qn <;> simp [addedJobs, World.queue] at hj
        subst hj
        exact ⟨by simp [requestData, hrs], hch⟩
    | none =>
      rw [hs] at hr
      simp only at hr
      rw [hr]
      refine ⟨rfl, ?_, ?_⟩
      · simp [enqueuedCount, addedJobs, World.queue]
      · intro qn j hj
        cases qn <;> simp [addedJobs, World.queue] at hj
        subst hj
        exact ⟨by simp [requestData, hrs], hch⟩

/-- C6 (amended) at a concrete request: a body with an empty `recipients` list. -/
theorem C6_empty_recipients_not_rejected_witness :
    (strTruthy emptyRecipientsBody.type = true ∧ strTruthy emptyRecipientsBody.title = true ∧
      strTruthy emptyRecipientsBody.message = true) ∧
    emptyRecipientsBody.channels ≠ some [] ∧ emptyRecipientsBody.recipients = some [] ∧
    (postNotificationsSend defaultEnv "admin" 0 0 emptyRecipientsBody u1World).2.status ≠ 400 :=
  ⟨by decide, by decide, rfl,
   (C6_empty_recipients_not_rejected defaultEnv "admin" 0 0 emptyRecipientsBody u1World
      (by decide) (by decide) rfl).1⟩

/-- C8: when the add to the main queue succeeds, the scheduled-notification handler adds exactly
one job to the main notification queue, named `send-notification`, whose payload is the payload
of the scheduled job and whose options carry no delay; it adds nothing to any other queue, and it
returns the id of the new job as `newJobId` together with the id of the scheduled job as
`originalScheduledJob`. -/
theorem C8_scheduled_requeues (w : World) (job : Job) (now : Int)
    (hok : ∀ f ∈ w.notificationQueue.faults, f = none) :
    ∃ j r, (scheduledNotificationHandler w job now).2 = .ok r ∧
      addedJobs w (scheduledNotificationHandler w job now).1 .notification = [j] ∧
      j.name = "send-notification" ∧ j.data = job.data ∧ j.opts.delay = none ∧
      r.success = true ∧ r.newJobId = j.id ∧ r.originalScheduledJob = job.id ∧
      ∀ qn, qn ≠ .notification →
        addedJobs w (scheduledNotificationHandler w job now).1 qn = [] := by
  unfold scheduledNotificationHandler
  simp only
  rw [add_of_noFaults _ _ _ _ hok]
  refine ⟨_, _, rfl, addedJobs_of_append _ _ _ _ rfl, rfl, rfl, rfl, rfl, rfl, rfl, ?_⟩
  intro qn hqn
  cases qn <;> first | exact absurd rfl hqn | exact addedJobs_self w _

/-- C8 at a concrete run: scheduled job 7 in a world with empty queues. -/
theorem C8_scheduled_requeues_witness :
    (∀ f ∈ u1World.notificationQueue.faults, f = none) ∧
    ∃ j r, (scheduledNotificationHandler u1World scheduledJob 0).2 = .ok r ∧
      addedJobs u1World (scheduledNotificationHandler u1World scheduledJob 0).1 .notification
        = [j] ∧
      j.name = "send-notification" ∧ j.data = scheduledJob.data ∧ j.opts.delay = none ∧
      r.success = true ∧ r.newJobId = j.id ∧ r.originalScheduledJob = scheduledJob.id ∧
      ∀ qn, qn ≠ .notification →
        addedJobs u1World (scheduledNotificationHandler u1World scheduledJob 0).1 qn = [] :=
  ⟨by decide, C8_scheduled_requeues u1World scheduledJob 0 (by decide)⟩

/-- C10: when no SMS provider is configured (no Twilio client, or `TWILIO_PHONE_NUMBER` unset or
empty), the send-sms handler returns, for every job, a result with `success = true` and
`simulation = true`; it does not throw. -/
theorem C10_sms_unconfigured_simulated (cfg : SmsConfig) (job : Job) (now : Int)
    (h : cfg.smsClient.isNone = true ∨ cfg.TWILIO_PHONE_NUMBER = none ∨
      cfg.TWILIO_PHONE_NUMBER = some "") :
    ∃ r, sendSmsHandler cfg job now = .ok r ∧ r.success = true ∧ r.simulation = some true := by
  unfold sendSmsHandler
  simp only
  rcases h with h | h | h
  · cases hc : cfg.smsClient with
    | none => exact ⟨_, rfl, rfl, rfl⟩
    | some c => rw [hc] at h; simp at h
  · rw [h]
    cases cfg.smsClient <;> exact ⟨_, rfl, rfl, rfl⟩
  · rw [h]
    cases cfg.smsClient <;> exact ⟨_, rfl, rfl, rfl⟩

/-- C10 at a concrete run: no Twilio client, job for `u1`. -/
theorem C10_sms_unconfigured_simulated_witness :
    (unconfiguredSms.smsClient.isNone = true ∨ unconfiguredSms.TWILIO_PHONE_NUMBER = none ∨
      unconfiguredSms.TWILIO_PHONE_NUMBER = some "") ∧
    ∃ r, sendSmsHandler unconfiguredSms smsJob 0 = .ok r ∧ r.success = true ∧
      r.simulation = some true :=
  ⟨Or.inl rfl, C10_sms_unconfigured_simulated unconfiguredSms smsJob 0 (Or.inl rfl)⟩

/-- C9 at a concrete run: the pair (`u1`, push) of a request of type `budgetAlerts`. -/
theorem C9_subjob_for_enabled_pair_witness :
    NoFaults u1World ∧ (u1Job "budgetAlerts").data.recipients.Nodup ∧
    (u1Job "budgetAlerts").data.channels.Nodup ∧
    "u1" ∈ (u1Job "budgetAlerts").data.recipients ∧
    "push" ∈ (u1Job "budgetAlerts").data.channels ∧
    channelDisabled (getUserPreferences u1World.preferenceStore "u1")
      (u1Job "budgetAlerts").data.type "push" = false ∧
    ∃ j, (addedJobs u1World (sendNotificationHandler u1World (u1Job "budgetAlerts") 0).1
            .push).filter (fun j => j.data.userId = some "u1") = [j] ∧
      j.data.userId = some "u1" ∧ j.data.channel = some "push" ∧
      j.data.type = (u1Job "budgetAlerts").data.type ∧
      j.data.title = (u1Job "budgetAlerts").data.title ∧
      j.data.message = (u1Job "budgetAlerts").data.message ∧
      j.data.data = (u1Job "budgetAlerts").data.data :=
  ⟨noFaults_u1World, by decide, by decide, by decide, by decide, by decide,
   (C9_subjob_for_enabled_pair u1World (u1Job "budgetAlerts") 0 "u1" "push" noFaults_u1World
      (by decide) (by decide) (by decide) (by decide) (by decide)).1 .push rfl⟩

/-! ## Provider errors in the email and SMS processors -/

/-- C11: in the send-email and the send-sms handler, when the provider is configured and the
provider call throws an error `e` (a transport-level error included), the handler does not fail:
it returns a result with `success = true`, `simulation = true` and `error` equal to the message
of `e`. -/
theorem C11_provider_error_falls_back (lib : JsLib) (job : Job) (now : Int) (e : JsError)
    (sendMail : EmailData → Except JsError String) (create : SmsMessage → Except JsError String)
    (phone : String)
    (hmail : sendMail (emailData lib job.data now) = .error e)
    (hphone : phone ≠ "")
    (hsms : ∀ m, create m = .error e) :
    (∃ r, sendEmailHandler { emailTransporter := some sendMail } lib job now = .ok r ∧
      r.success = true ∧ r.simulation = some true ∧ r.error = some e.message) ∧
    (∃ r, sendSmsHandler { smsClient := some create, TWILIO_PHONE_NUMBER := some phone } job now
        = .ok r ∧
      r.success = true ∧ r.simulation = some true ∧ r.error = some e.message) := by
  refine ⟨?_, ?_⟩
  · unfold sendEmailHandler
    simp only [hmail]
    exact ⟨_, rfl, rfl, rfl, rfl⟩
  · have hp : strTruthy (some phone) = true := by simp [strTruthy, hphone]
    unfold sendSmsHandler
    simp only [hp, hsms]
    exact ⟨_, rfl, rfl, rfl, rfl⟩

/-- A transport error of a provider call. -/
theorem C11_provider_error_falls_back_witness :
    (fun _ => Except.error (JsError.mk "connect ETIMEDOUT" (some "ETIMEDOUT")) :
        EmailData → Except JsError String) (emailData sampleLib emailJob.data 0) =
      .error (JsError.mk "connect ETIMEDOUT" (some "ETIMEDOUT")) ∧
    "+15550000" ≠ "" ∧
    ((∃ r, sendEmailHandler
        { emailTransporter := some (fun _ => .error (JsError.mk "connect ETIMEDOUT"
            (some "ETIMEDOUT"))) } sampleLib emailJob 0 = .ok r ∧
      r.success = true ∧ r.simulation = some true ∧
      r.error = some (JsError.mk "connect ETIMEDOUT" (some "ETIMEDOUT")).message) ∧
    (∃ r, sendSmsHandler
        { smsClient := some (fun _ => .error (JsError.mk "connect ETIMEDOUT"
            (some "ETIMEDOUT"))), TWILIO_PHONE_NUMBER := some "+15550000" } emailJob 0 = .ok r ∧
      r.success = true ∧ r.simulation = some true ∧
      r.error = some (JsError.mk "connect ETIMEDOUT" (some "ETIMEDOUT")).message)) :=
  ⟨rfl, by decide,
   C11_provider_error_falls_back sampleLib emailJob 0
     (JsError.mk "connect ETIMEDOUT" (some "ETIMEDOUT"))
     (fun _ => .error (JsError.mk "connect ETIMEDOUT" (some "ETIMEDOUT")))
     (fun _ => .error (JsError.mk "connect ETIMEDOUT" (some "ETIMEDOUT")))
     "+15550000" rfl (by decide) (fun _ => rfl)⟩

/-- C12 (counterexample): with a configured SMS provider that reports the destination number
invalid, and a configured email provider that rejects the recipient address, both handlers return
a simulated success (`success = true`, `simulation = true`) carrying the provider's message; the
outcome is not a failure. -/
theorem C12_permanent_error_simulated :
    sendSmsHandler rejectingSms smsJob 0 =
      .ok { success := true, simulation := some true, messageSid := none,
            error := some invalidNumberError.message, recipient := "+1234567890",
            processedAt := none } ∧
    sendEmailHandler rejectingEmail sampleLib emailJob 0 =
      .ok { success := true, simulation := some true, messageId := none,
            error := some rejectedRecipientError.message, recipient := "u1@finance-app.com",
            processedAt := none } := by
  constructor <;> rfl

/-- C12 (amended): the send-email and send-sms handlers never report a failure on a provider
error. For every configuration, provider behaviour and job both handlers return (they do not
throw) a result with `success = true`; whenever the provider call (`sendMail` on the email built,
`messages.create` on the message built) throws, whatever the error, the result is the simulation
fallback with `simulation = true` and the provider's message as `error`. -/
theorem C12_provider_error_never_fails (mail : EmailConfig) (sms : SmsConfig) (lib : JsLib)
    (job : Job) (now : Int) :
    (∃ r, sendEmailHandler mail lib job now = .ok r ∧ r.success = true ∧
      (∀ sendMail e, mail.emailTransporter = some sendMail →
        sendMail (emailData lib job.data now) = .error e →
        r.simulation = some true ∧ r.error = some e.message)) ∧
    (∃ r, sendSmsHandler sms job now = .ok r ∧ r.success = true ∧
      (r.messageSid = none → r.simulation = some true) ∧
      (∀ create e, sms.smsClient = some create →
        strTruthy sms.TWILIO_PHONE_NUMBER = true →
        create (smsMessage sms job.data) = .error e →
        r.simulation = some true ∧ r.error = some e.message)) := by
  refine ⟨?_, ?_⟩
  · unfold sendEmailHandler
    cases hm : mail.emailTransporter with
    | none =>
      refine ⟨_, rfl, rfl, ?_⟩
      intro sendMail e h
      cases h
    | some f =>
      simp only
      cases hs : f (emailData lib job.data now) with
      | ok messageId =>
        refine ⟨_, rfl, rfl, ?_⟩
        intro sendMail e h he
        cases h
        rw [hs] at he
        cases he
      | error smtpError =>
        refine ⟨_, rfl, rfl, ?_⟩
        intro sendMail e h he
        cases h
        rw [hs] at he
        cases he
        exact ⟨rfl, rfl⟩
  · unfold sendSmsHandler
    simp only
    cases hc : sms.smsClient with
    | none =>
      refine ⟨_, rfl, rfl, fun _ => rfl, ?_⟩
      intro create e h
      cases h
    | some f =>
      cases ht : strTruthy sms.TWILIO_PHONE_NUMBER with
      | false =>
        refine ⟨_, rfl, rfl, fun _ => rfl, ?_⟩
        intro create e _ h
        cases h
      | true =>
        simp only
        cases hs : f (smsMessage sms job.data) with
        | ok sid =>
          have hs2 := hs
          unfold smsMessage at hs2
          rw [hs2]
          refine ⟨_, rfl, rfl, ?_, ?_⟩
          · intro h
            cases h
          · intro create e h _ he
            cases h
            rw [hs] at he
            cases he
        | error twilioError =>
          have hs2 := hs
          unfold smsMessage at hs2
          rw [hs2]
          refine ⟨_, rfl, rfl, fun _ => rfl, ?_⟩
          intro create e h _ he
          cases h
          rw [hs] at he
          cases he
          exact ⟨rfl, rfl⟩

/-! ## The push processor -/

theorem save_of_noFaults (s : DeviceStore) (device : DeviceToken)
    (h : ∀ f ∈ s.saveFaults, f = none) :
    s.save device =
      (.ok (), { docs := applyUpdate s.docs (some device), findFailing := s.findFailing,
                 saveFaults := s.saveFaults.tail }) := by
  unfold DeviceStore.save applyUpdate
  rcases hq : s.saveFaults with _ | ⟨f, rest⟩
  · simp
  · have hf : f = none := h f (by rw [hq]; exact List.mem_cons_self _ _)
    subst hf
    simp

theorem processDevice_of_noFaults (cfg : PushConfig) (nd : NotificationData) (now : Int)
    (s : DeviceStore) (results : List DeviceResult) (d : DeviceToken)
    (h : ∀ f ∈ s.saveFaults, f = none) :
    ∃ s1, processDevice cfg nd now s results d =
        .ok (s1, results ++ [(deviceOutcome cfg nd now d).2]) ∧
      s1.docs = applyUpdate s.docs (deviceOutcome cfg nd now d).1 ∧
      (∀ f ∈ s1.saveFaults, f = none) := by
  have htail : ∀ f ∈ s.saveFaults.tail, f = none :=
    fun f hf => h f (List.mem_of_mem_tail hf)
  unfold processDevice deviceOutcome
  cases cfg.fcm with
  | none =>
    simp only [save_of_noFaults s _ h]
    exact ⟨_, rfl, rfl, htail⟩
  | some send =>
    simp only
    cases send (pushMessage nd d) with
    | ok response =>
      simp only [save_of_noFaults s _ h]
      exact ⟨_, rfl, rfl, htail⟩
    | error e =>
      simp only [onDeviceError]
      by_cases hc : e.code = some tokenNotRegistered
      · simp only [hc, if_true, save_of_noFaults s _ h]
        exact ⟨_, rfl, rfl, htail⟩
      · simp only [hc, if_false]
        exact ⟨_, rfl, rfl, h⟩

theorem processDevices_of_noFaults (cfg : PushConfig) (nd : NotificationData) (now : Int)
    (devices : List DeviceToken) (s : DeviceStore) (results : List DeviceResult)
    (h : ∀ f ∈ s.saveFaults, f = none) :
    ∃ s1, processDevices cfg nd now s results devices =
        .ok (s1, results ++ devices.map (fun d => (deviceOutcome cfg nd now d).2)) ∧
      s1.docs = devices.foldl (fun docs d => applyUpdate docs (deviceOutcome cfg nd now d).1)
        s.docs := by
  induction devices generalizing s results with
  | nil => exact ⟨s, by simp [processDevices], rfl⟩
  | cons d rest ih =>
    obtain ⟨s1, h1, h2, h3⟩ := processDevice_of_noFaults cfg nd now s results d h
    obtain ⟨s2, h4, h5⟩ := ih s1 (results ++ [(deviceOutcome cfg nd now d).2]) h3
    refine ⟨s2, ?_, ?_⟩
    · simp only [processDevices, h1, h4, List.map_cons, List.append_assoc, List.singleton_append]
    · rw [h5, h2, List.foldl_cons]

theorem deviceOutcome_id (cfg : PushConfig) (nd : NotificationData) (now : Int)
    (d d1 : DeviceToken) (h : (deviceOutcome cfg nd now d).1 = some d1) : d1.id = d.id := by
  unfold deviceOutcome at h
  split at h
  · split at h
    · simp only [Option.some.injEq] at h
      rw [← h]
    · split at h
      · simp only [Option.some.injEq] at h
        rw [← h]
      · cases h
  · simp only [Option.some.injEq] at h
    rw [← h]

theorem map_replace_of_absent (docs : List DeviceToken) (device : DeviceToken)
    (h : ∀ x ∈ docs, x.id ≠ device.id) :
    docs.map (fun d => if d.id = device.id then device else d) = docs := by
  have : ∀ x ∈ docs, (fun d : DeviceToken => if d.id = device.id then device else d) x = id x := by
    intro x hx
    simp [h x hx]
  rw [List.map_congr_left this, List.map_id]

theorem foldl_applyUpdate (upd : DeviceToken → Option DeviceToken) (p : DeviceToken → Bool)
    (hupd : ∀ d d1, upd d = some d1 → d1.id = d.id)
    (post pre : List DeviceToken)
    (hdis : ∀ x ∈ pre, ∀ y ∈ post, x.id ≠ y.id)
    (hnd : (post.map (fun d => d.id)).Nodup) :
    (post.filter p).foldl (fun docs d => applyUpdate docs (upd d)) (pre ++ post) =
      pre ++ post.map (fun d => if p d then (upd d).getD d else d) := by
  induction post generalizing pre with
  | nil => simp
  | cons x xs ih =>
    rw [List.map_cons, List.nodup_cons] at hnd
    have hxs : ∀ y ∈ xs, y.id ≠ x.id := by
      intro y hy e
      exact hnd.1 (List.mem_map.mpr ⟨y, hy, e⟩)
    have hpre : ∀ z ∈ pre, z.id ≠ x.id := fun z hz => hdis z hz x (List.mem_cons_self _ _)
    have hstep : ∀ fx : DeviceToken, fx.id = x.id →
        (xs.filter p).foldl (fun docs d => applyUpdate docs (upd d)) (pre ++ fx :: xs) =
          pre ++ fx :: xs.map (fun d => if p d then (upd d).getD d else d) := by
      intro fx hfx
      have := ih (pre ++ [fx]) (by
        intro z hz y hy
        rcases List.mem_append.mp hz with hz | hz
        · exact hdis z hz y (List.mem_cons_of_mem _ hy)
        · simp only [List.mem_singleton] at hz
          subst hz
          rw [hfx]
          exact fun e => hxs y hy e.symm) hnd.2
      simpa [List.append_assoc] using this
    by_cases hp : p x = true
    · rw [List.filter_cons_of_pos hp, List.foldl_cons, List.map_cons, if_pos hp]
      cases hu : upd x with
      | none =>
        simp only [applyUpdate, Option.getD_none]
        exact hstep x rfl
      | some x1 =>
        have hid := hupd x x1 hu
        have hrep : applyUpdate (pre ++ x :: xs) (some x1) = pre ++ x1 :: xs := by
          have e1 := map_replace_of_absent pre x1 (by rw [hid]; exact hpre)
          have e2 := map_replace_of_absent xs x1 (by rw [hid]; exact hxs)
          rw [hid] at e1 e2
          simp only [applyUpdate, List.map_append, List.map_cons, hid, if_true, e1, e2]
        rw [hrep, Option.getD_some]
        exact hstep x1 hid
    · rw [List.filter_cons_of_neg hp, List.map_cons, if_neg hp]
      exact hstep x rfl

theorem sendPushHandler_of_noFaults (cfg : PushConfig) (s : DeviceStore) (job : Job) (now : Int)
    (hfind : s.findFailing = false) (hsave : ∀ f ∈ s.saveFaults, f = none)
    (hid : (s.docs.map (fun d => d.id)).Nodup) :
    ∃ r, (sendPushHandler cfg s job now).2 = .ok r ∧
      r.results = (getUserDevices s job.data.userId).map
        (fun d => (deviceOutcome cfg job.data now d).2) ∧
      (sendPushHandler cfg s job now).1.docs = s.docs.map (fun d =>
        if (some d.userId = job.data.userId && d.isActive) = true then
          ((deviceOutcome cfg job.data now d).1).getD d
        else d) := by
  have hmap := foldl_applyUpdate (fun d => (deviceOutcome cfg job.data now d).1)
    (fun d => some d.userId = job.data.userId && d.isActive)
    (fun d d1 h => deviceOutcome_id cfg job.data now d d1 h) s.docs [] (by simp) hid
  simp only [List.nil_append] at hmap
  have hdev : getUserDevices s job.data.userId =
      s.docs.filter (fun d => some d.userId = job.data.userId && d.isActive) := by
    simp [getUserDevices, hfind]
  unfold sendPushHandler
  simp only
  by_cases hlen : (getUserDevices s job.data.userId).length = 0
  · rw [if_pos hlen]
    have hnil : getUserDevices s job.data.userId = [] := List.length_eq_zero.mp hlen
    refine ⟨_, rfl, by simp [hnil], ?_⟩
    rw [← hmap, ← hdev, hnil]
    rfl
  · rw [if_neg hlen]
    obtain ⟨s1, h1, h2⟩ := processDevices_of_noFaults cfg job.data now
      (getUserDevices s job.data.userId) s [] hsave
    simp only [h1]
    refine ⟨_, rfl, by simp, ?_⟩
    rw [h2, hdev, hmap]

theorem deviceOutcome_spec (cfg : PushConfig) (nd : NotificationData) (now : Int)
    (d : DeviceToken) (hact : d.isActive = true) :
    (((deviceOutcome cfg nd now d).1).getD d).id = d.id ∧
    (((deviceOutcome cfg nd now d).1).getD d).token = d.token ∧
    ((((deviceOutcome cfg nd now d).1).getD d).isActive = false ↔
      failsNotRegistered cfg nd d) ∧
    (failsNotRegistered cfg nd d → (deviceOutcome cfg nd now d).2.status = "failed") ∧
    (deviceOutcome cfg nd now d).2.deviceId = d.deviceId := by
  unfold deviceOutcome failsNotRegistered
  cases hc : cfg.fcm with
  | none => simp [hact]
  | some send =>
    simp only
    cases hs : send (pushMessage nd d) with
    | ok response =>
      refine ⟨rfl, rfl, ?_, ?_, rfl⟩
      · simp only [Option.getD_some, hact, Bool.true_eq_false, false_iff]
        rintro ⟨send1, e, h1, h2, -⟩
        cases h1
        rw [hs] at h2
        cases h2
      · rintro ⟨send1, e, h1, h2, -⟩
        cases h1
        rw [hs] at h2
        cases h2
    | error e =>
      by_cases hcode : e.code = some tokenNotRegistered
      · dsimp only
        rw [if_pos hcode]
        exact ⟨rfl, rfl, ⟨fun _ => ⟨send, e, rfl, hs, hcode⟩, fun _ => rfl⟩, fun _ => rfl, rfl⟩
      · dsimp only
        rw [if_neg hcode]
        refine ⟨rfl, rfl, ?_, fun _ => rfl, rfl⟩
        simp only [Option.getD_none, hact, Bool.true_eq_false, false_iff]
        rintro ⟨send1, e1, h1, h2, h3⟩
        cases h1
        rw [hs] at h2
        cases h2
        exact hcode h3

/-- C13: in the send-push handler, when the device lookup and the device saves succeed (and
stored documents have distinct `_id`s), every active device `d` of the user is attempted once,
in order; the stored document of `d` ends with `isActive = false` if and only if the provider
send for `d` failed with code `messaging/registration-token-not-registered`, and then the result
of `d` has status `failed`; the other fetched devices keep `isActive = true`, and every document
the handler did not fetch is left as it was. -/
theorem C13_push_deactivation (cfg : PushConfig) (s : DeviceStore) (job : Job) (now : Int)
    (hfind : s.findFailing = false) (hsave : ∀ f ∈ s.saveFaults, f = none)
    (hid : (s.docs.map (fun d => d.id)).Nodup) :
    ∃ r, (sendPushHandler cfg s job now).2 = .ok r ∧
      r.results.map (fun x => x.deviceId) =
        (getUserDevices s job.data.userId).map (fun d => d.deviceId) ∧
      (∀ d ∈ getUserDevices s job.data.userId,
        ∃ d1 ∈ (sendPushHandler cfg s job now).1.docs, d1.id = d.id ∧ d1.token = d.token ∧
          (d1.isActive = false ↔ failsNotRegistered cfg job.data d) ∧
          (failsNotRegistered cfg job.data d →
            ∃ x ∈ r.results, x.deviceId = d.deviceId ∧ x.status = "failed")) ∧
      (∀ d ∈ s.docs, d ∉ getUserDevices s job.data.userId →
        d ∈ (sendPushHandler cfg s job now).1.docs) := by
  obtain ⟨r, h1, h2, h3⟩ := sendPushHandler_of_noFaults cfg s job now hfind hsave hid
  have hdev : getUserDevices s job.data.userId =
      s.docs.filter (fun d => some d.userId = job.data.userId && d.isActive) := by
    simp [getUserDevices, hfind]
  refine ⟨r, h1, ?_, ?_, ?_⟩
  · rw [h2, List.map_map]
    apply List.map_congr_left
    intro d hd
    have hact : d.isActive = true := by
      rw [hdev, List.mem_filter] at hd
      have h := hd.2
      simp only [Bool.and_eq_true] at h
      exact h.2
    exact (deviceOutcome_spec cfg job.data now d hact).2.2.2.2
  · intro d hd
    have hd2 := hd
    rw [hdev, List.mem_filter] at hd2
    have hact : d.isActive = true := by
      have h := hd2.2
      simp only [Bool.and_eq_true] at h
      exact h.2
    obtain ⟨s1, s2, s3, s4, s5⟩ := deviceOutcome_spec cfg job.data now d hact
    refine ⟨((deviceOutcome cfg job.data now d).1).getD d, ?_, s1, s2, s3, ?_⟩
    · rw [h3]
      exact List.mem_map.mpr ⟨d, hd2.1, by rw [if_pos hd2.2]⟩
    · intro hf
      refine ⟨(deviceOutcome cfg job.data now d).2, ?_, s5, s4 hf⟩
      rw [h2]
      exact List.mem_map.mpr ⟨d, hd, rfl⟩
  · intro d hd hnot
    rw [h3]
    refine List.mem_map.mpr ⟨d, hd, ?_⟩
    have : ¬ (some d.userId = job.data.userId && d.isActive) = true := by
      intro hp
      exact hnot (by rw [hdev, List.mem_filter]; exact ⟨hd, hp⟩)
    rw [if_neg this]

/-- C13 at a concrete run: `u1` has a device with a stale token and one with a fresh token. -/
theorem C13_push_deactivation_witness :
    u1Devices.findFailing = false ∧ (∀ f ∈ u1Devices.saveFaults, f = none) ∧
    (u1Devices.docs.map (fun d => d.id)).Nodup ∧
    ∃ r, (sendPushHandler staleTokenFcm u1Devices pushJob 5).2 = .ok r ∧
      r.results.map (fun x => x.deviceId) =
        (getUserDevices u1Devices pushJob.data.userId).map (fun d => d.deviceId) ∧
      (∀ d ∈ getUserDevices u1Devices pushJob.data.userId,
        ∃ d1 ∈ (sendPushHandler staleTokenFcm u1Devices pushJob 5).1.docs,
          d1.id = d.id ∧ d1.token = d.token ∧
          (d1.isActive = false ↔ failsNotRegistered staleTokenFcm pushJob.data d) ∧
          (failsNotRegistered staleTokenFcm pushJob.data d →
            ∃ x ∈ r.results, x.deviceId = d.deviceId ∧ x.status = "failed")) ∧
      (∀ d ∈ u1Devices.docs, d ∉ getUserDevices u1Devices pushJob.data.userId →
        d ∈ (sendPushHandler staleTokenFcm u1Devices pushJob 5).1.docs) :=
  ⟨rfl, by decide, by decide,
   C13_push_deactivation staleTokenFcm u1Devices pushJob 5 rfl (by decide) (by decide)⟩

/-! ## The device routes -/

theorem replace_filter (docs : List DeviceToken) (found upd : DeviceToken) (q : DeviceToken → Bool)
    (hid : (docs.map (fun d => d.id)).Nodup) (hmem : found ∈ docs)
    (hq : q upd = q found) :
    (docs.map (fun d => if d.id = found.id then upd else d)).filter q =
      (docs.filter q).map (fun d => if d.id = found.id then upd else d) := by
  rw [List.filter_map]
  congr 1
  apply List.filter_congr
  intro x hx
  simp only [Function.comp]
  by_cases hxi : x.id = found.id
  · have : x = found := List.inj_on_of_nodup_map hid hx hmem hxi
    subst this
    simp [hq]
  · simp [hxi]

theorem replace_filter_other (docs : List DeviceToken) (found upd : DeviceToken)
    (userId deviceId : String)
    (hid : (docs.map (fun d => d.id)).Nodup) (hmem : found ∈ docs)
    (hfound : hasKey userId deviceId found = true) (hupd : hasKey userId deviceId upd = true) :
    (docs.map (fun d => if d.id = found.id then upd else d)).filter
        (fun d => !hasKey userId deviceId d) =
      docs.filter (fun d => !hasKey userId deviceId d) := by
  rw [replace_filter docs found upd _ hid hmem (by simp [hfound, hupd])]
  have : ∀ x ∈ docs.filter (fun d => !hasKey userId deviceId d),
      (fun d : DeviceToken => if d.id = found.id then upd else d) x = id x := by
    intro x hx
    rw [List.mem_filter] at hx
    have hne : x.id ≠ found.id := by
      intro e
      have : x = found := List.inj_on_of_nodup_map hid hx.1 hmem e
      subst this
      simp [hfound] at hx
    simp [hne]
  rw [List.map_congr_left this, List.map_id]

theorem replace_filter_key (docs : List DeviceToken) (found upd r : DeviceToken)
    (userId deviceId : String)
    (hid : (docs.map (fun d => d.id)).Nodup) (hmem : found ∈ docs)
    (hfound : hasKey userId deviceId found = true) (hupd : hasKey userId deviceId upd = true)
    (hone : docs.filter (hasKey userId deviceId) = [r]) :
    found = r ∧
    (docs.map (fun d => if d.id = found.id then upd else d)).filter (hasKey userId deviceId) =
      [upd] := by
  have hfr : found = r := by
    have : found ∈ docs.filter (hasKey userId deviceId) := List.mem_filter.mpr ⟨hmem, hfound⟩
    rw [hone] at this
    simpa using this
  refine ⟨hfr, ?_⟩
  rw [replace_filter docs found upd _ hid hmem (by rw [hfound, hupd]), hone, hfr]
  simp

/-- C14: on a store whose documents have distinct `_id`s and in which the key
`(userId, deviceId)` has its one record `r`: a registration with token and platform present whose
token no other record holds leaves exactly one record under the key, the record `r` (same `_id`)
with the new token and platform and `isActive = true`; it creates no second record for the key
and leaves the records with other keys as they were. Unregistering leaves exactly one record
under the key, `r` with `isActive = false`; it removes no record (same `_id`s in the same order)
and leaves the records with other keys as they were. A registration that is refused (400 or
500) changes nothing. -/
theorem C14_register_unregister_frame (userId : String) (body : RegisterBody) (now : Int)
    (docs : List DeviceToken) (r : DeviceToken)
    (hid : (docs.map (fun d => d.id)).Nodup)
    (hone : docs.filter (hasKey userId body.deviceId) = [r]) :
    ((postDevicesRegister userId body now docs).1.filter
        (fun d => !hasKey userId body.deviceId d) =
      docs.filter (fun d => !hasKey userId body.deviceId d) ∧
     ((postDevicesRegister userId body now docs).1.filter (hasKey userId body.deviceId)).length
        = 1 ∧
     (∀ t p, body.token = some t → body.platform = some p → t ≠ "" → p ≠ "" →
        (∀ d ∈ docs, d.id ≠ r.id → d.token ≠ t) →
        (postDevicesRegister userId body now docs).2.status = 200 ∧
        ∃ r1, (postDevicesRegister userId body now docs).1.filter (hasKey userId body.deviceId)
            = [r1] ∧
          r1.id = r.id ∧ r1.token = t ∧ r1.platform = p ∧ r1.isActive = true) ∧
     ((postDevicesRegister userId body now docs).2.status ≠ 200 →
        (postDevicesRegister userId body now docs).1 = docs)) ∧
    ((deleteDevice userId body.deviceId docs).1.filter
        (fun d => !hasKey userId body.deviceId d) =
      docs.filter (fun d => !hasKey userId body.deviceId d) ∧
     (deleteDevice userId body.deviceId docs).1.filter (hasKey userId body.deviceId) =
        [{ r with isActive := false }] ∧
     (deleteDevice userId body.deviceId docs).1.map (fun d => d.id) =
        docs.map (fun d => d.id)) := by
  have hrmem : r ∈ docs.filter (hasKey userId body.deviceId) := by rw [hone]; simp
  rw [List.mem_filter] at hrmem
  obtain ⟨found, hfind⟩ : ∃ found, docs.find? (hasKey userId body.deviceId) = some found := by
    cases h : docs.find? (hasKey userId body.deviceId) with
    | some f => exact ⟨f, rfl⟩
    | none =>
      rw [List.find?_eq_none] at h
      exact absurd hrmem.2 (h r hrmem.1)
  have hmem := List.mem_of_find?_eq_some hfind
  have hkey := List.find?_some hfind
  have hkey2 : found.userId = userId ∧ found.deviceId = body.deviceId := by
    simpa [hasKey] using hkey
  have hfr : found = r := by
    have : found ∈ docs.filter (hasKey userId body.deviceId) := List.mem_filter.mpr ⟨hmem, hkey⟩
    rw [hone] at this
    simpa using this
  refine ⟨?_, ?_⟩
  · unfold postDevicesRegister
    by_cases hv : (!strTruthy body.token || !strTruthy body.platform) = true
    · rw [if_pos hv]
      refine ⟨rfl, by rw [hone]; rfl, ?_, fun _ => rfl⟩
      intro t p ht hp ht0 hp0 _
      simp [ht, hp, strTruthy, ht0, hp0] at hv
    · rw [if_neg hv]
      simp only [hfind]
      by_cases hconf : (docs.any (fun d => d.id != found.id && d.token = body.token.getD ""))
          = true
      · rw [if_pos hconf]
        refine ⟨rfl, by rw [hone]; rfl, ?_, fun _ => rfl⟩
        intro t p ht hp _ _ hno
        rw [List.any_eq_true] at hconf
        obtain ⟨d, hd, hd2⟩ := hconf
        simp only [ht, Option.getD_some, Bool.and_eq_true, bne_iff_ne, ne_eq,
          decide_eq_true_eq] at hd2
        exact absurd hd2.2 (hno d hd (by rw [← hfr]; exact hd2.1))
      · rw [if_neg hconf]
        have hupd : hasKey userId body.deviceId
            { found with userId := userId, token := body.token.getD "",
                         platform := body.platform.getD "", deviceId := body.deviceId,
                         appVersion := body.appVersion, isActive := true, lastUsed := now }
            = true := by
          simp [hasKey]
        obtain ⟨-, hk⟩ := replace_filter_key docs found _ r userId body.deviceId hid hmem hkey
          hupd hone
        refine ⟨replace_filter_other docs found _ userId body.deviceId hid hmem hkey hupd,
          by rw [hk]; rfl, ?_, fun h => absurd rfl h⟩
        intro t p ht hp _ _ _
        refine ⟨rfl, _, hk, by rw [hfr], by simp [ht], by simp [hp], rfl⟩
  · unfold deleteDevice
    simp only [hfind]
    have hupd : hasKey userId body.deviceId { found with isActive := false } = true := by
      simpa [hasKey] using hkey2
    obtain ⟨-, hk⟩ := replace_filter_key docs found _ r userId body.deviceId hid hmem hkey
      hupd hone
    refine ⟨replace_filter_other docs found _ userId body.deviceId hid hmem hkey hupd,
      by rw [hk, hfr], ?_⟩
    rw [List.map_map]
    apply List.map_congr_left
    intro x _
    by_cases hx : x.id = found.id <;> simp [hx]

/-- C14 at a concrete store: `u1` registers its device `phone` again with a new token. -/
theorem C14_register_unregister_frame_witness :
    (u1Devices.docs.map (fun d => d.id)).Nodup ∧
    u1Devices.docs.filter (hasKey "u1" renewBody.deviceId) =
      [DeviceToken.mk 1 "u1" "stale" "ios" "phone" none true 0] ∧
    ((postDevicesRegister "u1" renewBody 9 u1Devices.docs).1.filter
      (hasKey "u1" renewBody.deviceId)).length = 1 :=
  ⟨by decide, by decide,
   (C14_register_unregister_frame "u1" renewBody 9 u1Devices.docs
      (DeviceToken.mk 1 "u1" "stale" "ios" "phone" none true 0) (by decide)
      (by decide)).1.2.1⟩

/-! ## Preferences of a recipient without a stored document -/

theorem preferenceStore_logNotification (w : World) (nd : NotificationData) (status : String)
    (error : Option String) :
    (logNotification w nd status error).preferenceStore = w.preferenceStore := by
  unfold logNotification
  simp only []
  split <;> rfl

theorem preferenceStore_sendNotificationHandler (w : World) (job : Job) (now : Int) :
    (sendNotificationHandler w job now).1.preferenceStore = w.preferenceStore := by
  unfold sendNotificationHandler
  simp only [preferenceStore_logNotification]
  exact (fanOut_sound w job.data).1.1

/-- C15 (counterexample): `u2` has no stored preferences and the documented defaults switch
`transactionAlerts.sms` off; the handler, run on a `transactionAlerts` request to `u2` on sms,
creates no preference document (the store still holds only the document of `u1`) and enqueues
the sms sub-job all the same. -/
theorem C15_no_defaults_created :
    u1World.preferenceStore.findOne "u2" = .ok none ∧
    channelDisabled (some (plainObject defaultPreferences)) "transactionAlerts" "sms" = true ∧
    (sendNotificationHandler u1World u2SmsJob 0).1.preferenceStore.docs.map (fun d => d.userId)
      = ["u1"] ∧
    (addedJobs u1World (sendNotificationHandler u1World u2SmsJob 0).1 .sms).map
        (fun j => (j.name, j.data.userId, j.data.channel)) =
      [("send-sms", some "u2", some "sms")] :=
  ⟨rfl, by decide, by decide, by decide⟩

/-- C15 (amended): the send-notification handler never creates a preference document (the
preference store after a run is the store before it), and for a recipient `u` without a stored
document no defaults gate the channels: the check of line 183 lets every channel through. -/
theorem C15_absent_preferences_gate_nothing (w : World) (job : Job) (now : Int) (u : String)
    (habsent : w.preferenceStore.findOne u = .ok none) :
    (sendNotificationHandler w job now).1.preferenceStore = w.preferenceStore ∧
    getUserPreferences w.preferenceStore u = none ∧
    ∀ c, channelDisabled (getUserPreferences w.preferenceStore u) job.data.type c = false := by
  have hnone : getUserPreferences w.preferenceStore u = none := by
    simp [getUserPreferences, habsent]
  refine ⟨preferenceStore_sendNotificationHandler w job now, hnone, ?_⟩
  intro c
  rw [hnone]
  rfl

/-- C15 (amended) at a concrete run: recipient `u2` of `u2SmsJob`. -/
theorem C15_absent_preferences_gate_nothing_witness :
    u1World.preferenceStore.findOne "u2" = .ok none ∧
    (sendNotificationHandler u1World u2SmsJob 0).1.preferenceStore = u1World.preferenceStore ∧
    getUserPreferences u1World.preferenceStore "u2" = none :=
  ⟨rfl,
   (C15_absent_preferences_gate_nothing u1World u2SmsJob 0 "u2" rfl).1,
   (C15_absent_preferences_gate_nothing u1World u2SmsJob 0 "u2" rfl).2.1⟩

/-! ## The job-status routes -/

theorem firstJob_spec (queues : List StatusQueue) (jobId : String)
    (hok : ∀ q ∈ queues, q.failing = false) :
    (firstJob queues jobId = .ok none ∧ ∀ q ∈ queues, ∀ j ∈ q.jobs, j.id ≠ jobId) ∨
    (∃ q ∈ queues, ∃ j ∈ q.jobs, j.id = jobId ∧ firstJob queues jobId = .ok (some j)) := by
  induction queues with
  | nil => left; exact ⟨rfl, by simp⟩
  | cons q rest ih =>
    have hq : q.failing = false := hok q (List.mem_cons_self _ _)
    have hrest := ih (fun x hx => hok x (List.mem_cons_of_mem _ hx))
    cases hf : q.jobs.find? (fun j => j.id = jobId) with
    | some j =>
      right
      refine ⟨q, List.mem_cons_self _ _, j, List.mem_of_find?_eq_some hf, ?_, ?_⟩
      · simpa using List.find?_some hf
      · simp [firstJob, StatusQueue.getJob, hq, hf]
    | none =>
      have hstep : firstJob (q :: rest) jobId = firstJob rest jobId := by
        simp [firstJob, StatusQueue.getJob, hq, hf]
      rw [List.find?_eq_none] at hf
      rcases hrest with ⟨h1, h2⟩ | ⟨q1, hq1, j, hj, hj2, hj3⟩
      · left
        refine ⟨by rw [hstep, h1], ?_⟩
        intro x hx y hy
        rcases List.mem_cons.mp hx with rfl | hx
        · simpa using hf y hy
        · exact h2 x hx y hy
      · right
        exact ⟨q1, List.mem_cons_of_mem _ hq1, j, hj, hj2, by rw [hstep, hj3]⟩

theorem getJobStatus_ok (notFound failed : String) (queues : List StatusQueue) (jobId : String)
    (hok : ∀ q ∈ queues, q.failing = false) :
    StatusAnswerOk queues jobId (getJobStatus notFound failed queues jobId) := by
  unfold StatusAnswerOk getJobStatus
  rcases firstJob_spec queues jobId hok with ⟨h1, h2⟩ | ⟨q, hq, j, hj, hj2, hj3⟩
  · rw [h1]
    exact ⟨⟨fun _ => h2, fun _ => rfl⟩, fun h => absurd rfl h⟩
  · rw [hj3]
    dsimp only
    refine ⟨⟨fun h => absurd h (by decide), fun h => absurd hj2 (h q hq j hj)⟩, fun _ => ?_⟩
    refine ⟨q, hq, j, hj, hj2, rfl, rfl, rfl, rfl, ?_, ?_⟩
    · intro hr
      by_cases hs : j.state = "completed"
      · exact ⟨hs, by simp [hs]⟩
      · simp [hs] at hr
    · intro he
      by_cases hs : j.state = "completed"
      · simp [hs] at he
      · by_cases hs2 : j.state = "failed"
        · exact ⟨hs2, by simp [hs2]⟩
        · simp [hs, hs2] at he

/-- C16: when the queue lookups succeed, both job-status routes (processing service: pdf,
calculation and report queues; notification service: notification and scheduled queues) answer
404 if and only if none of the queues they consult holds a job with the given id; otherwise they
answer 200 with the id, state and progress of a job held under that id, with a non-null `result`
(the return value) only when the state is `completed` and a non-null `error` (the failure
reason) only when the state is `failed`. -/
theorem C16_job_status (pdfQueue calculationQueue reportQueue notificationQueue
    scheduledQueue : StatusQueue) (jobId : String)
    (hp : ∀ q ∈ [pdfQueue, calculationQueue, reportQueue], q.failing = false)
    (hn : ∀ q ∈ [notificationQueue, scheduledQueue], q.failing = false) :
    StatusAnswerOk [pdfQueue, calculationQueue, reportQueue] jobId
      (processingJobStatus pdfQueue calculationQueue reportQueue jobId) ∧
    StatusAnswerOk [notificationQueue, scheduledQueue] jobId
      (notificationJobStatus notificationQueue scheduledQueue jobId) :=
  ⟨getJobStatus_ok _ _ _ jobId hp, getJobStatus_ok _ _ _ jobId hn⟩

/-- C16 at concrete queues: the id `non-existent-job-id` of the test. -/
theorem C16_job_status_witness :
    (∀ q ∈ [failedJobQueue, idleQueue, idleQueue], q.failing = false) ∧
    (∀ q ∈ [idleQueue, idleQueue], q.failing = false) ∧
    StatusAnswerOk [failedJobQueue, idleQueue, idleQueue] "non-existent-job-id"
      (processingJobStatus failedJobQueue idleQueue idleQueue "non-existent-job-id") ∧
    StatusAnswerOk [idleQueue, idleQueue] "non-existent-job-id"
      (notificationJobStatus idleQueue idleQueue "non-existent-job-id") :=
  ⟨by decide, by decide,
   C16_job_status failedJobQueue idleQueue idleQueue idleQueue idleQueue "non-existent-job-id"
     (by decide) (by decide)⟩

/-! ## Compound interest -/

/-- C17 (counterexample): for principal 10000, rate 0.07, time 10 and no `compoundFrequency`,
the computed `finalAmount` lies above 20096, while 10000 × 1.07^10 lies below 19672: they are
different numbers. -/
theorem C17_final_amount_is_not_annual :
    (calculateCompoundInterest scenarioA).finalAmount > 20096 ∧
    (10000 : ℚ) * (107 / 100) ^ 10 < 19672 ∧
    (calculateCompoundInterest scenarioA).finalAmount ≠ 10000 * (107 / 100) ^ 10 := by
  have h1 : (calculateCompoundInterest scenarioA).finalAmount =
      10000 * (1 + 7 / 100 / 12) ^ 120 := by
    simp [calculateCompoundInterest, scenarioA]
  have h2 : (10000 : ℚ) * (1 + 7 / 100 / 12) ^ 120 > 20096 := by norm_num
  have h3 : (10000 : ℚ) * (107 / 100) ^ 10 < 19672 := by norm_num
  refine ⟨by rw [h1]; exact h2, h3, ?_⟩
  rw [h1]
  intro h
  rw [h] at h2
  linarith

/-- C17 (amended): for principal 10000, rate 0.07, time 10 and no `compoundFrequency`, the
default frequency 12 applies and, in exact arithmetic, `finalAmount` equals
10000 × (1 + 0.07/12)^120, which lies between 20096.61 and 20096.62; with `compoundFrequency = 1`
given, `finalAmount` equals 10000 × 1.07^10, which lies between 19671.51 and 19671.52. -/
theorem C17_final_amount_monthly_default :
    (calculateCompoundInterest scenarioA).compoundFrequency = 12 ∧
    (calculateCompoundInterest scenarioA).finalAmount = 10000 * (1 + 7 / 100 / 12) ^ 120 ∧
    (2009661 : ℚ) / 100 < (calculateCompoundInterest scenarioA).finalAmount ∧
    (calculateCompoundInterest scenarioA).finalAmount < 2009662 / 100 ∧
    (calculateCompoundInterest { scenarioA with compoundFrequency := some 1 }).finalAmount =
      10000 * (107 / 100) ^ 10 ∧
    (1967151 : ℚ) / 100 < 10000 * (107 / 100) ^ 10 ∧
    (10000 : ℚ) * (107 / 100) ^ 10 < 1967152 / 100 := by
  have h1 : (calculateCompoundInterest scenarioA).finalAmount =
      10000 * (1 + 7 / 100 / 12) ^ 120 := by
    simp [calculateCompoundInterest, scenarioA]
  refine ⟨rfl, h1, ?_, ?_, ?_, ?_, ?_⟩
  · rw [h1]; norm_num
  · rw [h1]; norm_num
  · simp [calculateCompoundInterest, scenarioA]
    norm_num
  · norm_num
  · norm_num

/-! ## Request types that are not recognised -/

/-- C18 (code at the failing input): `POST /api/pdf/generate` with type `invalid_type`, which
has no arm in the switch of the PDF worker, and data `{}` is answered 200 with status `queued`,
and a `generate-pdf` job of that type, with three attempts, is put in the pdf queue; the type is
refused only in the worker, whose `default` arm posts `Unknown PDF type: invalid_type`. -/
theorem C18_unknown_pdf_type_enqueued :
    "invalid_type" ∉ knownPdfTypes ∧
    (postPdfGenerate 30000 "admin" 0 invalidTypeBody emptyPdfQueue).2.status = 200 ∧
    (postPdfGenerate 30000 "admin" 0 invalidTypeBody emptyPdfQueue).2.jobStatus = some "queued" ∧
    (postPdfGenerate 30000 "admin" 0 invalidTypeBody emptyPdfQueue).1.jobs.map
        (fun j => (j.name, j.data.type, j.attempts)) = [("generate-pdf", "invalid_type", 3)] ∧
    unknownPdfType "invalid_type" = some "Unknown PDF type: invalid_type" := by
  decide

/-- C19 (code at the failing input): `POST /api/notifications/send` with type `invalid_type`,
which is not a recognised notification type, and with title and message present is answered 200
with status `queued`, and a `send-notification` job of that type is put in the main queue. -/
theorem C19_unrecognised_type_enqueued :
    "invalid_type" ∉ recognisedTypes ∧
    (postNotificationsSend defaultEnv "admin" 0 0 invalidTypeSend u1World).2.status = 200 ∧
    (postNotificationsSend defaultEnv "admin" 0 0 invalidTypeSend u1World).2.jobStatus
      = some "queued" ∧
    (addedJobs u1World (postNotificationsSend defaultEnv "admin" 0 0 invalidTypeSend u1World).1
        .notification).map (fun j => (j.name, j.data.type)) =
      [("send-notification", "invalid_type")] := by
  decide

/-! ## The notification log -/

theorem logs_setQueue (w : World) (n : QueueName) (q : Queue) :
    (w.setQueue n q).logs = w.logs := by
  cases n <;> rfl

theorem logs_processChannel (nd : NotificationData) (u : String) (prefs : Option PreferencesObject)
    (st : FanOutState) (c : String) :
    (processChannel nd u prefs st c).world.logs = st.world.logs := by
  have key : ∀ (qn : QueueName) (jobName ch : String),
      (enqueueSubJob st qn jobName ch nd u).world.logs = st.world.logs := by
    intro qn jobName ch
    unfold enqueueSubJob
    split <;> exact logs_setQueue _ _ _
  unfold processChannel
  split
  · rfl
  split
  · exact key _ _ _
  split
  · exact key _ _ _
  split
  · exact key _ _ _
  split <;> rfl

theorem logs_fanOut (w : World) (nd : NotificationData) : (fanOut w nd).world.logs = w.logs := by
  unfold fanOut
  refine foldl_invariant (fun st : FanOutState => st.world.logs = w.logs) _ nd.recipients
    ?_ _ rfl
  intro st u _ hst
  unfold processRecipient
  exact foldl_invariant (fun st : FanOutState => st.world.logs = w.logs) _ nd.channels
    (fun s c _ hs => (logs_processChannel nd u _ s c).trans hs) st hst

/-- C20 (code on every input): the document that `logNotification` builds has no `jobId`, which
the NotificationLog schema requires (and its status `processed` is not in the schema's enum), so
validation refuses every save: `logNotification` never changes the log, for no notification,
status or error, and a run of the send-notification handler leaves the log as it was. -/
theorem C20_log_write_always_dropped (w : World) (job : Job) (now : Int)
    (nd : NotificationData) (status : String) (error : Option String) :
    (logNotification w nd status error).logs = w.logs ∧
    (sendNotificationHandler w job now).1.logs = w.logs ∧
    "processed" ∉ ["pending", "processing", "sent", "failed", "cancelled"] := by
  have hlog : ∀ (w1 : World) (nd1 : NotificationData) (s1 : String) (e1 : Option String),
      (logNotification w1 nd1 s1 e1).logs = w1.logs := by
    intro w1 nd1 s1 e1
    simp [logNotification, NotificationLogDoc.valid, strTruthy]
  refine ⟨hlog _ _ _ _, ?_, by decide⟩
  simp only [sendNotificationHandler, hlog]
  exact logs_fanOut w job.data

/-! ## The worker-thread handlers -/

theorem settle_of_settled (p o : PromiseState) (h : p ≠ .pending) : settle p o = p := by
  cases p with
  | pending => exact absurd rfl h
  | resolved r => rfl
  | rejected e => rfl

theorem promise_onEvent (h : HandlerShape) (s : RunState) (ev : WorkerEvent) :
    (onEvent h s ev).promise =
      match settlement ev with
      | some outcome => settle s.promise outcome
      | none => s.promise := by
  cases ev with
  | message result => rfl
  | error err => rfl
  | exit code =>
    simp only [onEvent, settlement]
    split <;> rfl
  | tick =>
    simp only [onEvent, settlement]
    split
    · split <;> rfl
    · rfl

theorem settlement_ne_pending (ev : WorkerEvent) (o : PromiseState)
    (h : settlement ev = some o) : o ≠ .pending := by
  cases ev with
  | message result =>
    simp only [settlement, Option.some.injEq] at h
    subst h
    split <;> simp
  | error err =>
    simp only [settlement, Option.some.injEq] at h
    subst h
    simp
  | exit code =>
    simp only [settlement] at h
    split at h
    · simp only [Option.some.injEq] at h
      subst h
      simp
    · cases h
  | tick => cases h

theorem promise_foldl (h : HandlerShape) (events : List WorkerEvent) (s : RunState) :
    (events.foldl (onEvent h) s).promise =
      if s.promise = .pending then (events.findSome? settlement).getD .pending
      else s.promise := by
  induction events generalizing s with
  | nil =>
    simp only [List.foldl_nil, List.findSome?_nil, Option.getD_none]
    split
    · assumption
    · rfl
  | cons ev rest ih =>
    rw [List.foldl_cons, ih, promise_onEvent]
    by_cases hp : s.promise = .pending
    · rw [if_pos hp]
      cases hs : settlement ev with
      | none => simp [List.findSome?, hs, hp]
      | some outcome =>
        have hne := settlement_ne_pending ev outcome hs
        simp only [hp, settle, List.findSome?, hs, Option.getD_some]
        rw [if_neg hne]
    · rw [if_neg hp]
      cases hs : settlement ev with
      | none => simp [hp]
      | some outcome =>
        simp only [settle_of_settled _ _ hp]
        rw [if_neg hp]

/-- C21 (counterexample): in each of the five handlers, a worker that exits with code 0 without
having posted a message leaves the promise pending, also when timer ticks come before or after
the exit. -/
theorem C21_clean_exit_leaves_pending :
    handlerShapes.length = 5 ∧
    (handlerShapes.map fun h => (runHandler h [.exit 0]).promise) =
      [.pending, .pending, .pending, .pending, .pending] ∧
    (handlerShapes.map fun h => (runHandler h [.tick, .exit 0, .tick]).promise) =
      [.pending, .pending, .pending, .pending, .pending] := by
  decide

/-- C21 (amended): for each handler and every sequence of events, the promise is settled by the
first event that is a message, an `error` event or an exit with a code other than 0, and by
nothing else: a message whose `error` is absent or empty resolves it with that message, a message
with a non-empty `error` rejects it with that text, an `error` event rejects it with the error,
an exit with code `c ≠ 0` rejects it with `Worker stopped with exit code c`. When no such event
arrives (the worker exits with code 0 before any message, or nothing has happened yet) it stays
pending. -/
theorem C21_promise_settlement (h : HandlerShape) (events : List WorkerEvent) :
    (runHandler h events).promise = (events.findSome? settlement).getD .pending ∧
    ((runHandler h events).promise = .pending ↔ ∀ ev ∈ events, settlement ev = none) := by
  have key : (runHandler h events).promise = (events.findSome? settlement).getD .pending := by
    unfold runHandler
    rw [promise_foldl]
    exact if_pos rfl
  refine ⟨key, ?_⟩
  rw [key]
  constructor
  · intro hp ev hev
    cases hf : events.findSome? settlement with
    | none =>
      rw [List.findSome?_eq_none_iff] at hf
      exact hf ev hev
    | some o =>
      rw [hf] at hp
      simp only [Option.getD_some] at hp
      obtain ⟨x, -, hx⟩ := List.exists_of_findSome?_eq_some hf
      exact absurd hp (settlement_ne_pending x o hx)
  · intro hall
    have : events.findSome? settlement = none := by
      rw [List.findSome?_eq_none_iff]
      exact hall
    rw [this]
    rfl

theorem pairwise_append_single (l : List Nat) (v : Nat) (hl : l.Pairwise (fun a b => a ≤ b))
    (hv : ∀ x ∈ l, x ≤ v) : (l ++ [v]).Pairwise (fun a b => a ≤ b) := by
  rw [List.pairwise_append]
  refine ⟨hl, List.pairwise_singleton _ _, ?_⟩
  intro a ha b hb
  simp only [List.mem_singleton] at hb
  subst hb
  exact hv a ha

theorem progressInv_report (h : HandlerShape) (s s1 : RunState) (v : Nat)
    (hs : ProgressInv h s) (hrep : s1.reports = s.reports) (hge : s.jobProgress ≤ v)
    (hle : v ≤ 100)
    (ht : s1.timerSet = true → v ≤ h.cap ∧ (h.ownCounter = true → s1.currentProgress = v)) :
    ProgressInv h (s1.report v) := by
  obtain ⟨-, h2, h3, -⟩ := hs
  refine ⟨hle, ?_, ?_, ht⟩
  · simp only [RunState.report, hrep]
    exact pairwise_append_single _ _ h2 (fun x hx => (h3 x hx).trans hge)
  · intro x hx
    simp only [RunState.report, hrep, List.mem_append, List.mem_singleton] at hx
    rcases hx with hx | hx
    · exact (h3 x hx).trans hge
    · exact hx.le

theorem progressInv_onEvent (h : HandlerShape) (hcap : h.cap ≤ 100) (s : RunState)
    (ev : WorkerEvent) (hs : ProgressInv h s) : ProgressInv h (onEvent h s ev) := by
  cases ev with
  | message result =>
    exact progressInv_report h s _ 100 hs rfl hs.1 (le_refl _) (fun hf => by cases hf)
  | error err => exact hs
  | exit code =>
    simp only [onEvent]
    split
    · exact hs
    · exact hs
  | tick =>
    simp only [onEvent]
    by_cases ht : s.timerSet = true
    · rw [if_pos ht]
      obtain ⟨hcapj, hcur⟩ := hs.2.2.2 ht
      by_cases ho : h.ownCounter = true
      · rw [if_pos ho]
        exact progressInv_report h s _ (min h.cap (s.currentProgress + h.step)) hs rfl
          (by rw [hcur ho]; exact le_min hcapj (Nat.le_add_right _ _))
          ((min_le_left _ _).trans hcap) (fun _ => ⟨min_le_left _ _, fun _ => rfl⟩)
      · rw [if_neg ho]
        exact progressInv_report h s _ (min h.cap (s.jobProgress + h.step)) hs rfl
          (le_min hcapj (Nat.le_add_right _ _))
          ((min_le_left _ _).trans hcap) (fun _ => ⟨min_le_left _ _, fun h1 => absurd h1 ho⟩)
    · rw [if_neg ht]
      exact hs

theorem progressInv_runHandler (h : HandlerShape) (hinit : h.initial ≤ h.cap)
    (hcap : h.cap ≤ 100) (events : List WorkerEvent) : ProgressInv h (runHandler h events) := by
  unfold runHandler
  refine foldl_invariant (ProgressInv h) _ events
    (fun s ev _ hs => progressInv_onEvent h hcap s ev hs) _ ?_
  refine ⟨hinit.trans hcap, List.pairwise_singleton _ _, ?_, fun _ => ⟨hinit, fun _ => rfl⟩⟩
  intro v hv
  simp only [startRun, List.mem_singleton] at hv
  exact hv.le

theorem reports_le_cap_of_no_message (h : HandlerShape) (events : List WorkerEvent)
    (hno : ∀ ev ∈ events, ev.isMessage = false) (s : RunState)
    (hs : ∀ v ∈ s.reports, v ≤ h.cap) :
    ∀ v ∈ (events.foldl (onEvent h) s).reports, v ≤ h.cap := by
  induction events generalizing s with
  | nil => exact hs
  | cons ev rest ih =>
    rw [List.foldl_cons]
    apply ih (fun e he => hno e (List.mem_cons_of_mem _ he))
    have hev := hno ev (List.mem_cons_self _ _)
    cases ev with
    | message result => cases hev
    | error err => exact hs
    | exit code =>
      simp only [onEvent]
      split
      · exact hs
      · exact hs
    | tick =>
      simp only [onEvent]
      split
      · split
        · intro v hv
          simp only [RunState.report, List.mem_append, List.mem_singleton] at hv
          rcases hv with hv | hv
          · exact hs v hv
          · rw [hv]; exact min_le_left _ _
        · intro v hv
          simp only [RunState.report, List.mem_append, List.mem_singleton] at hv
          rcases hv with hv | hv
          · exact hs v hv
          · rw [hv]; exact min_le_left _ _
      · exact hs

/-- C24: within one run of each of the five processing handlers, on every sequence of worker and
timer events, every reported progress value lies between 0 and 100, the reported values are in
non-decreasing order, and 100 is among them only when the worker has posted a message. -/
theorem C24_progress_reports (h : HandlerShape) (events : List WorkerEvent)
    (hh : h ∈ handlerShapes) :
    (∀ v ∈ (runHandler h events).reports, 0 ≤ v ∧ v ≤ 100) ∧
    (runHandler h events).reports.Pairwise (fun a b => a ≤ b) ∧
    (100 ∈ (runHandler h events).reports → ∃ ev ∈ events, ev.isMessage = true) := by
  have hshape : h.initial ≤ h.cap ∧ h.cap < 100 := by
    simp only [handlerShapes, List.mem_cons, List.mem_singleton, List.not_mem_nil,
      or_false] at hh
    rcases hh with rfl | rfl | rfl | rfl | rfl <;> decide
  have hinv := progressInv_runHandler h hshape.1 hshape.2.le events
  refine ⟨fun v hv => ⟨Nat.zero_le _, (hinv.2.2.1 v hv).trans hinv.1⟩, hinv.2.1, ?_⟩
  intro h100
  by_contra hno
  have hno2 : ∀ ev ∈ events, ev.isMessage = false := by
    intro ev hev
    by_contra hm
    exact hno ⟨ev, hev, by simpa using hm⟩
  have := reports_le_cap_of_no_message h events hno2 (startRun h)
    (by
      intro v hv
      simp only [startRun, List.mem_singleton] at hv
      rw [hv]; exact hshape.1) 100 h100
  omega

/-- C24 at a concrete run of the generate-pdf handler: ticks up to the cap, then the message. -/
theorem C24_progress_reports_witness :
    (⟨"generate-pdf", 10, 10, 90, false⟩ : HandlerShape) ∈ handlerShapes ∧
    (runHandler ⟨"generate-pdf", 10, 10, 90, false⟩
      [.tick, .tick, .message ⟨none, "pdf"⟩, .exit 0]).reports = [10, 20, 30, 100] ∧
    (runHandler ⟨"generate-pdf", 10, 10, 90, false⟩
      [.tick, .tick, .message ⟨none, "pdf"⟩, .exit 0]).reports.Pairwise (fun a b => a ≤ b) :=
  ⟨by decide, by decide,
   (C24_progress_reports ⟨"generate-pdf", 10, 10, 90, false⟩
      [.tick, .tick, .message ⟨none, "pdf"⟩, .exit 0] (by decide)).2.1⟩

/-! ## `Utils.retry` -/

theorem retryLoop_calls_le {ε α : Type} (fn : Nat → Except ε α) (n : Nat) (maxDelay f : ℚ)
    (remaining attempt : Nat) (delay : ℚ) (waits : List ℚ)
    (hrem : attempt + remaining = n + 1) (hpos : 1 ≤ attempt) :
    (retryLoop fn n maxDelay f remaining attempt delay waits).calls ≤ n := by
  induction remaining generalizing attempt delay waits with
  | zero =>
    simp only [retryLoop]
    omega
  | succ r ih =>
    simp only [retryLoop]
    split
    · show attempt ≤ n
      omega
    · split
      · show attempt ≤ n
        omega
      · exact ih (attempt + 1) _ _ (by omega) (by omega)

theorem retryLoop_first_success {ε α : Type} (fn : Nat → Except ε α) (n : Nat)
    (maxDelay f : ℚ) (k : Nat) (v : α) (hk : k ≤ n) (hv : fn k = .ok v)
    (remaining attempt : Nat) (delay : ℚ) (waits : List ℚ)
    (hrem : attempt + remaining = n + 1) (hle : attempt ≤ k)
    (hfail : ∀ j, attempt ≤ j → j < k → ∃ e, fn j = .error e) :
    (retryLoop fn n maxDelay f remaining attempt delay waits).outcome = some (.ok v) ∧
    (retryLoop fn n maxDelay f remaining attempt delay waits).calls = k := by
  induction remaining generalizing attempt delay waits with
  | zero => omega
  | succ r ih =>
    simp only [retryLoop]
    by_cases hak : attempt = k
    · subst hak
      rw [hv]
      exact ⟨rfl, rfl⟩
    · obtain ⟨e, he⟩ := hfail attempt (le_refl _) (by omega)
      rw [he]
      simp only
      rw [if_neg (by omega)]
      exact ih (attempt + 1) _ _ (by omega) (by omega)
        (fun j h1 h2 => hfail j (by omega) h2)

theorem retryLoop_all_fail {ε α : Type} (fn : Nat → Except ε α) (n : Nat)
    (maxDelay f : ℚ) (e : ε) (hn : fn n = .error e)
    (remaining attempt : Nat) (delay : ℚ) (waits : List ℚ)
    (hrem : attempt + remaining = n + 1) (hle : attempt ≤ n)
    (hfail : ∀ j, attempt ≤ j → j ≤ n → ∃ e1, fn j = .error e1) :
    (retryLoop fn n maxDelay f remaining attempt delay waits).outcome = some (.error e) ∧
    (retryLoop fn n maxDelay f remaining attempt delay waits).calls = n := by
  induction remaining generalizing attempt delay waits with
  | zero => omega
  | succ r ih =>
    simp only [retryLoop]
    by_cases han : attempt = n
    · subst han
      rw [hn]
      simp
    · obtain ⟨e1, he1⟩ := hfail attempt (le_refl _) hle
      rw [he1]
      simp only
      rw [if_neg han]
      exact ih (attempt + 1) _ _ (by omega) (by omega)
        (fun j h1 h2 => hfail j (by omega) h2)

/-- C22: `Utils.retry(fn, options)` with `maxAttempts = n ≥ 1` (given, or the default 3) calls
`fn` at most `n` times. If the `k`-th call (`k ≤ n`) is the first that succeeds, it returns the
value of that call after exactly `k` calls. If all of the first `n` calls fail, it makes exactly
`n` calls and throws the error of the `n`-th. -/
theorem C22_retry_attempts {ε α : Type} (fn : Nat → Except ε α) (options : RetryOptions)
    (n : Nat) (hopt : options.maxAttempts.getD 3 = n) (hn : 1 ≤ n) :
    (retry fn options).calls ≤ n ∧
    (∀ k v, 1 ≤ k → k ≤ n → fn k = .ok v → (∀ j, 1 ≤ j → j < k → ∃ e, fn j = .error e) →
      (retry fn options).outcome = some (.ok v) ∧ (retry fn options).calls = k) ∧
    (∀ e, fn n = .error e → (∀ j, 1 ≤ j → j ≤ n → ∃ e1, fn j = .error e1) →
      (retry fn options).outcome = some (.error e) ∧ (retry fn options).calls = n) := by
  unfold retry
  simp only [hopt]
  refine ⟨retryLoop_calls_le fn n _ _ n 1 _ _ (by omega) (le_refl _), ?_, ?_⟩
  · intro k v hk1 hkn hv hfail
    exact retryLoop_first_success fn n _ _ k v hkn hv n 1 _ _ (by omega) hk1 hfail
  · intro e he hfail
    exact retryLoop_all_fail fn n _ _ e he n 1 _ _ (by omega) hn hfail

/-- C22 at a concrete run: the second call succeeds. -/
theorem C22_retry_attempts_witness :
    slowStartOptions.maxAttempts.getD 3 = 3 ∧ 1 ≤ 3 ∧
    (retry secondCallSucceeds slowStartOptions).outcome = some (.ok 42) ∧
    (retry secondCallSucceeds slowStartOptions).calls = 2 :=
  ⟨rfl, by decide,
   (C22_retry_attempts secondCallSucceeds slowStartOptions 3 rfl (by decide)).2.1 2 42
     (by decide) (by decide) rfl (fun j h1 h2 => ⟨"failure 1", by
       have : j = 1 := by omega
       subst this
       rfl⟩)⟩

theorem retryLoop_waits_le {ε α : Type} (fn : Nat → Except ε α) (n : Nat) (maxDelay f : ℚ)
    (remaining attempt : Nat) (delay : ℚ) (waits : List ℚ)
    (hd : delay ≤ maxDelay) (hw : ∀ x ∈ waits, x ≤ maxDelay) :
    ∀ x ∈ (retryLoop fn n maxDelay f remaining attempt delay waits).waits, x ≤ maxDelay := by
  induction remaining generalizing attempt delay waits with
  | zero => exact hw
  | succ r ih =>
    simp only [retryLoop]
    split
    · exact hw
    · split
      · exact hw
      · apply ih (attempt + 1) _ _ (min_le_right _ _)
        intro x hx
        rcases List.mem_append.mp hx with h | h
        · exact hw x h
        · simp only [List.mem_singleton] at h
          rw [h]
          exact hd

theorem retry_waits_le_of_base_le {ε α : Type} (fn : Nat → Except ε α) (options : RetryOptions)
    (h : options.baseDelay.getD 1000 ≤ options.maxDelay.getD 10000) :
    ∀ x ∈ (retry fn options).waits, x ≤ options.maxDelay.getD 10000 := by
  unfold retry
  exact retryLoop_waits_le fn _ _ _ _ 1 _ [] h (by simp)

/-- C23 (code at the failing input): with `baseDelay = 20000`, `maxDelay = 10000`,
`backoffFactor = 2` and three attempts of a callback that always fails, `Utils.retry` waits
20000 before the first retry and 10000 before the second: the first wait is the uncapped
`baseDelay`, above `maxDelay`, and not min(baseDelay × backoffFactor^0, maxDelay) = 10000. -/
theorem C23_first_wait_exceeds_maxDelay :
    (retry alwaysFails slowStartOptions).waits = [20000, 10000] ∧
    (retry alwaysFails slowStartOptions).calls = 3 ∧
    min ((20000 : ℚ) * 2 ^ 0) 10000 = 10000 ∧
    ∃ w ∈ (retry alwaysFails slowStartOptions).waits, w > (10000 : ℚ) := by
  have h : (retry alwaysFails slowStartOptions).waits = [20000, 10000] := by
    simp [retry, retryLoop, slowStartOptions, alwaysFails]
    norm_num
  refine ⟨h, ?_, by norm_num, ?_⟩
  · simp [retry, retryLoop, slowStartOptions, alwaysFails]
  · rw [h]
    exact ⟨20000, by simp, by norm_num⟩

/-! ## Recipients without usable preferences -/

theorem mem_expectedSubJobs (w : World) (nd : NotificationData) (qn : QueueName) (u c : String)
    (hu : u ∈ nd.recipients) (hc : c ∈ nd.channels)
    (hen : channelDisabled (getUserPreferences w.preferenceStore u) nd.type c = false)
    (hq : queueChannel qn = some c) :
    subJobData nd u c ∈ expectedSubJobs w nd qn := by
  unfold expectedSubJobs
  rw [List.mem_flatMap]
  refine ⟨u, hu, ?_⟩
  rw [List.mem_flatMap]
  refine ⟨c, hc, ?_⟩
  simp [channelSubJobs, hen, hq]

/-- Where the guard of line 183 lets every channel through: for a recipient `u` for whom the
preference lookup fails, or finds no document, or finds a document whose preferences have no own
entry under the request's type while the type names nothing that the preferences object
inherits. Then, when every queue add succeeds, for each requested channel `c` the queue of `c`
receives a sub-job with the payload built for `(u, c)`, and for `c = websocket` the handler
records `sent` under the key of `(u, websocket)`. -/
theorem missing_preferences_enable_all (w : World) (job : Job) (now : Int) (u c : String)
    (hnf : NoFaults w) (hu : u ∈ job.data.recipients) (hc : c ∈ job.data.channels)
    (hcase : (∃ msg, w.preferenceStore.findOne u = .error msg) ∨
      w.preferenceStore.findOne u = .ok none ∨
      ∃ p, w.preferenceStore.findOne u = .ok (some p) ∧
        p.preferences.lookup job.data.type = none ∧
        w.preferenceStore.inherited.lookup job.data.type = none) :
    (∀ c1, channelDisabled (getUserPreferences w.preferenceStore u) job.data.type c1 = false) ∧
    (∀ qn, queueChannel qn = some c →
      ∃ j ∈ addedJobs w (sendNotificationHandler w job now).1 qn,
        j.data = subJobData job.data u c) ∧
    (c = "websocket" →
      List.lookup (u ++ "_" ++ "websocket") (sendNotificationHandler w job now).2.results =
        some "sent") := by
  have hen : ∀ c1,
      channelDisabled (getUserPreferences w.preferenceStore u) job.data.type c1 = false := by
    intro c1
    unfold getUserPreferences
    rcases hcase with ⟨msg, h⟩ | h | ⟨p, h, hp, hinh⟩
    · rw [h]; rfl
    · rw [h]; rfl
    · rw [h]
      simp only [channelDisabled, hp, hinh]
  refine ⟨hen, ?_, ?_⟩
  · intro qn hq
    rw [addedJobs_sendNotificationHandler]
    have hmem := mem_expectedSubJobs w job.data qn u c hu hc (hen c) hq
    rw [← addedJobs_fanOut_data w job.data hnf qn, List.mem_map] at hmem
    obtain ⟨j, hj, hd⟩ := hmem
    exact ⟨j, hj, hd⟩
  · intro hws
    subst hws
    exact fanOut_websocket_sent w job.data u hu hc (hen _)

/-- C25 (code at the failing input): `u1` has a stored preference document with no entry under
`constructor`. For a request of type `constructor` to `u1` on push, email and sms, with every add
succeeding, the read `preferences["constructor"]` reaches the inherited method, which is truthy
and has no property named after a channel; the guard of line 183 holds for every channel, so the
handler enqueues nothing and `results` stays empty. -/
theorem C25_inherited_type_name_skips_every_channel :
    getUserPreferences u1World.preferenceStore "u1" = some (plainObject u1Preferences) ∧
    u1Preferences.lookup "constructor" = none ∧
    constructorJob.data.channels.map
        (channelDisabled (getUserPreferences u1World.preferenceStore "u1") "constructor") =
      [true, true, true] ∧
    enqueuedCount u1World (sendNotificationHandler u1World constructorJob 0).1 = 0 ∧
    (sendNotificationHandler u1World constructorJob 0).2.results = [] ∧
    (sendNotificationHandler u1World constructorJob 0).2.success = true := by
  decide

/-! ## Retry options of the re-enqueued job -/

/-- C26 (code at the failing input): with `RETRY_ATTEMPTS = 5` and `RETRY_DELAY = 1000`, the
send endpoint attaches attempts 5 and an exponential backoff of base 1000 to the job of an
unscheduled request and to the scheduled job of the same request with `scheduled` set; the
scheduled-notification handler, run on that scheduled job, re-enqueues the payload with
attempts 3 and base delay 5000, which the environment does not influence. -/
theorem C26_requeued_options_ignore_env :
    ((postNotificationsSend tunedEnv "u1" 0 0 (completeBody none) u1World).1.notificationQueue.jobs.map
        Job.opts = [sendOpts tunedEnv none]) ∧
    sendOpts tunedEnv none =
      { delay := none, attempts := some 5, backoffType := some "exponential",
        backoffDelay := some 1000 } ∧
    ((postNotificationsSend tunedEnv "u1" 0 0 (completeBody (some 4000))
        u1World).1.scheduledQueue.jobs.map Job.opts = [sendOpts tunedEnv (some 4000)]) ∧
    (∀ sj ∈ (postNotificationsSend tunedEnv "u1" 0 0 (completeBody (some 4000))
        u1World).1.scheduledQueue.jobs,
      (scheduledNotificationHandler u1World sj 4000).1.notificationQueue.jobs.map
          (fun j => (j.data, j.opts)) =
        [(requestData "u1" 0 (completeBody none),
          { delay := none, attempts := some 3, backoffType := some "exponential",
            backoffDelay := some 5000 })]) ∧
    (postNotificationsSend tunedEnv "u1" 0 0 (completeBody none) u1World).1.notificationQueue.jobs.map
        Job.data = [requestData "u1" 0 (completeBody none)] := by
  decide

/-! ## `performBulkCalculations` -/

theorem bulkStep_eq {P V : Type} (fns : Calculators P V) (clock : Nat → String)
    (results : List (BulkEntry V)) (op : Operation P) :
    ∃ e : BulkEntry V, bulkStep fns clock results op = results ++ [e] ∧ e.id = op.id ∧ e.type = op.type ∧
      e.completedAt = clock results.length ∧
      e.result = (calculate fns op).toOption ∧
      e.error = (match calculate fns op with
        | .ok _ => none
        | .error msg => some msg) := by
  unfold bulkStep
  cases calculate fns op with
  | ok r => exact ⟨_, rfl, rfl, rfl, rfl, rfl, rfl⟩
  | error m => exact ⟨_, rfl, rfl, rfl, rfl, rfl, rfl⟩

theorem performBulkCalculations_entries {P V : Type} (fns : Calculators P V)
    (clock : Nat → String) (ops : List (Operation P)) :
    (performBulkCalculations fns clock ops).length = ops.length ∧
    ∀ (k : Nat) (op : Operation P), ops[k]? = some op →
      ∃ e : BulkEntry V, (performBulkCalculations fns clock ops)[k]? = some e ∧ e.id = op.id ∧
        e.type = op.type ∧ e.completedAt = clock k ∧
        e.result = (calculate fns op).toOption ∧
        e.error = (match calculate fns op with
          | .ok _ => none
          | .error msg => some msg) := by
  unfold performBulkCalculations
  induction ops using List.reverseRecOn with
  | nil => simp
  | append_singleton xs x ih =>
    obtain ⟨hlen, hpt⟩ := ih
    rw [List.foldl_append, List.foldl_cons, List.foldl_nil]
    obtain ⟨e, he, h1, h2, h3, h4, h5⟩ := bulkStep_eq fns clock (xs.foldl (bulkStep fns clock) []) x
    rw [he]
    refine ⟨by simp [hlen], ?_⟩
    intro k op hk
    by_cases hlt : k < xs.length
    · rw [List.getElem?_append_left hlt] at hk
      obtain ⟨e1, hk1, r⟩ := hpt k op hk
      exact ⟨e1, by rw [List.getElem?_append_left (by omega), hk1], r⟩
    · have hk2 : k = xs.length := by
        have hsome : k < (xs ++ [x]).length := by
          by_contra hc
          rw [List.getElem?_eq_none (by omega)] at hk
          exact Option.noConfusion hk
        simp only [List.length_append, List.length_singleton] at hsome
        omega
      subst hk2
      have hx : op = x := by
        simpa using hk.symm
      subst hx
      refine ⟨e, ?_, h1, h2, ?_, h4, h5⟩
      · rw [← hlen]
        simp
      · rw [h3, hlen]

/-- C28: `performBulkCalculations` returns one entry per input operation, in the order of the
operations and with the id and type of each; the entry at an index is determined by the
operation at that index alone (it carries the outcome of the switch on that operation); an
operation whose type is none of the seven known ones yields an entry whose `result` is the object
`{ error: 'Unknown calculation type: ...' }`, and an operation whose calculation throws yields an
entry whose `error` is the message thrown. -/
theorem C28_bulk_entries {P V : Type} (fns : Calculators P V) (clock : Nat → String)
    (ops : List (Operation P)) :
    (performBulkCalculations fns clock ops).length = ops.length ∧
    (performBulkCalculations fns clock ops).map (fun e => (e.id, e.type)) =
      ops.map (fun o => (o.id, o.type)) ∧
    ∀ (k : Nat) (op : Operation P), ops[k]? = some op →
      ∃ e : BulkEntry V, (performBulkCalculations fns clock ops)[k]? = some e ∧ e.id = op.id ∧
        e.type = op.type ∧
        e.result = (calculate fns op).toOption ∧
        e.error = (match calculate fns op with
          | .ok _ => none
          | .error msg => some msg) ∧
        (op.type ∉ knownCalculationTypes →
          e.result = some (.errorObject ("Unknown calculation type: " ++ op.type)) ∧
          e.error = none) ∧
        (∀ msg, calculate fns op = .error msg → e.result = none ∧ e.error = some msg) := by
  obtain ⟨hlen, hpt⟩ := performBulkCalculations_entries fns clock ops
  refine ⟨hlen, ?_, ?_⟩
  · apply List.ext_getElem?
    intro k
    rw [List.getElem?_map, List.getElem?_map]
    cases hk : ops[k]? with
    | none =>
      have : (performBulkCalculations fns clock ops)[k]? = none := by
        rw [List.getElem?_eq_none_iff] at hk ⊢
        omega
      rw [this]
      rfl
    | some op =>
      obtain ⟨e, he, h1, h2, -⟩ := hpt k op hk
      rw [he]
      simp [h1, h2]
  · intro k op hk
    obtain ⟨e, he, h1, h2, -, h4, h5⟩ := hpt k op hk
    refine ⟨e, he, h1, h2, h4, h5, ?_, ?_⟩
    · intro hunk
      have hcalc : calculate fns op =
          .ok (.errorObject ("Unknown calculation type: " ++ op.type)) := by
        simp only [knownCalculationTypes, List.mem_cons, List.mem_singleton, List.not_mem_nil,
          or_false, not_or] at hunk
        obtain ⟨n1, n2, n3, n4, n5, n6, n7⟩ := hunk
        unfold calculate
        rw [if_neg n1, if_neg n2, if_neg n3, if_neg n4, if_neg n5, if_neg n6, if_neg n7]
      rw [h4, h5, hcalc]
      exact ⟨rfl, rfl⟩
    · intro msg hmsg
      rw [h4, h5, hmsg]
      exact ⟨rfl, rfl⟩

/-- C28 at a concrete run: the third of three operations has an unknown type, the second
throws. -/
theorem C28_bulk_entries_witness :
    sampleOperations[2]? = some { id := "c", type := "lottery", params := 7 } ∧
    ∃ e : BulkEntry Nat, (performBulkCalculations sampleCalculators (fun _ => "t") sampleOperations)[2]? =
        some e ∧ e.id = "c" ∧ e.type = "lottery" ∧
      e.result = some (.errorObject ("Unknown calculation type: " ++ "lottery")) ∧
      e.error = none := by
  refine ⟨rfl, ?_⟩
  obtain ⟨e, he, h1, h2, -, -, h5, -⟩ :=
    (C28_bulk_entries sampleCalculators (fun _ => "t") sampleOperations).2.2 2
      { id := "c", type := "lottery", params := 7 } rfl
  exact ⟨e, he, h1, h2, (h5 (by decide)).1, (h5 (by decide)).2⟩

/-! ## `calculateTax` -/

theorem bracketSum_eq_zero_of_le (brackets : List TaxBracket) (s t : ℚ)
    (hc : ContiguousFrom s brackets) (hwf : ∀ b ∈ brackets, b.min ≤ b.max) (hts : t ≤ s) :
    bracketSum brackets t = 0 := by
  induction brackets generalizing s with
  | nil => rfl
  | cons b rest ih =>
    obtain ⟨hmin, hrest⟩ := hc
    have hb := hwf b (List.mem_cons_self _ _)
    have ih2 := ih b.max hrest (fun x hx => hwf x (List.mem_cons_of_mem _ hx)) (by linarith)
    unfold bracketSum at ih2 ⊢
    rw [List.map_cons, List.sum_cons, ih2, add_zero]
    have : overlapLength b.min b.max t = 0 := by
      unfold overlapLength
      apply max_eq_left
      have h1 : Min.min b.max t ≤ t := min_le_right _ _
      have h2 : b.min ≤ Max.max b.min 0 := le_max_left _ _
      linarith
    rw [this, mul_zero]

theorem taxLoop_eq (brackets : List TaxBracket) (s t tax : ℚ)
    (hc : ContiguousFrom s brackets) (hwf : ∀ b ∈ brackets, b.min ≤ b.max)
    (hs : 0 ≤ s) (hst : s ≤ t) :
    taxLoop brackets tax (t - s) = tax + bracketSum brackets t := by
  induction brackets generalizing s tax with
  | nil => simp [taxLoop, bracketSum]
  | cons b rest ih =>
    obtain ⟨hmin, hrest⟩ := hc
    have hb := hwf b (List.mem_cons_self _ _)
    have hwf2 : ∀ x ∈ rest, x.min ≤ x.max := fun x hx => hwf x (List.mem_cons_of_mem _ hx)
    have hsum : bracketSum (b :: rest) t =
        b.rate * overlapLength b.min b.max t + bracketSum rest t := by
      unfold bracketSum
      rw [List.map_cons, List.sum_cons]
    have hov : overlapLength b.min b.max t = Min.min (t - s) (b.max - b.min) := by
      unfold overlapLength
      rw [hmin, max_eq_left hs]
      rcases le_total b.max t with h | h
      · rw [min_eq_left h, min_eq_right (by linarith), max_eq_right (by linarith)]
      · rw [min_eq_right h, min_eq_left (by linarith), max_eq_right (by linarith)]
    simp only [taxLoop]
    rw [hsum, hov]
    split
    · rename_i hle
      have htle : t ≤ b.max := by
        rcases le_total (t - s) (b.max - b.min) with h | h
        · rw [hmin] at h; linarith
        · rw [min_eq_right h] at hle
          rw [hmin] at hle; linarith
      rw [bracketSum_eq_zero_of_le rest b.max t hrest hwf2 htle]
      ring
    · rename_i hgt
      have hlt : b.max - b.min < t - s := by
        by_contra hc2
        push_neg at hc2
        rw [min_eq_left hc2] at hgt
        exact hgt (by linarith)
      rw [min_eq_right (le_of_lt hlt)]
      have e : t - s - (b.max - b.min) = t - b.max := by rw [hmin]; ring
      rw [e, ih b.max _ hrest hwf2 (by linarith) (by rw [hmin] at hlt; linarith)]
      ring

theorem overlapLength_mono (lo hi : ℚ) {t1 t2 : ℚ} (h : t1 ≤ t2) :
    overlapLength lo hi t1 ≤ overlapLength lo hi t2 := by
  unfold overlapLength
  apply max_le_max (le_refl _)
  have : Min.min hi t1 ≤ Min.min hi t2 := min_le_min (le_refl _) h
  linarith

theorem bracketSum_mono (brackets : List TaxBracket) (hrate : ∀ b ∈ brackets, 0 ≤ b.rate)
    {t1 t2 : ℚ} (h : t1 ≤ t2) : bracketSum brackets t1 ≤ bracketSum brackets t2 := by
  induction brackets with
  | nil => exact le_refl _
  | cons b rest ih =>
    unfold bracketSum at ih ⊢
    rw [List.map_cons, List.sum_cons, List.map_cons, List.sum_cons]
    have h1 := mul_le_mul_of_nonneg_left (overlapLength_mono b.min b.max h)
      (hrate b (List.mem_cons_self _ _))
    have h2 := ih (fun x hx => hrate x (List.mem_cons_of_mem _ hx))
    linarith

theorem calculateTax_eq (income deductions : ℚ) (brackets : List TaxBracket)
    (hc : ContiguousFrom 0 brackets) (hwf : ∀ b ∈ brackets, b.min ≤ b.max) :
    calculateTax income deductions brackets =
      bracketSum brackets (Max.max 0 (income - deductions)) := by
  unfold calculateTax
  have := taxLoop_eq brackets 0 (Max.max 0 (income - deductions)) 0 hc hwf (le_refl _)
    (le_max_left _ _)
  simpa using this

/-- C30: for brackets that are contiguous from 0, each an interval with `min ≤ max`, and with
non-negative rates, `calculateTax(income, deductions, brackets)` is the sum over the brackets of
rate × the length of the overlap of `[min, max]` with `[0, max(0, income - deductions)]`; it is 0
when `income ≤ deductions`; and it does not decrease when the income grows. -/
theorem C30_calculateTax_piecewise (income deductions : ℚ) (brackets : List TaxBracket)
    (hc : ContiguousFrom 0 brackets) (hwf : ∀ b ∈ brackets, b.min ≤ b.max)
    (hrate : ∀ b ∈ brackets, 0 ≤ b.rate) :
    calculateTax income deductions brackets =
      (brackets.map fun b =>
        b.rate * overlapLength b.min b.max (Max.max 0 (income - deductions))).sum ∧
    (income ≤ deductions → calculateTax income deductions brackets = 0) ∧
    (∀ income2, income ≤ income2 →
      calculateTax income deductions brackets ≤ calculateTax income2 deductions brackets) := by
  refine ⟨calculateTax_eq income deductions brackets hc hwf, ?_, ?_⟩
  · intro hle
    rw [calculateTax_eq income deductions brackets hc hwf, max_eq_left (by linarith)]
    exact bracketSum_eq_zero_of_le brackets 0 0 hc hwf (le_refl _)
  · intro income2 hle
    rw [calculateTax_eq income deductions brackets hc hwf,
      calculateTax_eq income2 deductions brackets hc hwf]
    exact bracketSum_mono brackets hrate (max_le_max (le_refl _) (by linarith))

/-- C30 at a concrete input: income 30000, deductions 5000, two brackets; the tax is
10000 × 0.1 + 15000 × 0.2 = 4000. -/
theorem C30_calculateTax_piecewise_witness :
    ContiguousFrom 0 sampleBrackets ∧ (∀ b ∈ sampleBrackets, b.min ≤ b.max) ∧
    (∀ b ∈ sampleBrackets, 0 ≤ b.rate) ∧
    calculateTax 30000 5000 sampleBrackets =
      (sampleBrackets.map fun b =>
        b.rate * overlapLength b.min b.max (Max.max 0 (30000 - 5000))).sum ∧
    calculateTax 30000 5000 sampleBrackets = 4000 := by
  have hc : ContiguousFrom 0 sampleBrackets := ⟨rfl, rfl, trivial⟩
  have hwf : ∀ b ∈ sampleBrackets, b.min ≤ b.max := by
    intro b hb
    simp only [sampleBrackets, List.mem_cons, List.mem_singleton, List.not_mem_nil,
      or_false] at hb
    rcases hb with rfl | rfl <;> norm_num
  have hrate : ∀ b ∈ sampleBrackets, 0 ≤ b.rate := by
    intro b hb
    simp only [sampleBrackets, List.mem_cons, List.mem_singleton, List.not_mem_nil,
      or_false] at hb
    rcases hb with rfl | rfl <;> norm_num
  refine ⟨hc, hwf, hrate,
    (C30_calculateTax_piecewise 30000 5000 sampleBrackets hc hwf hrate).1, ?_⟩
  simp only [calculateTax, taxLoop, sampleBrackets]
  norm_num

/-! ## `calculateLoanPayment` -/

theorem amortizationFrom_spec (P r M : ℚ) (n : ℕ) (hP : 0 < P) (hr : 0 < r)
    (hM : M * ((1 + r) ^ n - 1) = P * (r * (1 + r) ^ n))
    (m k month : ℕ) (B : ℚ) (hkm : k + m = n) (hm : 1 ≤ m)
    (hB : B * ((1 + r) ^ n - 1) = P * ((1 + r) ^ n - (1 + r) ^ k)) :
    (amortizationFrom r M m month B).length = m ∧
    ((amortizationFrom r M m month B).map AmortizationRow.principal).sum = B ∧
    (∀ row ∈ amortizationFrom r M m month B, row.payment = row.interest + row.principal) ∧
    (amortizationFrom r M m month B).getLast?.map AmortizationRow.balance = some 0 := by
  have hq : (1 : ℚ) < 1 + r := by linarith
  have hD : 0 < (1 + r) ^ n - 1 := by
    have : (1 : ℚ) < (1 + r) ^ n := one_lt_pow₀ hq (by omega)
    linarith
  have hnext : (B - (M - B * r)) * ((1 + r) ^ n - 1) =
      P * ((1 + r) ^ n - (1 + r) ^ (k + 1)) := by
    have e : (B - (M - B * r)) * ((1 + r) ^ n - 1) =
        B * ((1 + r) ^ n - 1) * (1 + r) - M * ((1 + r) ^ n - 1) := by ring
    rw [e, hB, hM, pow_succ]
    ring
  induction m generalizing k month B with
  | zero => omega
  | succ m ih =>
    by_cases hm0 : m = 0
    · subst hm0
      have hk : k + 1 = n := hkm
      have hzero : B - (M - B * r) = 0 := by
        have h0 : (B - (M - B * r)) * ((1 + r) ^ n - 1) = 0 := by
          rw [hnext, hk]; ring
        rcases mul_eq_zero.mp h0 with h | h
        · exact h
        · linarith
      have hlist : amortizationFrom r M 1 month B =
          [{ month := month, payment := M, principal := M - B * r, interest := B * r,
             balance := Max.max 0 (B - (M - B * r)) }] := by
        simp only [amortizationFrom]
        split <;> rfl
      rw [hlist]
      refine ⟨rfl, ?_, ?_, ?_⟩
      · simp only [List.map_cons, List.map_nil, List.sum_cons, List.sum_nil, add_zero]
        linarith
      · intro row hrow
        simp only [List.mem_singleton] at hrow
        subst hrow
        simp
      · simp only [List.getLast?_singleton, Option.map_some', hzero, max_self]
    · have hlt : k + 1 < n := by omega
      have hpos : 0 < B - (M - B * r) := by
        have h1 : (1 + r) ^ (k + 1) < (1 + r) ^ n := pow_lt_pow_right₀ hq hlt
        have h2 : 0 < (B - (M - B * r)) * ((1 + r) ^ n - 1) := by
          rw [hnext]
          exact mul_pos hP (by linarith)
        exact (mul_pos_iff_of_pos_right hD).mp h2
      have hB2 : (B - (M - B * r)) * ((1 + r) ^ n - 1) =
          P * ((1 + r) ^ n - (1 + r) ^ (k + 1)) := hnext
      have hnext2 : (B - (M - B * r) - (M - (B - (M - B * r)) * r)) * ((1 + r) ^ n - 1) =
          P * ((1 + r) ^ n - (1 + r) ^ (k + 1 + 1)) := by
        have e : (B - (M - B * r) - (M - (B - (M - B * r)) * r)) * ((1 + r) ^ n - 1) =
            (B - (M - B * r)) * ((1 + r) ^ n - 1) * (1 + r) - M * ((1 + r) ^ n - 1) := by ring
        rw [e, hB2, hM, pow_succ (1 + r) (k + 1)]
        ring
      obtain ⟨i1, i2, i3, i4⟩ := ih (k + 1) (month + 1) (B - (M - B * r)) (by omega) (by omega)
        hB2 hnext2
      have hlist : amortizationFrom r M (m + 1) month B =
          { month := month, payment := M, principal := M - B * r, interest := B * r,
            balance := Max.max 0 (B - (M - B * r)) } ::
            amortizationFrom r M m (month + 1) (B - (M - B * r)) := by
        simp only [amortizationFrom]
        rw [if_neg (not_le.mpr hpos)]
      rw [hlist]
      refine ⟨by simp [i1], ?_, ?_, ?_⟩
      · simp only [List.map_cons, List.sum_cons, i2]
        ring
      · intro row hrow
        rcases List.mem_cons.mp hrow with rfl | h
        · simp
        · exact i3 row h
      · have hne : amortizationFrom r M m (month + 1) (B - (M - B * r)) ≠ [] := by
          intro h
          rw [h] at i1
          simp at i1
          omega
        obtain ⟨x, xs, hx⟩ := List.exists_cons_of_ne_nil hne
        rw [hx] at i4 ⊢
        rw [List.getLast?_cons_cons]
        exact i4

/-- C29: for `principal > 0`, `rate > 0` and `term ≥ 1`, in exact arithmetic, the amortization
schedule that `calculateLoanPayment` returns has exactly `term` rows, the principal parts of its
rows sum to the principal, the payment of each row is its interest part plus its principal part,
and the balance of its last row is 0. -/
theorem C29_amortization_schedule (params : LoanParams)
    (hP : 0 < params.principal) (hr : 0 < params.rate) (ht : 1 ≤ params.term) :
    (calculateLoanPayment params).amortizationSchedule.length = params.term ∧
    ((calculateLoanPayment params).amortizationSchedule.map AmortizationRow.principal).sum =
      params.principal ∧
    (∀ row ∈ (calculateLoanPayment params).amortizationSchedule,
      row.payment = row.interest + row.principal) ∧
    (calculateLoanPayment params).amortizationSchedule.getLast?.map AmortizationRow.balance =
      some 0 := by
  have hr12 : 0 < params.rate / 12 := by positivity
  have hq : (1 : ℚ) < 1 + params.rate / 12 := by linarith
  have hD : 0 < (1 + params.rate / 12) ^ params.term - 1 := by
    have : (1 : ℚ) < (1 + params.rate / 12) ^ params.term := one_lt_pow₀ hq (by omega)
    linarith
  simp only [calculateLoanPayment, generateAmortizationSchedule]
  refine amortizationFrom_spec params.principal (params.rate / 12) _ params.term hP hr12 ?_
    params.term 0 1 params.principal (by omega) ht (by rw [pow_zero])
  rw [div_mul_cancel₀ _ (ne_of_gt hD)]

/-- C29 at a concrete loan: 1200 at 12% a year over 2 months. -/
theorem C29_amortization_schedule_witness :
    0 < sampleLoan.principal ∧ 0 < sampleLoan.rate ∧ 1 ≤ sampleLoan.term ∧
    (calculateLoanPayment sampleLoan).amortizationSchedule.length = 2 ∧
    ((calculateLoanPayment sampleLoan).amortizationSchedule.map AmortizationRow.principal).sum =
      1200 :=
  ⟨by norm_num [sampleLoan], by norm_num [sampleLoan], by decide,
   (C29_amortization_schedule sampleLoan (by norm_num [sampleLoan]) (by norm_num [sampleLoan])
      (by decide)).1,
   (C29_amortization_schedule sampleLoan (by norm_num [sampleLoan]) (by norm_num [sampleLoan])
      (by decide)).2.1⟩

/-! ## Adds that fail during the fan-out -/

theorem attemptOutcomes_append_single {β : Type} (fs : List (Option String)) (A : List β)
    (d : β) :
    attemptOutcomes fs (A ++ [d]) =
      attemptOutcomes fs A ++ [(d, (fs.drop A.length).head?.join)] := by
  induction A generalizing fs with
  | nil => simp [attemptOutcomes]
  | cons a A ih =>
    cases fs with
    | nil =>
      have := ih []
      simp only [List.drop_nil] at this
      simp [attemptOutcomes, this]
    | cons f fs =>
      have := ih fs
      simp [attemptOutcomes, this]

theorem attemptOutcomes_map_fst {β : Type} (fs : List (Option String)) (A : List β) :
    (attemptOutcomes fs A).map Prod.fst = A := by
  induction A generalizing fs with
  | nil => rfl
  | cons a A ih => simp [attemptOutcomes, ih]

theorem subJobData_injective (nd : NotificationData) (u u' c c' : String)
    (h : subJobData nd u c = subJobData nd u' c') : u = u' ∧ c = c' := by
  have h1 := congrArg NotificationData.userId h
  have h2 := congrArg NotificationData.channel h
  simp only [subJobData, Option.some.injEq] at h1 h2
  exact ⟨h1, h2⟩

theorem enqueueSubJob_effect (st : FanOutState) (qn : QueueName) (jobName channel : String)
    (nd : NotificationData) (userId : String) :
    (∀ m, m ≠ qn →
      (enqueueSubJob st qn jobName channel nd userId).world.queue m = st.world.queue m) ∧
    (enqueueSubJob st qn jobName channel nd userId).world.preferenceStore =
      st.world.preferenceStore ∧
    ((enqueueSubJob st qn jobName channel nd userId).world.queue qn).faults =
      (st.world.queue qn).faults.tail ∧
    ((st.world.queue qn).faults.head?.join = none →
      ((enqueueSubJob st qn jobName channel nd userId).world.queue qn).jobs.map Job.data =
        (st.world.queue qn).jobs.map Job.data ++ [subJobData nd userId channel] ∧
      (enqueueSubJob st qn jobName channel nd userId).results =
        setKey st.results (userId ++ "_" ++ channel) "queued" ∧
      (enqueueSubJob st qn jobName channel nd userId).errors = st.errors) ∧
    (∀ msg, (st.world.queue qn).faults.head?.join = some msg →
      ((enqueueSubJob st qn jobName channel nd userId).world.queue qn).jobs =
        (st.world.queue qn).jobs ∧
      (enqueueSubJob st qn jobName channel nd userId).results = st.results ∧
      (enqueueSubJob st qn jobName channel nd userId).errors =
        st.errors ++ [channel ++ ":" ++ userId ++ " - " ++ msg]) := by
  have hne : ∀ (q : Queue) (m : QueueName), m ≠ qn →
      (st.world.setQueue qn q).queue m = st.world.queue m := by
    intro q m hm
    rw [queue_setQueue, if_neg hm]
  have hself : ∀ q : Queue, (st.world.setQueue qn q).queue qn = q := by
    intro q
    rw [queue_setQueue, if_pos rfl]
  unfold enqueueSubJob Queue.add
  rcases hf : (st.world.queue qn).faults with _ | ⟨f, rest⟩
  · refine ⟨fun m hm => ?_, ?_, ?_, ?_, ?_⟩
    · exact hne _ m hm
    · exact preferenceStore_setQueue _ _ _
    · simp only [hself, List.tail_nil]
    · intro _
      simp [hself, subJobData]
    · intro msg hmsg
      simp at hmsg
  · cases f with
    | none =>
      refine ⟨fun m hm => ?_, ?_, ?_, ?_, ?_⟩
      · exact hne _ m hm
      · exact preferenceStore_setQueue _ _ _
      · simp only [hself, List.tail_cons]
      · intro _
        simp [hself, subJobData]
      · intro msg hmsg
        simp at hmsg
    | some e =>
      refine ⟨fun m hm => ?_, ?_, ?_, ?_, ?_⟩
      · exact hne _ m hm
      · exact preferenceStore_setQueue _ _ _
      · simp only [hself, List.tail_cons]
      · intro h
        simp at h
      · intro msg hmsg
        have hmsg2 : e = msg := by simpa using hmsg
        subst hmsg2
        simp [hself]

theorem queueChannel_injective (qn q1 : QueueName) (c : String)
    (h : queueChannel qn = some c) (h1 : queueChannel q1 = some c) : qn = q1 := by
  cases qn <;> cases q1 <;> simp only [queueChannel] at h h1 <;>
    first
    | rfl
    | exact Option.noConfusion h
    | exact Option.noConfusion h1
    | (exfalso
       have e := (Option.some.inj h).trans (Option.some.inj h1).symm
       revert e
       decide)

theorem queueChannel_mem (qn : QueueName) (c : String) (h : queueChannel qn = some c) :
    c ∈ ["push", "email", "sms", "websocket"] := by
  cases qn <;> simp [queueChannel] at h <;> simp [← h]

theorem enqueueSubJob_errors_mono (st : FanOutState) (qn : QueueName) (jobName channel : String)
    (nd : NotificationData) (userId : String) :
    ∀ x ∈ st.errors, x ∈ (enqueueSubJob st qn jobName channel nd userId).errors := by
  unfold enqueueSubJob
  split
  · exact fun x hx => hx
  · exact fun x hx => List.mem_append_left _ hx

theorem enqueueSubJob_account (w : World) (nd : NotificationData) (qn : QueueName)
    (u c : String) (hq : queueChannel qn = some c) (q1 : QueueName) (jobName c1 u1 : String)
    (hq1 : queueChannel q1 = some c1) (A : List NotificationData) (st : FanOutState)
    (h : PairAccount w nd qn u c A st) :
    PairAccount w nd qn u c
      (A ++ if queueChannel qn = some c1 then [subJobData nd u1 c1] else [])
      (enqueueSubJob st q1 jobName c1 nd u1) := by
  obtain ⟨hp, hfl, hjobs, herr, hok, hno⟩ := h
  obtain ⟨e1, e2, e3, e4, e5⟩ := enqueueSubJob_effect st q1 jobName c1 nd u1
  have hc3 := queueChannel_mem qn c hq
  have hc13 := queueChannel_mem q1 c1 hq1
  by_cases hcond : queueChannel qn = some c1
  · have hqq : q1 = qn := queueChannel_injective q1 qn c1 hq1 hcond
    have hcc : c1 = c := Option.some.inj (hcond.symm.trans hq)
    subst hqq
    subst hcc
    rw [if_pos hcond]
    have hdrop : ((enqueueSubJob st q1 jobName c1 nd u1).world.queue q1).faults =
        (w.queue q1).faults.drop (A ++ [subJobData nd u1 c1]).length := by
      rw [e3, hfl, List.tail_drop, List.length_append, List.length_singleton]
    have hout : attemptOutcomes (w.queue q1).faults (A ++ [subJobData nd u1 c1]) =
        attemptOutcomes (w.queue q1).faults A ++
          [(subJobData nd u1 c1, (st.world.queue q1).faults.head?.join)] := by
      rw [attemptOutcomes_append_single, hfl]
    unfold PairAccount
    rw [hout]
    unfold queueData at hjobs ⊢
    rcases ho : (st.world.queue q1).faults.head?.join with _ | msg
    · obtain ⟨j1, j2, j3⟩ := e4 ho
      refine ⟨e2.trans hp, hdrop, ?_, ?_, ?_, ?_⟩
      · rw [j1, hjobs, List.filter_append, List.map_append, List.append_assoc]
        rfl
      · intro m hm
        rw [j3]
        rcases List.mem_append.mp hm with hm | hm
        · exact herr m hm
        · simp at hm
      · intro hm
        rw [j2]
        by_cases hk : u ++ "_" ++ c1 = u1 ++ "_" ++ c1
        · rw [hk]
          exact lookup_setKey_self _ _ _
        · rw [lookup_setKey_ne _ _ _ _ hk]
          apply hok
          rcases List.mem_append.mp hm with hm | hm
          · exact hm
          · exfalso
            simp only [List.mem_singleton, Prod.mk.injEq, and_true] at hm
            have := (subJobData_injective nd u u1 c1 c1 hm).1
            exact hk (by rw [this])
      · intro hm
        rw [j2]
        have hu : u ≠ u1 := by
          intro e
          apply hm
          rw [e]
          exact List.mem_append_right _ (List.mem_singleton_self _)
        have hk : u ++ "_" ++ c1 ≠ u1 ++ "_" ++ c1 :=
          fun hk => hu (key_injective u u1 c1 c1 hc3 hc3 hk).1
        rw [lookup_setKey_ne _ _ _ _ hk]
        exact hno (fun h => hm (List.mem_append_left _ h))
    · obtain ⟨j1, j2, j3⟩ := e5 msg ho
      refine ⟨e2.trans hp, hdrop, ?_, ?_, ?_, ?_⟩
      · rw [j1, hjobs, List.filter_append]
        simp
      · intro m hm
        rw [j3]
        rcases List.mem_append.mp hm with hm | hm
        · exact List.mem_append_left _ (herr m hm)
        · simp only [List.mem_singleton, Prod.mk.injEq, Option.some.injEq] at hm
          have := (subJobData_injective nd u u1 c1 c1 hm.1).1
          rw [this, hm.2]
          exact List.mem_append_right _ (List.mem_singleton_self _)
      · intro hm
        rw [j2]
        apply hok
        rcases List.mem_append.mp hm with hm | hm
        · exact hm
        · simp at hm
      · intro hm
        rw [j2]
        exact hno (fun h => hm (List.mem_append_left _ h))
  · rw [if_neg hcond, List.append_nil]
    have hqq : qn ≠ q1 := by
      intro e
      apply hcond
      rw [e]
      exact hq1
    have hcne : c ≠ c1 := by
      intro e
      apply hcond
      rw [← e]
      exact hq
    have hkey : u ++ "_" ++ c ≠ u1 ++ "_" ++ c1 :=
      fun hk => hcne (key_injective u u1 c c1 hc3 hc13 hk).2
    have hres : List.lookup (u ++ "_" ++ c) (enqueueSubJob st q1 jobName c1 nd u1).results =
        List.lookup (u ++ "_" ++ c) st.results := by
      rcases enqueueSubJob_results_eq st q1 jobName c1 nd u1 with e | e
      · rw [e]
      · rw [e, lookup_setKey_ne _ _ _ _ hkey]
    refine ⟨e2.trans hp, ?_, ?_, ?_, ?_, ?_⟩
    · rw [e1 qn hqq]
      exact hfl
    · unfold queueData at hjobs ⊢
      rw [e1 qn hqq]
      exact hjobs
    · intro msg hm
      exact enqueueSubJob_errors_mono st q1 jobName c1 nd u1 _ (herr msg hm)
    · intro hm
      rw [hres]
      exact hok hm
    · intro hm
      rw [hres]
      exact hno hm

theorem processChannel_account (w : World) (nd : NotificationData) (qn : QueueName)
    (u c : String) (hq : queueChannel qn = some c) (u1 : String) (prefs : Option PreferencesObject)
    (A : List NotificationData) (st : FanOutState) (c1 : String)
    (h : PairAccount w nd qn u c A st) :
    PairAccount w nd qn u c (A ++ channelSubJobs nd u1 prefs qn c1)
      (processChannel nd u1 prefs st c1) := by
  unfold processChannel channelSubJobs
  by_cases hd : channelDisabled prefs nd.type c1 = true
  · rw [if_pos hd, if_neg (by simp [hd]), List.append_nil]
    exact h
  · have hd2 : channelDisabled prefs nd.type c1 = false := by simpa using hd
    rw [if_neg hd]
    simp only [hd2, true_and]
    by_cases h1 : c1 = "push"
    · rw [if_pos h1]; subst h1
      exact enqueueSubJob_account w nd qn u c hq .push _ "push" u1 rfl A st h
    rw [if_neg h1]
    by_cases h2 : c1 = "email"
    · rw [if_pos h2]; subst h2
      exact enqueueSubJob_account w nd qn u c hq .email _ "email" u1 rfl A st h
    rw [if_neg h2]
    by_cases h3 : c1 = "sms"
    · rw [if_pos h3]; subst h3
      exact enqueueSubJob_account w nd qn u c hq .sms _ "sms" u1 rfl A st h
    rw [if_neg h3]
    have hqc : ¬ queueChannel qn = some c1 := by
      cases qn <;> simp [queueChannel] <;> intro hh <;> simp_all
    rw [if_neg hqc, List.append_nil]
    by_cases h4 : c1 = "websocket"
    · rw [if_pos h4]
      obtain ⟨hp, hfl, hjobs, herr, hok, hno⟩ := h
      have hcw : c ≠ "websocket" := by
        intro e
        rw [e] at hq
        cases qn <;> simp [queueChannel] at hq
      have hk : u ++ "_" ++ c ≠ u1 ++ "_" ++ "websocket" :=
        fun hk => hcw (key_injective u u1 c "websocket" (queueChannel_mem qn c hq)
          (by simp) hk).2
      have hqueue : ∀ ws : List NotificationData,
          ({ st.world with websocketSent := ws } : World).queue qn = st.world.queue qn := by
        intro ws
        cases qn <;> rfl
      refine ⟨hp, ?_, ?_, herr, ?_, ?_⟩
      · exact (congrArg Queue.faults (hqueue _)).trans hfl
      · unfold queueData at hjobs ⊢
        exact (congrArg (fun q : Queue => q.jobs.map Job.data) (hqueue _)).trans hjobs
      · intro hm
        show List.lookup (u ++ "_" ++ c)
          (setKey st.results (u1 ++ "_" ++ "websocket") "sent") = _
        rw [lookup_setKey_ne _ _ _ _ hk]
        exact hok hm
      · intro hm
        show List.lookup (u ++ "_" ++ c)
          (setKey st.results (u1 ++ "_" ++ "websocket") "sent") = _
        rw [lookup_setKey_ne _ _ _ _ hk]
        exact hno hm
    · rw [if_neg h4]
      exact h

theorem foldl_ghost {σ α β : Type} (I : List β → σ → Prop) (g : α → List β) (f : σ → α → σ)
    (xs : List α) (hstep : ∀ A s x, x ∈ xs → I A s → I (A ++ g x) (f s x))
    (A : List β) (s : σ) (h : I A s) : I (A ++ xs.flatMap g) (xs.foldl f s) := by
  induction xs generalizing A s with
  | nil => simpa using h
  | cons x xs ih =>
    simp only [List.foldl_cons, List.flatMap_cons]
    rw [← List.append_assoc]
    exact ih (fun A s y hy hs => hstep A s y (List.mem_cons_of_mem _ hy) hs) _ _
      (hstep A s x (List.mem_cons_self _ _) h)

theorem fanOut_account (w : World) (nd : NotificationData) (qn : QueueName) (u c : String)
    (hq : queueChannel qn = some c) :
    PairAccount w nd qn u c (expectedSubJobs w nd qn) (fanOut w nd) := by
  unfold fanOut expectedSubJobs
  have h0 : PairAccount w nd qn u c [] { world := w, results := [], errors := [] } := by
    refine ⟨rfl, rfl, ?_, ?_, ?_, ?_⟩
    · simp [queueData, attemptOutcomes]
    · intro msg hm
      simp [attemptOutcomes] at hm
    · intro hm
      simp [attemptOutcomes] at hm
    · intro _
      rfl
  have := foldl_ghost (PairAccount w nd qn u c)
    (fun u1 => nd.channels.flatMap
      (channelSubJobs nd u1 (getUserPreferences w.preferenceStore u1) qn))
    (processRecipient nd) nd.recipients
    (by
      intro A st u1 _ hst
      unfold processRecipient
      simp only [hst.1]
      exact foldl_ghost (PairAccount w nd qn u c) _ _ nd.channels
        (fun A1 s c1 _ hs => processChannel_account w nd qn u c hq u1 _ A1 s c1 hs) A st hst)
    [] { world := w, results := [], errors := [] } h0
  simpa using this

theorem outcomes_for_recipient (w : World) (nd : NotificationData) (qn : QueueName)
    (u c : String) (hrec : nd.recipients.Nodup) (hch : nd.channels.Nodup)
    (hu : u ∈ nd.recipients) (hc : c ∈ nd.channels)
    (hen : channelDisabled (getUserPreferences w.preferenceStore u) nd.type c = false)
    (hq : queueChannel qn = some c) (fs : List (Option String)) :
    ∃ o, (attemptOutcomes fs (expectedSubJobs w nd qn)).filter
        (fun p => p.1.userId = some u) = [(subJobData nd u c, o)] := by
  have h1 := expectedSubJobs_for_recipient w nd qn u c hrec hch hu hc hen hq
  rw [← attemptOutcomes_map_fst fs (expectedSubJobs w nd qn), List.filter_map] at h1
  have h2 : List.filter ((fun d : NotificationData => decide (d.userId = some u)) ∘ Prod.fst)
      (attemptOutcomes fs (expectedSubJobs w nd qn)) =
      List.filter (fun p : NotificationData × Option String => decide (p.1.userId = some u))
        (attemptOutcomes fs (expectedSubJobs w nd qn)) := rfl
  rw [h2] at h1
  generalize List.filter (fun p : NotificationData × Option String =>
    decide (p.1.userId = some u)) (attemptOutcomes fs (expectedSubJobs w nd qn)) = X at h1
  match X, h1 with
  | [(d, o)], h1 =>
    simp only [List.map_cons, List.map_nil, List.cons.injEq, and_true] at h1
    exact ⟨o, by rw [h1]⟩
  | [], h1 => simp at h1
  | _ :: _ :: _, h1 => simp at h1

theorem filter_succeeded_comm {β : Type} (O : List (β × Option String)) (P : β → Bool) :
    ((O.filter (fun p => p.2.isNone)).map Prod.fst).filter P =
      ((O.filter (fun p => P p.1)).filter (fun p => p.2.isNone)).map Prod.fst := by
  induction O with
  | nil => rfl
  | cons p O ih =>
    by_cases h1 : p.2.isNone = true <;> by_cases h2 : P p.1 = true <;>
      simp [List.filter_cons, h1, h2, ih]

/-- C27: in a run of the send-notification handler on duplicate-free recipients and channels,
take a recipient `u` and a requested channel `c` that pass the preference check, and the queue
`qn` of `c`. Whatever adds fail, on this or on other queues: the handler returns
`success = true`; the jobs added to `qn` are exactly the sub-jobs attempted on it whose own add
did not fail, in order; the add for `(u, c)` is attempted; if it fails with `msg`, the returned
`errors` contain `c:u - msg`, `results` has no key for `(u, c)` and `qn` received no job for `u`;
if it does not fail, `results` maps the key of `(u, c)` to `queued` and `qn` received exactly the
sub-job of `(u, c)` for `u`. -/
theorem C27_enqueue_failure_isolated (w : World) (job : Job) (now : Int) (u c : String)
    (qn : QueueName)
    (hrec : job.data.recipients.Nodup) (hch : job.data.channels.Nodup)
    (hu : u ∈ job.data.recipients) (hc : c ∈ job.data.channels)
    (hen : channelDisabled (getUserPreferences w.preferenceStore u) job.data.type c = false)
    (hq : queueChannel qn = some c) :
    (sendNotificationHandler w job now).2.success = true ∧
    (addedJobs w (sendNotificationHandler w job now).1 qn).map Job.data =
      ((attemptOutcomes (w.queue qn).faults (expectedSubJobs w job.data qn)).filter
        (fun p => p.2.isNone)).map Prod.fst ∧
    (∃ o, (subJobData job.data u c, o) ∈
      attemptOutcomes (w.queue qn).faults (expectedSubJobs w job.data qn)) ∧
    (∀ msg, (subJobData job.data u c, some msg) ∈
        attemptOutcomes (w.queue qn).faults (expectedSubJobs w job.data qn) →
      (∃ errs, (sendNotificationHandler w job now).2.errors = some errs ∧
        (c ++ ":" ++ u ++ " - " ++ msg) ∈ errs) ∧
      List.lookup (u ++ "_" ++ c) (sendNotificationHandler w job now).2.results = none ∧
      (addedJobs w (sendNotificationHandler w job now).1 qn).filter
        (fun j => j.data.userId = some u) = []) ∧
    ((subJobData job.data u c, none) ∈
        attemptOutcomes (w.queue qn).faults (expectedSubJobs w job.data qn) →
      List.lookup (u ++ "_" ++ c) (sendNotificationHandler w job now).2.results =
        some "queued" ∧
      ((addedJobs w (sendNotificationHandler w job now).1 qn).filter
        (fun j => j.data.userId = some u)).map Job.data = [subJobData job.data u c]) := by
  obtain ⟨-, -, hjobs, herr, hok, hno⟩ := fanOut_account w job.data qn u c hq
  obtain ⟨o1, ho1⟩ := outcomes_for_recipient w job.data qn u c hrec hch hu hc hen hq
    (w.queue qn).faults
  have hadded : (addedJobs w (fanOut w job.data).world qn).map Job.data =
      ((attemptOutcomes (w.queue qn).faults (expectedSubJobs w job.data qn)).filter
        (fun p => p.2.isNone)).map Prod.fst := by
    unfold queueData at hjobs
    unfold addedJobs
    rw [List.map_drop, hjobs]
    exact List.drop_left' (by simp)
  have hmemf : ∀ o, (subJobData job.data u c, o) ∈
      attemptOutcomes (w.queue qn).faults (expectedSubJobs w job.data qn) →
      (subJobData job.data u c, o) ∈ [(subJobData job.data u c, o1)] := by
    intro o hm
    rw [← ho1]
    exact List.mem_filter.mpr ⟨hm, by simp [subJobData]⟩
  have huniq : ∀ o, (subJobData job.data u c, o) ∈
      attemptOutcomes (w.queue qn).faults (expectedSubJobs w job.data qn) → o = o1 := by
    intro o hm
    have := hmemf o hm
    simp only [List.mem_singleton, Prod.mk.injEq, true_and] at this
    exact this
  have hfiltered : ((addedJobs w (fanOut w job.data).world qn).filter
      (fun j => j.data.userId = some u)).map Job.data =
      (([(subJobData job.data u c, o1)] : List (NotificationData × Option String)).filter
        (fun p => p.2.isNone)).map Prod.fst := by
    have e1 : ((addedJobs w (fanOut w job.data).world qn).filter
        (fun j => j.data.userId = some u)).map Job.data =
        ((addedJobs w (fanOut w job.data).world qn).map Job.data).filter
          (fun d => d.userId = some u) := by
      rw [List.filter_map]
      rfl
    rw [e1, hadded, filter_succeeded_comm, ho1]
  rw [addedJobs_sendNotificationHandler]
  refine ⟨rfl, hadded, ⟨o1, ?_⟩, ?_, ?_⟩
  · have : (subJobData job.data u c, o1) ∈
        (attemptOutcomes (w.queue qn).faults (expectedSubJobs w job.data qn)).filter
          (fun p => p.1.userId = some u) := by
      rw [ho1]
      exact List.mem_singleton_self _
    exact (List.mem_filter.mp this).1
  · intro msg hm
    have ho : some msg = o1 := huniq _ hm
    refine ⟨⟨(fanOut w job.data).errors, ?_, herr msg hm⟩, ?_, ?_⟩
    · show (if (fanOut w job.data).errors.length > 0 then some (fanOut w job.data).errors
        else none) = _
      rw [if_pos (List.length_pos_of_mem (herr msg hm))]
    · apply hno
      intro hnone
      have := huniq _ hnone
      rw [← ho] at this
      exact Option.noConfusion this
    · rw [← ho] at hfiltered
      simpa using hfiltered
  · intro hm
    have ho : none = o1 := huniq _ hm
    refine ⟨hok hm, ?_⟩
    rw [← ho] at hfiltered
    simpa using hfiltered

/-- C27 at a concrete run: the sms queue rejects its first add, which is the one for `u1`; the
later add for `u2` on the same queue succeeds. -/
theorem C27_enqueue_failure_isolated_witness :
    twoRecipientsJob.data.recipients.Nodup ∧ twoRecipientsJob.data.channels.Nodup ∧
    ((∃ errs, (sendNotificationHandler smsDownWorld twoRecipientsJob 0).2.errors = some errs ∧
        ("sms" ++ ":" ++ "u1" ++ " - " ++ "queue unavailable") ∈ errs) ∧
      List.lookup ("u1" ++ "_" ++ "sms")
        (sendNotificationHandler smsDownWorld twoRecipientsJob 0).2.results = none ∧
      (addedJobs smsDownWorld (sendNotificationHandler smsDownWorld twoRecipientsJob 0).1
        .sms).filter (fun j => j.data.userId = some "u1") = []) ∧
    (List.lookup ("u2" ++ "_" ++ "sms")
        (sendNotificationHandler smsDownWorld twoRecipientsJob 0).2.results = some "queued" ∧
      ((addedJobs smsDownWorld (sendNotificationHandler smsDownWorld twoRecipientsJob 0).1
        .sms).filter (fun j => j.data.userId = some "u2")).map Job.data =
        [subJobData twoRecipientsJob.data "u2" "sms"]) ∧
    (sendNotificationHandler smsDownWorld twoRecipientsJob 0).2.success = true :=
  ⟨by decide, by decide,
   (C27_enqueue_failure_isolated smsDownWorld twoRecipientsJob 0 "u1" "sms" .sms (by decide)
      (by decide) (by decide) (by decide) (by decide) rfl).2.2.2.1 "queue unavailable"
      (by decide),
   (C27_enqueue_failure_isolated smsDownWorld twoRecipientsJob 0 "u2" "sms" .sms (by decide)
      (by decide) (by decide) (by decide) (by decide) rfl).2.2.2.2 (by decide),
   (C27_enqueue_failure_isolated smsDownWorld twoRecipientsJob 0 "u1" "sms" .sms (by decide)
      (by decide) (by decide) (by decide) (by decide) rfl).1⟩

end NotificationService
